import Mathlib

/-!
Socks5BalancerAsio: upstream pool and SOCKS5 client handshake.

A shallow embedding of `src/UpstreamPool.h` (the upstream registry and the
selection policies of `getServerBasedOnAddress`) and of
`src/ProxyHandshakeUtils/Socks5ClientImpl.cpp` (the client side of the SOCKS5
handshake), followed by the properties established about them.

Conventions of the embedding
* `size_t` values are `Nat`, and `++` on a `size_t` is taken modulo `2 ^ 64`.
* `std::chrono` time points and durations are `Int` tick counts; the
  default-constructed time point (the clock's epoch) is `0`.
* octets are `Nat`; a `static_cast<uint8_t>` is `% 256`.
* a `while (true)` loop takes a fuel argument and reports `Fault.outOfFuel`
  when the fuel runs out before the loop returns.
* reading a container outside its bounds (undefined behaviour in the source) is
  reported as `Fault.outOfRange`.
-/

/-! ## Upstream pool: data model -/

/-- The tick count of a `std::chrono::time_point<std::chrono::system_clock>`. -/
abbrev UpstreamTimePoint := Int

/-- The record `struct UpstreamServer` of `UpstreamPool.h`, with the initial
values its member initialisers give. -/
structure UpstreamServer where
  host : String
  port : Nat
  name : String
  index : Nat
  lastOnlineTime : Option UpstreamTimePoint := none
  lastConnectTime : Option UpstreamTimePoint := none
  lastConnectFailed : Bool := true
  isOffline : Bool := true
  connectCount : Nat := 0
  isManualDisable : Bool := false
  disable : Bool := false
deriving DecidableEq, Repr

/-- Modelled from the spec: the enumeration `RuleEnum` is declared in
`ConfigLoader.h`, which is not among the sources; the spec lists its values as
`upstreamSelectRule ∈ {loop, one_by_one, change_by_time, random}`. -/
inductive RuleEnum where
  | loop
  | one_by_one
  | change_by_time
  | random
deriving DecidableEq, Repr

/-- The ways in which a run of the embedded code can fail to produce a result. -/
inductive Fault where
  | outOfFuel
  | outOfRange
deriving DecidableEq, Repr

/-- The members of `class UpstreamPool` that the selection code reads or writes.
The two configuration values are the ones read through `_configLoader->config`.
The entries of `_pool` are the objects `setConfig` creates with `make_shared`,
so none of them is a null pointer. -/
structure UpstreamPool where
  _pool : List UpstreamServer
  lastUseUpstreamIndex : Nat := 0
  lastChangeUpstreamTime : UpstreamTimePoint := 0
  upstreamSelectRule : RuleEnum
  serverChangeTime : Int
deriving DecidableEq, Repr

/-- The result of a selection: the returned `UpstreamServerRef` (`none` for the
null reference) and the pool after the call. -/
abbrev PickResult := Except Fault (Option UpstreamServer × UpstreamPool)

/-! ## Upstream pool: operations -/

/-- The modulus of `size_t` arithmetic. -/
def SIZE_MOD : Nat := 2 ^ 64

/-- The method `UpstreamPool::forceSetLastUseUpstreamIndex(int i)`. In the
comparison `i < _pool.size()` the `int` is converted to `size_t`. -/
def forceSetLastUseUpstreamIndex (p : UpstreamPool) (i : Int) : UpstreamPool :=
  if 0 ≤ i ∧ (i % (SIZE_MOD : Int)).toNat < p._pool.length then
    { p with lastUseUpstreamIndex := (i % (SIZE_MOD : Int)).toNat }
  else p

/-- The method `UpstreamPool::getLastUseUpstreamIndex`. -/
def getLastUseUpstreamIndex (p : UpstreamPool) : Nat :=
  p.lastUseUpstreamIndex

/-- The method `UpstreamPool::checkServer`, for a non-null reference. -/
def checkServer (u : UpstreamServer) : Bool :=
  u.lastConnectTime.isSome
    && u.lastOnlineTime.isSome
    && !u.lastConnectFailed
    && !u.isOffline
    && !u.isManualDisable

/-- The statement `++lastUseUpstreamIndex;` on a `size_t`. -/
def incIndex (i : Nat) : Nat :=
  (i + 1) % SIZE_MOD

/-- The statement `if (lastUseUpstreamIndex >= _pool.size()) lastUseUpstreamIndex = 0;`. -/
def wrapIndex (i size : Nat) : Nat :=
  if i ≥ size then 0 else i

/-- The `while (true)` loop of `UpstreamPool::getNextServer`; `start` is the
local `_lastUseUpstreamIndex`. -/
def getNextServerLoop (start : Nat) : Nat → UpstreamPool → PickResult
  | 0, _ => .error .outOfFuel
  | fuel + 1, p =>
    let i2 := wrapIndex (incIndex p.lastUseUpstreamIndex) p._pool.length
    let p2 := { p with lastUseUpstreamIndex := i2 }
    match p._pool[i2]? with
    | none => .error .outOfRange
    | some u =>
      if checkServer u then .ok (some u, p2)
      else if start = i2 then .ok (none, p2)
      else getNextServerLoop start fuel p2

/-- The method `UpstreamPool::getNextServer`. -/
def getNextServer (fuel : Nat) (p : UpstreamPool) : PickResult :=
  getNextServerLoop p.lastUseUpstreamIndex fuel p

/-- The `while (true)` loop of `UpstreamPool::tryGetLastServer`; `start` is the
local `_lastUseUpstreamIndex`. -/
def tryGetLastServerLoop (start : Nat) : Nat → UpstreamPool → PickResult
  | 0, _ => .error .outOfFuel
  | fuel + 1, p =>
    let i0 := wrapIndex p.lastUseUpstreamIndex p._pool.length
    match p._pool[i0]? with
    | none => .error .outOfRange
    | some u =>
      if checkServer u then .ok (some u, { p with lastUseUpstreamIndex := i0 })
      else
        let i2 := wrapIndex (incIndex i0) p._pool.length
        let p2 := { p with lastUseUpstreamIndex := i2 }
        if start = i2 then .ok (none, p2)
        else tryGetLastServerLoop start fuel p2

/-- The method `UpstreamPool::tryGetLastServer`. -/
def tryGetLastServer (fuel : Nat) (p : UpstreamPool) : PickResult :=
  tryGetLastServerLoop p.lastUseUpstreamIndex fuel p

/-- The method `UpstreamPool::filterValidServer`: one pass over `_pool`,
appending each entry that passes `checkServer`. -/
def filterValidServer (p : UpstreamPool) : List UpstreamServer :=
  p._pool.foldl (fun r a => if checkServer a then r ++ [a] else r) []

/-- The method `UpstreamPool::getServerBasedOnAddress`.

* `now` is the value `UpstreamTimePointNow()` returns during the call;
* `draw hi` is the value `std::uniform_int_distribution<size_t>(0, hi)` produces
  from `randomGenerator` during the call;
* `fuel` bounds the iterations of the scanning loops.

In the `change_by_time` case the local `UpstreamTimePoint t;` is
default-constructed, that is, the epoch `0`. -/
def getServerBasedOnAddress (now : UpstreamTimePoint) (draw : Nat → Nat) (fuel : Nat)
    (p : UpstreamPool) : PickResult :=
  match p.upstreamSelectRule with
  | .loop => getNextServer fuel p
  | .one_by_one => tryGetLastServer fuel p
  | .change_by_time =>
    let t : UpstreamTimePoint := 0
    let d := p.serverChangeTime
    if (t - p.lastChangeUpstreamTime) > d then
      match getNextServer fuel p with
      | .error e => .error e
      | .ok (s, p2) => .ok (s, { p2 with lastChangeUpstreamTime := now })
    else
      tryGetLastServer fuel p
  | .random =>
    let rs := filterValidServer p
    if !rs.isEmpty then
      let i := draw (rs.length - 1)
      match rs[i]? with
      | none => .error .outOfRange
      | some s => .ok (some s, p)
    else
      .ok (none, p)

/-! ## Upstream pool: construction, configuration and health probes -/

/-- Modelled from the spec: an element of `config.upstream`, declared in
`ConfigLoader.h`, which is not among the sources; `setConfig` reads its
members `name`, `host`, `port` and `disable`. -/
structure UpstreamConfig where
  name : String
  host : String
  port : Nat
  disable : Bool := false
deriving DecidableEq, Repr

/-- Modelled from the spec: the members of `_configLoader->config`, declared in
`ConfigLoader.h`, that the pool reads: the upstream list, the selection rule
and `serverChangeTime`. -/
structure LoaderConfig where
  upstream : List UpstreamConfig
  upstreamSelectRule : RuleEnum
  serverChangeTime : Int
deriving DecidableEq, Repr

/-- The constructor `UpstreamServer(index, name, host, port, disable)`; the
other members keep their initialisers. -/
def newUpstreamServer (index : Nat) (r : UpstreamConfig) : UpstreamServer :=
  { host := r.host, port := r.port, name := r.name, index := index, disable := r.disable }

/-- The loop `for (size_t i = 0; i != c.size(); ++i)` of `setConfig`, from index
`i` on: each entry is appended to `_pool` with `push_back`. -/
def setConfigLoop : List UpstreamConfig → Nat → List UpstreamServer → List UpstreamServer
  | [], _, pool => pool
  | r :: rest, i, pool => setConfigLoop rest (i + 1) (pool ++ [newUpstreamServer i r])

/-- The method `UpstreamPool::setConfig`: it stores the configuration, clears
`_pool` and fills it again; it assigns neither `lastUseUpstreamIndex` nor
`lastChangeUpstreamTime`. -/
def setConfig (p : UpstreamPool) (c : LoaderConfig) : UpstreamPool :=
  { p with
    _pool := setConfigLoop c.upstream 0 [],
    upstreamSelectRule := c.upstreamSelectRule,
    serverChangeTime := c.serverChangeTime }

/-- The pool as the constructor of `UpstreamPool` leaves it: `_pool` empty,
`lastUseUpstreamIndex = 0`, `lastChangeUpstreamTime` the epoch.
`_configLoader` is still null, so the two configuration values cannot be read
in this state; the arguments stand for them. -/
def constructedPool (rule : RuleEnum) (serverChangeTime : Int) : UpstreamPool :=
  { _pool := [],
    lastUseUpstreamIndex := 0,
    lastChangeUpstreamTime := 0,
    upstreamSelectRule := rule,
    serverChangeTime := serverChangeTime }

/-- The success callback of the TCP probe in `do_tcpCheckerTimer`; `now` is the
value of `UpstreamTimePointNow()`. -/
def tcpProbeOk (now : UpstreamTimePoint) (a : UpstreamServer) : UpstreamServer :=
  let a := if a.isOffline then { a with lastConnectFailed := false } else a
  let a := { a with lastOnlineTime := some now }
  { a with isOffline := false }

/-- The error callback of the TCP probe in `do_tcpCheckerTimer`. -/
def tcpProbeError (a : UpstreamServer) : UpstreamServer :=
  { a with isOffline := true }

/-- The success callback of the HTTPS probe in `do_connectCheckerTimer`; `now`
is the value of `UpstreamTimePointNow()`. -/
def connectProbeOk (now : UpstreamTimePoint) (a : UpstreamServer) : UpstreamServer :=
  let a := { a with lastConnectTime := some now }
  { a with lastConnectFailed := false }

/-- The error callback of the HTTPS probe in `do_connectCheckerTimer`. -/
def connectProbeError (a : UpstreamServer) : UpstreamServer :=
  { a with lastConnectFailed := true }

/-- The outcome of one probe of a server, with the time at which a successful
probe completes. -/
inductive ProbeOutcome where
  | tcpOk (now : UpstreamTimePoint)
  | tcpError
  | connectOk (now : UpstreamTimePoint)
  | connectError
deriving DecidableEq, Repr

/-- The callback that a probe outcome runs on the server. -/
def applyProbe (a : UpstreamServer) : ProbeOutcome → UpstreamServer
  | .tcpOk now => tcpProbeOk now a
  | .tcpError => tcpProbeError a
  | .connectOk now => connectProbeOk now a
  | .connectError => connectProbeError a

/-- The callbacks of a finite sequence of probe outcomes, run in order. -/
def applyProbes (a : UpstreamServer) (outcomes : List ProbeOutcome) : UpstreamServer :=
  outcomes.foldl applyProbe a

/-- One public operation on the pool: `setConfig`,
`forceSetLastUseUpstreamIndex`, or a call of `getServerBasedOnAddress` that
returns. -/
inductive PoolStep : UpstreamPool → UpstreamPool → Prop where
  | setConfig (p : UpstreamPool) (c : LoaderConfig) : PoolStep p (setConfig p c)
  | forceSet (p : UpstreamPool) (i : Int) : PoolStep p (forceSetLastUseUpstreamIndex p i)
  | pick (p : UpstreamPool) (now : UpstreamTimePoint) (draw : Nat → Nat) (fuel : Nat)
      (r : Option UpstreamServer) (p' : UpstreamPool)
      (h : getServerBasedOnAddress now draw fuel p = .ok (r, p')) : PoolStep p p'

/-- The states of the pool reachable from its construction by any sequence of
public operations. -/
inductive Reachable (rule : RuleEnum) (serverChangeTime : Int) : UpstreamPool → Prop where
  | constructed : Reachable rule serverChangeTime (constructedPool rule serverChangeTime)
  | step (p q : UpstreamPool) (hp : Reachable rule serverChangeTime p) (hs : PoolStep p q) :
      Reachable rule serverChangeTime q

/-- A public operation that is not a `setConfig` with too short a list: a
`setConfig` is admitted only when its upstream list has more than
`lastUseUpstreamIndex` entries. -/
inductive CursorKeepingStep : UpstreamPool → UpstreamPool → Prop where
  | setConfig (p : UpstreamPool) (c : LoaderConfig)
      (h : p.lastUseUpstreamIndex < c.upstream.length) : CursorKeepingStep p (setConfig p c)
  | forceSet (p : UpstreamPool) (i : Int) :
      CursorKeepingStep p (forceSetLastUseUpstreamIndex p i)
  | pick (p : UpstreamPool) (now : UpstreamTimePoint) (draw : Nat → Nat) (fuel : Nat)
      (r : Option UpstreamServer) (p' : UpstreamPool)
      (h : getServerBasedOnAddress now draw fuel p = .ok (r, p')) : CursorKeepingStep p p'

/-- The invariant of the spec: `lastUseUpstreamIndex ∈ [0, N)`. -/
def cursorInRange (p : UpstreamPool) : Prop :=
  p.lastUseUpstreamIndex < p._pool.length

/-- A configuration with three upstream servers. -/
def threeUpstreams : LoaderConfig :=
  { upstream := [{ name := "a", host := "127.0.0.1", port := 1080 },
                 { name := "b", host := "127.0.0.1", port := 1081 },
                 { name := "c", host := "127.0.0.1", port := 1082 }],
    upstreamSelectRule := .loop,
    serverChangeTime := 10 }

/-- A configuration with a single upstream server. -/
def oneUpstream : LoaderConfig :=
  { upstream := [{ name := "a", host := "127.0.0.1", port := 1080 }],
    upstreamSelectRule := .loop,
    serverChangeTime := 10 }

/-- The pool after `setConfig` with three servers, `forceSetLastUseUpstreamIndex(2)`
and a second `setConfig` with a single server. -/
def shrunkPool : UpstreamPool :=
  setConfig (forceSetLastUseUpstreamIndex (setConfig (constructedPool .loop 10) threeUpstreams) 2)
    oneUpstream

/-! ## Upstream pool: sequences of picks, probes on the registry, check timers -/

/-- The circumstances of one call of `getServerBasedOnAddress`: the clock value,
the draw of the random engine and the fuel of the scanning loop. -/
structure PickCall where
  now : UpstreamTimePoint
  draw : Nat → Nat
  fuel : Nat

/-- Consecutive calls of `getServerBasedOnAddress`, one per element of
`calls`: the references returned, in order, and the pool after the last call. -/
def runPicks : List PickCall → UpstreamPool →
    Except Fault (List (Option UpstreamServer) × UpstreamPool)
  | [], p => .ok ([], p)
  | c :: rest, p =>
    match getServerBasedOnAddress c.now c.draw c.fuel p with
    | .error e => .error e
    | .ok (r, p1) =>
      match runPicks rest p1 with
      | .error e => .error e
      | .ok (rs, q) => .ok (r :: rs, q)

/-- A probe callback run on the server of slot `i` of the registry (the
callbacks hold the `UpstreamServerRef` taken from `_pool`). -/
def applyProbeAt (p : UpstreamPool) (i : Nat) (o : ProbeOutcome) : UpstreamPool :=
  match p._pool[i]? with
  | some a => { p with _pool := p._pool.set i (applyProbe a o) }
  | none => p

/-- Modelled from the spec: the four timer durations of `_configLoader->config`,
declared in `ConfigLoader.h`, which is not among the sources. -/
structure TimerConfig where
  tcpCheckStart : Int
  tcpCheckPeriod : Int
  connectCheckStart : Int
  connectCheckPeriod : Int
deriving DecidableEq, Repr

/-- The expiry times of `tcpCheckerTimer` and `connectCheckerTimer`, measured
from the instant at which `startCheckTimer` creates them. -/
structure CheckTimers where
  tcpExpiry : Int
  connectExpiry : Int
deriving DecidableEq, Repr

/-- The method `UpstreamPool::startCheckTimer`: each timer is created with its
start delay as expiry. -/
def startCheckTimer (c : TimerConfig) : CheckTimers :=
  { tcpExpiry := c.tcpCheckStart, connectExpiry := c.connectCheckStart }

/-- The re-arming of the handler in `do_tcpCheckerTimer`:
`tcpCheckerTimer->expires_at(tcpCheckerTimer->expiry() + tcpCheckPeriod)`. -/
def do_tcpCheckerTimer (c : TimerConfig) (t : CheckTimers) : CheckTimers :=
  { t with tcpExpiry := t.tcpExpiry + c.tcpCheckPeriod }

/-- The re-arming of the handler in `do_connectCheckerTimer`:
`connectCheckerTimer->expires_at(tcpCheckerTimer->expiry() + connectCheckPeriod)`. -/
def do_connectCheckerTimer (c : TimerConfig) (t : CheckTimers) : CheckTimers :=
  { t with connectExpiry := t.tcpExpiry + c.connectCheckPeriod }

/-- The two timers. -/
inductive TimerKind where
  | tcp
  | connect
deriving DecidableEq, Repr

/-- The handler of the timer that fires. -/
def fireTimer (c : TimerConfig) (t : CheckTimers) : TimerKind → CheckTimers
  | .tcp => do_tcpCheckerTimer c t
  | .connect => do_connectCheckerTimer c t

/-- The timers after the handlers of `fired` have run, in that order. -/
def fireTimers (c : TimerConfig) (t : CheckTimers) (fired : List TimerKind) : CheckTimers :=
  fired.foldl (fireTimer c) t

/-- The timer that expires first; when both expire at the same instant the TCP
timer, which was started first, is taken. -/
def nextTimer (t : CheckTimers) : TimerKind :=
  if t.tcpExpiry ≤ t.connectExpiry then .tcp else .connect

/-- The first `n` ticks of the two timers in the order of their expiry: which
timer fires and at what time. -/
def tickLog (c : TimerConfig) : Nat → CheckTimers → List (TimerKind × Int)
  | 0, _ => []
  | n + 1, t =>
    match nextTimer t with
    | .tcp => (.tcp, t.tcpExpiry) :: tickLog c n (do_tcpCheckerTimer c t)
    | .connect => (.connect, t.connectExpiry) :: tickLog c n (do_connectCheckerTimer c t)

/-- The times of the HTTPS-probe ticks in a tick log. -/
def connectTicks (log : List (TimerKind × Int)) : List Int :=
  (log.filter (fun e => e.1 = .connect)).map (fun e => e.2)

/-- The times of the TCP-probe ticks in a tick log. -/
def tcpTicks (log : List (TimerKind × Int)) : List Int :=
  (log.filter (fun e => e.1 = .tcp)).map (fun e => e.2)

/-! ## Upstream pool: specification-side definitions -/

/-- Whether slot `j` of the registry holds a server that passes `checkServer`. -/
def slotEligible (pool : List UpstreamServer) (j : Nat) : Bool :=
  match pool[j]? with
  | some u => checkServer u
  | none => false

/-- The cyclic sequence of the `N` slot indices `first mod N`, `(first + 1) mod N`,
..., `(first + N - 1) mod N`. -/
def cyclicSlots (N first : Nat) : List Nat :=
  (List.range N).map (fun k => (first + k) % N)

/-- The outcome of scanning the slots `slots` in order: the first eligible slot
is returned and becomes the cursor; when there is none the reference is null
and the cursor is `rest`. -/
def scanOutcome (p : UpstreamPool) (slots : List Nat) (rest : Nat) :
    Option UpstreamServer × UpstreamPool :=
  match slots.find? (slotEligible p._pool) with
  | some j => (p._pool[j]?, { p with lastUseUpstreamIndex := j })
  | none => (none, { p with lastUseUpstreamIndex := rest })

/-- Policy **loop** as the spec words it: scan the cyclic sequence
`(cur + 1) mod N, ..., cur`, commit the cursor to the first eligible slot. -/
def loopSpec (p : UpstreamPool) : Option UpstreamServer × UpstreamPool :=
  scanOutcome p (cyclicSlots p._pool.length (p.lastUseUpstreamIndex + 1)) p.lastUseUpstreamIndex

/-- Policy **one_by_one** as the spec words it: scan the cyclic sequence
`cur, (cur + 1) mod N, ..., (cur + N - 1) mod N`, commit the cursor to the first
eligible slot. -/
def oneByOneSpec (p : UpstreamPool) : Option UpstreamServer × UpstreamPool :=
  scanOutcome p (cyclicSlots p._pool.length p.lastUseUpstreamIndex) p.lastUseUpstreamIndex

/-! ## Upstream pool: sample registries -/

/-- A server whose TCP and HTTPS probes have both been answered; it passes
`checkServer` exactly when `healthy` is true. -/
def sampleServer (i : Nat) (healthy : Bool) : UpstreamServer :=
  { host := "127.0.0.1", port := 1080 + i, name := "upstream", index := i,
    lastOnlineTime := some 5, lastConnectTime := some 7,
    lastConnectFailed := !healthy, isOffline := false }

/-- A registry of three servers, the middle one failing its HTTPS probe, with
the cursor on slot 0 and `serverChangeTime = 10`. -/
def samplePool (rule : RuleEnum) : UpstreamPool :=
  { _pool := [sampleServer 0 true, sampleServer 1 false, sampleServer 2 true],
    lastUseUpstreamIndex := 0,
    lastChangeUpstreamTime := 0,
    upstreamSelectRule := rule,
    serverChangeTime := 10 }

/-- A registry of two servers that both pass `checkServer`, under policy
`change_by_time` with `serverChangeTime = 10`, the cursor on slot 0 and
`lastChangeUpstreamTime` at the epoch. -/
def timedPool : UpstreamPool :=
  { _pool := [sampleServer 0 true, sampleServer 1 true],
    lastUseUpstreamIndex := 0,
    lastChangeUpstreamTime := 0,
    upstreamSelectRule := .change_by_time,
    serverChangeTime := 10 }

/-- A registry of three servers as `setConfig` creates them: no probe has been
answered yet, so every server has `isOffline = true`. -/
def offlinePool (rule : RuleEnum) : UpstreamPool :=
  { _pool := [{ host := "127.0.0.1", port := 1080, name := "a", index := 0 },
              { host := "127.0.0.1", port := 1081, name := "b", index := 1 },
              { host := "127.0.0.1", port := 1082, name := "c", index := 2 }],
    lastUseUpstreamIndex := 1,
    upstreamSelectRule := rule,
    serverChangeTime := 10 }

/-- A registry of three servers that all pass `checkServer`, with the cursor on
slot 1. -/
def healthyPool (rule : RuleEnum) : UpstreamPool :=
  { _pool := [sampleServer 0 true, sampleServer 1 true, sampleServer 2 true],
    lastUseUpstreamIndex := 1,
    lastChangeUpstreamTime := 0,
    upstreamSelectRule := rule,
    serverChangeTime := 10 }

/-- Three calls of `getServerBasedOnAddress` with fuel for one revolution of a
registry of three servers. -/
def threeCalls : List PickCall :=
  [{ now := 100, draw := fun _ => 0, fuel := 3 },
   { now := 200, draw := fun _ => 0, fuel := 3 },
   { now := 300, draw := fun _ => 0, fuel := 3 }]

/-- A configuration whose only upstream entry has `disable = true`. -/
def disabledUpstream : LoaderConfig :=
  { upstream := [{ name := "a", host := "127.0.0.1", port := 1080, disable := true }],
    upstreamSelectRule := .loop,
    serverChangeTime := 10 }

/-- The pool after construction, `setConfig` with `disabledUpstream`, a
successful TCP probe of its server at time 1 and a successful HTTPS probe at
time 2. -/
def disabledProbedPool : UpstreamPool :=
  applyProbeAt
    (applyProbeAt (setConfig (constructedPool .loop 10) disabledUpstream) 0 (.tcpOk 1))
    0 (.connectOk 2)

/-- Timer durations with the HTTPS probe starting before the TCP probe:
`tcpCheckStart = 50`, `tcpCheckPeriod = 7`, `connectCheckStart = 1`,
`connectCheckPeriod = 100`. -/
def sampleTimerConfig : TimerConfig :=
  { tcpCheckStart := 50, tcpCheckPeriod := 7, connectCheckStart := 1,
    connectCheckPeriod := 100 }

/-! ## SOCKS5 client handshake: data model -/

/-- The outcome of `boost::asio::ip::make_address(ptr->host, ec)`: either `ec`
is set (the host is not an IP literal), or the address is an IPv4 address with
the 4 octets of `to_v4().to_bytes()`, or an IPv6 address with the 16 octets of
`to_v6().to_bytes()`. -/
inductive ParsedAddress where
  | notAddress
  | v4 (bytes : Fin 4 → Nat)
  | v6 (bytes : Fin 16 → Nat)

/-- Modelled from the spec: the parent session that `parents.lock()` yields is
declared outside the sources; these are the members `Socks5ClientImpl` reads
from it, the spec's HandshakeContext: `nowServer->authUser`,
`nowServer->authPwd`, the target `host` and `port`, and the flag
`downside_in_udp_mode()`. Strings are sequences of octets. -/
structure Session where
  authUser : List Nat
  authPwd : List Nat
  host : List Nat
  port : Nat
  downside_in_udp_mode : Bool := false

/-- The arguments a completion handler of `boost::asio::async_write` receives:
whether `ec` is set, and `bytes_transferred_`. -/
structure WriteCompletion where
  ec : Bool
  bytes_transferred : Nat

/-- The arguments a completion handler of `async_read_some` receives: whether
`ec` is set, and the octets received, `bytes_transferred` of them, stored at the
front of the zero-initialised buffer `socks5_read_buf` of `MAX_LENGTH` octets. -/
structure ReadCompletion where
  ec : Bool
  data : List Nat

/-- The behaviour of the upstream socket during one handshake: the completion
of each of the three writes and of each of the three reads. -/
structure UpstreamScript where
  greetW : WriteCompletion
  greetR : ReadCompletion
  authW : WriteCompletion
  authR : ReadCompletion
  connectW : WriteCompletion
  connectR : ReadCompletion

/-- The notifications sent to the parent session (the bridge):
`do_whenUpReady`, `do_whenUpReadyError`, `do_whenUpEnd` and, through `fail`,
`do_whenError`. -/
inductive Callback where
  | onUpReady
  | onUpReadyError
  | onUpEnd
  | onError (reason : String)
deriving DecidableEq, Repr

/-- What a run of the handshake does, in order: messages handed to
`async_write` on the upstream socket, notifications to the bridge, the
multi-homed warning, the call of `badParentPtr()`, and a failed `BOOST_ASSERT`.
Other output on `std::cout` is not recorded. -/
inductive TraceEvent where
  | write (data : List Nat)
  | callback (c : Callback)
  | warning (text : String)
  | badParentPtr
  | assertionFailed
deriving DecidableEq, Repr

/-- The messages written to the upstream socket, in order. -/
def writesOf : List TraceEvent → List (List Nat)
  | [] => []
  | .write d :: rest => d :: writesOf rest
  | _ :: rest => writesOf rest

/-- The bridge notifications, in order. -/
def callbacksOf : List TraceEvent → List Callback
  | [] => []
  | .callback c :: rest => c :: callbacksOf rest
  | _ :: rest => callbacksOf rest

/-- The octets of a string of ASCII characters. -/
def asciiBytes (s : String) : List Nat :=
  s.toList.map Char.toNat

/-! ## SOCKS5 client handshake: operations

Each `do_...` function takes `lock`, the success of `parents.lock()`. A
completion handler owns the strong reference `ptr` while it runs, so the phase
it starts finds the parent alive: handlers pass `true`. -/

/-- The constant `MAX_LENGTH` of the read phases. -/
def MAX_LENGTH : Nat := 8196

/-- The value of `bytes_transferred` in a read handler. -/
def ReadCompletion.bytes_transferred (r : ReadCompletion) : Nat :=
  r.data.length

/-- The value of `socks5_read_buf->at(i)` in a read handler, for `i < MAX_LENGTH`:
a received octet, or `0` from the zero-initialised rest of the buffer. -/
def ReadCompletion.bufAt (r : ReadCompletion) (i : Nat) : Nat :=
  r.data.getD i 0

/-- Modelled from the spec: `fail(ec, what)` is defined outside the sources; by
the spec a FAIL invokes `onError(reason)` on the bridge and nothing else. -/
def fail (what : String) : List TraceEvent :=
  [.callback (.onError what)]

/-- The text of a short-write failure: `ss << phase << " with bytes_transferred_:"
<< bytes_transferred_ << " but data_send->size():" << data_send->size()`. -/
def shortWriteText (phase : String) (bytes_transferred size : Nat) : String :=
  phase ++ " with bytes_transferred_:" ++ toString bytes_transferred
    ++ " but data_send->size():" ++ toString size

/-- The function `Socks5ClientImpl::do_socks5_connect_read`. -/
def do_socks5_connect_read (lock : Bool) (io : UpstreamScript) : List TraceEvent :=
  if lock then
    let r := io.connectR
    if r.ec then fail "socks5_connect_read"
    else if r.bytes_transferred < 6 then
      fail "do_socks5_connect_read (bytes_transferred < 6)"
    else if r.bufAt 0 ≠ 5 ∨ r.bufAt 1 ≠ 0x00 ∨ r.bufAt 2 ≠ 0x00
        ∨ (r.bufAt 3 ≠ 0x01 ∧ r.bufAt 3 ≠ 0x03 ∧ r.bufAt 3 ≠ 0x04) then
      [.callback .onUpReadyError, .callback .onUpEnd]
    else if r.bufAt 3 = 0x03 ∧ r.bytes_transferred ≠ r.bufAt 4 + 4 + 1 + 2 then
      fail "do_socks5_connect_read (socks5_read_buf->at(3) == 0x03)"
    else if r.bufAt 3 = 0x01 ∧ r.bytes_transferred ≠ 4 + 4 + 2 then
      fail "do_socks5_connect_read (socks5_read_buf->at(3) == 0x01)"
    else if r.bufAt 3 = 0x04 ∧ r.bytes_transferred ≠ 4 + 16 + 2 then
      fail "do_socks5_connect_read (socks5_read_buf->at(3) == 0x04)"
    else
      let bindPort := (r.bufAt (r.bytes_transferred - 2) <<< 8)
        ||| r.bufAt (r.bytes_transferred - 1)
      if r.bufAt 3 = 0x03 ∨ r.bufAt 3 = 0x01 ∨ r.bufAt 3 = 0x04 then
        (if bindPort ≠ 0 then
          [.warning
            "do_socks5_connect_read (bindPort != 0), we not support multi-homed socks5 server"]
        else [])
          ++ [.callback .onUpReady, .callback .onUpEnd]
      else fail "do_socks5_connect_read (socks5_read_buf->at(3) invalid)"
  else [.badParentPtr]

/-- The buffer `data_send` that `do_socks5_connect_write` builds, or `none`
when the function fails before writing (a host name longer than 253 octets). -/
def connectMessage (make_address : List Nat → ParsedAddress) (s : Session) :
    Option (List Nat) :=
  let data_send : List Nat := [0x05, 0x01, 0x00]
  let withAddress : Option (List Nat) :=
    match make_address s.host with
    | .notAddress =>
      let data_send := data_send ++ [0x03]
      if s.host.length > 253 then none
      else some (data_send ++ [s.host.length % 256] ++ s.host)
    | .v4 v4 => some (data_send ++ [0x01] ++ List.ofFn v4)
    | .v6 v6 => some (data_send ++ [0x04] ++ List.ofFn v6)
  match withAddress with
  | none => none
  | some data_send =>
    let data_send := data_send ++ [(s.port >>> 8) % 256]
    let data_send := data_send ++ [(s.port &&& 0xff) % 256]
    -- `if (ptr->downside_in_udp_mode()) { }`: the body is commented out
    let data_send := if s.downside_in_udp_mode then data_send else data_send
    some data_send

/-- The function `Socks5ClientImpl::do_socks5_connect_write`. -/
def do_socks5_connect_write (lock : Bool) (make_address : List Nat → ParsedAddress)
    (s : Session) (io : UpstreamScript) : List TraceEvent :=
  if lock then
    match connectMessage make_address s with
    | none => fail "socks5_connect_write (targetHost.size() > 253)"
    | some data_send =>
      .write data_send ::
        (if io.connectW.ec then fail "socks5_connect_write"
        else if io.connectW.bytes_transferred ≠ data_send.length then
          fail (shortWriteText "socks5_connect_write" io.connectW.bytes_transferred
            data_send.length)
        else do_socks5_connect_read true io)
  else [.badParentPtr]

/-- The function `Socks5ClientImpl::do_socks5_auth_read`. -/
def do_socks5_auth_read (lock : Bool) (make_address : List Nat → ParsedAddress)
    (s : Session) (io : UpstreamScript) : List TraceEvent :=
  if lock then
    let r := io.authR
    if r.ec then fail "do_socks5_auth_read"
    else if r.bytes_transferred < 2 then fail "do_socks5_auth_read (bytes_transferred < 2)"
    else if r.bufAt 0 ≠ 0x01 ∨ r.bufAt 1 ≠ 0x00 then fail "do_socks5_auth_read (failed)"
    else do_socks5_connect_write true make_address s io
  else [.badParentPtr]

/-- The buffer `data_send` that `do_socks5_auth_write` builds: the
concatenation `"\x01" + "\x01" + authUser + "\x01" + authPwd`, then the two
length octets stored with `at(1)` and `at(2 + authUser.length())`. -/
def authMessage (authUser authPwd : List Nat) : List Nat :=
  let data_send := [0x01] ++ [0x01] ++ authUser ++ [0x01] ++ authPwd
  let data_send := data_send.set 1 (authUser.length % 256)
  let data_send := data_send.set (2 + authUser.length) (authPwd.length % 256)
  data_send

/-- The function `Socks5ClientImpl::do_socks5_auth_write`. -/
def do_socks5_auth_write (lock : Bool) (make_address : List Nat → ParsedAddress)
    (s : Session) (io : UpstreamScript) : List TraceEvent :=
  if lock then
    let data_send := authMessage s.authUser s.authPwd
    if data_send.length ≠ s.authUser.length + s.authPwd.length + 3 then [.assertionFailed]
    else
      .write data_send ::
        (if io.authW.ec then fail "do_socks5_auth_write"
        else if io.authW.bytes_transferred ≠ data_send.length then
          fail (shortWriteText "do_socks5_auth_write" io.authW.bytes_transferred
            data_send.length)
        else do_socks5_auth_read true make_address s io)
  else [.badParentPtr]

/-- The function `Socks5ClientImpl::do_socks5_handshake_read`. -/
def do_socks5_handshake_read (lock : Bool) (make_address : List Nat → ParsedAddress)
    (s : Session) (io : UpstreamScript) : List TraceEvent :=
  if lock then
    let r := io.greetR
    if r.ec then fail "socks5_handshake_read"
    else if r.bytes_transferred < 2 then fail "socks5_handshake_read (bytes_transferred < 2)"
    else if r.bufAt 0 ≠ 5 then fail "socks5_handshake_read (socks5_read_buf->at(0) != 5)"
    else if r.bufAt 1 ≠ 0x00 ∧ r.bufAt 1 ≠ 0x02 then
      fail "socks5_handshake_read (invalid auth type)"
    else if r.bufAt 1 = 0x02 then
      if s.authUser.isEmpty then fail "socks5_handshake_read (we cannot auth)"
      else do_socks5_auth_write true make_address s io
    else do_socks5_connect_write true make_address s io
  else [.badParentPtr]

/-- The buffer `data_send` that `do_socks5_handshake_write` builds. -/
def greetingMessage (authUser : List Nat) : List Nat :=
  let data_send : List Nat := [0x05, 0x01, 0x00]
  if !authUser.isEmpty then data_send.set 2 0x02 else data_send

/-- The function `Socks5ClientImpl::do_socks5_handshake_write`. -/
def do_socks5_handshake_write (lock : Bool) (make_address : List Nat → ParsedAddress)
    (s : Session) (io : UpstreamScript) : List TraceEvent :=
  if lock then
    let data_send := greetingMessage s.authUser
    .write data_send ::
      (if io.greetW.ec then fail "socks5_handshake_write"
      else if io.greetW.bytes_transferred ≠ data_send.length then
        fail (shortWriteText "socks5_handshake_write" io.greetW.bytes_transferred
          data_send.length)
      else do_socks5_handshake_read true make_address s io)
  else [.badParentPtr]

/-- The function `Socks5ClientImpl::start`; `lock` is the success of the
`parents.lock()` of its first phase. -/
def start (lock : Bool) (make_address : List Nat → ParsedAddress) (s : Session)
    (io : UpstreamScript) : List TraceEvent :=
  do_socks5_handshake_write lock make_address s io

/-! ## SOCKS5 client handshake: specification-side definitions -/

/-- The greeting of the spec: `05 01 M`, with `M = 00` when `authUser` is empty
and `M = 02` otherwise. -/
def greetingSpec (authUser : List Nat) : List Nat :=
  [0x05, 0x01, if authUser = [] then 0x00 else 0x02]

/-- The auth message of the spec: `01 ULEN UNAME PLEN PASSWD` with
`ULEN = len(UNAME)` and `PLEN = len(PASSWD)`. -/
def authSpec (authUser authPwd : List Nat) : List Nat :=
  [0x01, authUser.length] ++ authUser ++ [authPwd.length] ++ authPwd

/-- The port of the spec: two octets, big-endian. -/
def portSpec (port : Nat) : List Nat :=
  [port / 256 % 256, port % 256]

/-- The CONNECT message of the spec: `05 01 00 ATYP DST.ADDR DST.PORT`. -/
def connectSpec (make_address : List Nat → ParsedAddress) (s : Session) : List Nat :=
  match make_address s.host with
  | .notAddress => [0x05, 0x01, 0x00, 0x03, s.host.length] ++ s.host ++ portSpec s.port
  | .v4 b => [0x05, 0x01, 0x00, 0x01] ++ List.ofFn b ++ portSpec s.port
  | .v6 b => [0x05, 0x01, 0x00, 0x04] ++ List.ofFn b ++ portSpec s.port

/-- A run of the handshake is successful (READY) when the bridge is notified
with `onUpReady` and then `onUpEnd`, and with nothing else. -/
def isReady (trace : List TraceEvent) : Prop :=
  callbacksOf trace = [.onUpReady, .onUpEnd]

/-! ## SOCKS5 client handshake: sample runs -/

/-- A write that completes without error after transferring `n` octets. -/
def wrote (n : Nat) : WriteCompletion :=
  { ec := false, bytes_transferred := n }

/-- A read that completes without error after receiving `data`. -/
def received (data : List Nat) : ReadCompletion :=
  { ec := false, data := data }

/-- Scenario 1 of the spec: no credentials, target `1.2.3.4:80`. -/
def noAuthSession : Session :=
  { authUser := [], authPwd := [], host := asciiBytes "1.2.3.4", port := 80 }

/-- Scenario 1 of the spec: the server answers `05 00` and then
`05 00 00 01 00 00 00 00 00 00`; the auth phase does not occur. -/
def noAuthScript : UpstreamScript :=
  { greetW := wrote 3, greetR := received [0x05, 0x00],
    authW := wrote 0, authR := received [],
    connectW := wrote 10,
    connectR := received [0x05, 0x00, 0x00, 0x01, 0x00, 0x00, 0x00, 0x00, 0x00, 0x00] }

/-- Scenario 2 of the spec: user `u`, password `pw`, target `example.com:443`. -/
def userPassSession : Session :=
  { authUser := asciiBytes "u", authPwd := asciiBytes "pw",
    host := asciiBytes "example.com", port := 443 }

/-- Scenario 2 of the spec: the server answers `05 02`, then `01 00`, then
`05 00 00 01 00 00 00 00 00 00`. -/
def userPassScript : UpstreamScript :=
  { greetW := wrote 3, greetR := received [0x05, 0x02],
    authW := wrote 6, authR := received [0x01, 0x00],
    connectW := wrote 18,
    connectR := received [0x05, 0x00, 0x00, 0x01, 0x00, 0x00, 0x00, 0x00, 0x00, 0x00] }

/-- A session whose user name has 256 octets (`a` repeated), with password
`pw` and target `1.2.3.4:80`. -/
def oversizeUserSession : Session :=
  { authUser := List.replicate 256 0x61, authPwd := asciiBytes "pw",
    host := asciiBytes "1.2.3.4", port := 80 }

/-- A server that accepts the run of `oversizeUserSession`: it answers `05 02`,
then `01 00`, then `05 00 00 01 00 00 00 00 00 00`, and each write transfers
the whole buffer (3, 261 and 10 octets). -/
def oversizeUserScript : UpstreamScript :=
  { greetW := wrote 3, greetR := received [0x05, 0x02],
    authW := wrote 261, authR := received [0x01, 0x00],
    connectW := wrote 10,
    connectR := received [0x05, 0x00, 0x00, 0x01, 0x00, 0x00, 0x00, 0x00, 0x00, 0x00] }

/-- Scenario 3 of the spec: no credentials are configured and the server
answers the greeting with `05 02`, demanding username/password authentication. -/
def demandAuthScript : UpstreamScript :=
  { noAuthScript with greetR := received [0x05, 0x02] }

/-- The run of scenario 2 in which the server rejects the credentials: the auth
reply is `01 01`. -/
def authRejectedScript : UpstreamScript :=
  { userPassScript with authR := received [0x01, 0x01] }

/-- Scenario 4 of the spec: the server refuses the CONNECT request with the
reply `05 01 00 01 00 00 00 00 00 00` (REP = 1). -/
def refusedScript : UpstreamScript :=
  { noAuthScript with
    connectR := received [0x05, 0x01, 0x00, 0x01, 0x00, 0x00, 0x00, 0x00, 0x00, 0x00] }

/-- A CONNECT reply with REP = 1 of which a single read delivers only the four
octets `05 01 00 01`. -/
def shortRefusedScript : UpstreamScript :=
  { noAuthScript with connectR := received [0x05, 0x01, 0x00, 0x01] }

/-- A CONNECT reply with ATYP = 3, an empty bound name (`buf[4] = 0`) and the
bound port `1F 90`: 7 octets. -/
def emptyNameScript : UpstreamScript :=
  { noAuthScript with connectR := received [0x05, 0x00, 0x00, 0x03, 0x00, 0x1F, 0x90] }

/-- The same reply with one octet more: 8 octets. -/
def emptyNameLongScript : UpstreamScript :=
  { noAuthScript with
    connectR := received [0x05, 0x00, 0x00, 0x03, 0x00, 0x00, 0x1F, 0x90] }

/-- The spec's three one-shot notification sequences: `onUpReady` then
`onUpEnd`; `onUpReadyError` then `onUpEnd`; or a single `onError`. -/
def oneShot (cs : List Callback) : Prop :=
  cs = [.onUpReady, .onUpEnd] ∨ cs = [.onUpReadyError, .onUpEnd]
    ∨ ∃ reason, cs = [.onError reason]

/-- The notifications that follow a CONNECT reply read without I/O error, as a
function of its length `n` and of its first five octets: the checks of the
spec's Connect read, in the order in which `do_socks5_connect_read` makes them. -/
def connectReplyOutcome (n b0 b1 b2 b3 b4 : Nat) : List Callback :=
  if n < 6 then [.onError "do_socks5_connect_read (bytes_transferred < 6)"]
  else if b0 ≠ 5 ∨ b1 ≠ 0x00 ∨ b2 ≠ 0x00 ∨ (b3 ≠ 0x01 ∧ b3 ≠ 0x03 ∧ b3 ≠ 0x04) then
    [.onUpReadyError, .onUpEnd]
  else if b3 = 0x03 ∧ n ≠ b4 + 4 + 1 + 2 then
    [.onError "do_socks5_connect_read (socks5_read_buf->at(3) == 0x03)"]
  else if b3 = 0x01 ∧ n ≠ 4 + 4 + 2 then
    [.onError "do_socks5_connect_read (socks5_read_buf->at(3) == 0x01)"]
  else if b3 = 0x04 ∧ n ≠ 4 + 16 + 2 then
    [.onError "do_socks5_connect_read (socks5_read_buf->at(3) == 0x04)"]
  else [.onUpReady, .onUpEnd]

/-! ## Upstream pool: theorems -/

theorem wrap_inc_mod (a N : Nat) (hN : 0 < N) (hS : N < SIZE_MOD) :
    wrapIndex (incIndex (a % N)) N = (a + 1) % N := by
  have hlt : a % N < N := Nat.mod_lt _ hN
  have h1 : (a + 1) % N = (a % N + 1) % N := (Nat.mod_add_mod a N 1).symm
  have h2 : incIndex (a % N) = a % N + 1 := by
    unfold incIndex
    exact Nat.mod_eq_of_lt (by omega)
  rw [h1, h2]
  unfold wrapIndex
  by_cases h : a % N + 1 ≥ N
  · have h3 : a % N + 1 = N := by omega
    rw [if_pos h, h3, Nat.mod_self]
  · have h3 : a % N + 1 < N := by omega
    rw [if_neg h, Nat.mod_eq_of_lt h3]

theorem wrapIndex_of_lt (i N : Nat) (h : i < N) : wrapIndex i N = i := by
  unfold wrapIndex
  rw [if_neg (by omega)]

theorem cyclic_return (cur k N : Nat) (hc : cur < N) (hk : k < N) :
    (cur + (k + 1)) % N = cur ↔ k + 1 = N := by
  constructor
  · intro h
    by_cases hlt : cur + (k + 1) < N
    · rw [Nat.mod_eq_of_lt hlt] at h
      omega
    · rw [Nat.mod_eq_sub_mod (by omega), Nat.mod_eq_of_lt (by omega)] at h
      omega
  · intro h
    rw [h, Nat.add_mod_right, Nat.mod_eq_of_lt hc]

theorem getNextServerLoop_succ (start fuel : Nat) (p : UpstreamPool) :
    getNextServerLoop start (fuel + 1) p =
      match p._pool[wrapIndex (incIndex p.lastUseUpstreamIndex) p._pool.length]? with
      | none => .error .outOfRange
      | some u =>
        if checkServer u then
          .ok (some u, { p with
            lastUseUpstreamIndex := wrapIndex (incIndex p.lastUseUpstreamIndex) p._pool.length })
        else if start = wrapIndex (incIndex p.lastUseUpstreamIndex) p._pool.length then
          .ok (none, { p with
            lastUseUpstreamIndex := wrapIndex (incIndex p.lastUseUpstreamIndex) p._pool.length })
        else getNextServerLoop start fuel { p with
            lastUseUpstreamIndex := wrapIndex (incIndex p.lastUseUpstreamIndex) p._pool.length } :=
  rfl

theorem tryGetLastServerLoop_succ (start fuel : Nat) (p : UpstreamPool) :
    tryGetLastServerLoop start (fuel + 1) p =
      match p._pool[wrapIndex p.lastUseUpstreamIndex p._pool.length]? with
      | none => .error .outOfRange
      | some u =>
        if checkServer u then
          .ok (some u, { p with
            lastUseUpstreamIndex := wrapIndex p.lastUseUpstreamIndex p._pool.length })
        else if start = wrapIndex (incIndex (wrapIndex p.lastUseUpstreamIndex p._pool.length))
            p._pool.length then
          .ok (none, { p with
            lastUseUpstreamIndex :=
              wrapIndex (incIndex (wrapIndex p.lastUseUpstreamIndex p._pool.length))
                p._pool.length })
        else tryGetLastServerLoop start fuel { p with
            lastUseUpstreamIndex :=
              wrapIndex (incIndex (wrapIndex p.lastUseUpstreamIndex p._pool.length))
                p._pool.length } :=
  rfl

theorem getNextServerLoop_some (start fuel : Nat) :
    ∀ (p : UpstreamPool) (u : UpstreamServer) (p' : UpstreamPool),
      getNextServerLoop start fuel p = .ok (some u, p') →
      checkServer u = true ∧ u ∈ p._pool ∧ p'._pool = p._pool := by
  induction fuel with
  | zero => intro p u p' h; simp [getNextServerLoop] at h
  | succ n ih =>
    intro p u p' h
    rw [getNextServerLoop_succ] at h
    generalize wrapIndex (incIndex p.lastUseUpstreamIndex) p._pool.length = i2 at h
    cases hv : p._pool[i2]? with
    | none => simp [hv] at h
    | some v =>
      simp only [hv] at h
      by_cases hc : checkServer v = true
      · rw [if_pos hc] at h
        simp only [Except.ok.injEq, Prod.mk.injEq, Option.some.injEq] at h
        obtain ⟨h1, h2⟩ := h
        subst h1
        subst h2
        exact ⟨hc, List.getElem?_mem hv, rfl⟩
      · rw [if_neg hc] at h
        by_cases hs : start = i2
        · rw [if_pos hs] at h
          simp at h
        · rw [if_neg hs] at h
          have h3 := ih _ _ _ h
          exact h3

theorem tryGetLastServerLoop_some (start fuel : Nat) :
    ∀ (p : UpstreamPool) (u : UpstreamServer) (p' : UpstreamPool),
      tryGetLastServerLoop start fuel p = .ok (some u, p') →
      checkServer u = true ∧ u ∈ p._pool ∧ p'._pool = p._pool := by
  induction fuel with
  | zero => intro p u p' h; simp [tryGetLastServerLoop] at h
  | succ n ih =>
    intro p u p' h
    rw [tryGetLastServerLoop_succ] at h
    generalize wrapIndex p.lastUseUpstreamIndex p._pool.length = i0 at h
    cases hv : p._pool[i0]? with
    | none => simp [hv] at h
    | some v =>
      simp only [hv] at h
      by_cases hc : checkServer v = true
      · rw [if_pos hc] at h
        simp only [Except.ok.injEq, Prod.mk.injEq, Option.some.injEq] at h
        obtain ⟨h1, h2⟩ := h
        subst h1
        subst h2
        exact ⟨hc, List.getElem?_mem hv, rfl⟩
      · rw [if_neg hc] at h
        generalize wrapIndex (incIndex i0) p._pool.length = i2 at h
        by_cases hs : start = i2
        · rw [if_pos hs] at h
          simp at h
        · rw [if_neg hs] at h
          have h3 := ih _ _ _ h
          exact h3

theorem filterValidServer_eq_filter (p : UpstreamPool) :
    filterValidServer p = p._pool.filter checkServer := by
  unfold filterValidServer
  have key : ∀ (l acc : List UpstreamServer),
      l.foldl (fun r a => if checkServer a then r ++ [a] else r) acc
        = acc ++ l.filter checkServer := by
    intro l
    induction l with
    | nil => intro acc; simp
    | cons a t ih =>
      intro acc
      simp only [List.foldl_cons, List.filter_cons]
      rw [ih]
      split <;> simp
  simpa using key p._pool []

theorem slotEligible_of_getElem? (pool : List UpstreamServer) (j : Nat) (u : UpstreamServer)
    (h : pool[j]? = some u) : slotEligible pool j = checkServer u := by
  unfold slotEligible
  rw [h]

theorem scanOutcome_cons_pos (p : UpstreamPool) (j : Nat) (js : List Nat) (rest : Nat)
    (u : UpstreamServer) (hu : p._pool[j]? = some u) (hc : checkServer u = true) :
    scanOutcome p (j :: js) rest = (some u, { p with lastUseUpstreamIndex := j }) := by
  unfold scanOutcome
  rw [List.find?_cons_of_pos _ (by rw [slotEligible_of_getElem? _ _ _ hu]; exact hc)]
  simp only [hu]

theorem scanOutcome_cons_neg (p : UpstreamPool) (j : Nat) (js : List Nat) (rest : Nat)
    (u : UpstreamServer) (hu : p._pool[j]? = some u) (hc : ¬ checkServer u = true) :
    scanOutcome p (j :: js) rest = scanOutcome p js rest := by
  unfold scanOutcome
  rw [List.find?_cons_of_neg _ (by rw [slotEligible_of_getElem? _ _ _ hu]; exact hc)]

theorem scanOutcome_nil (p : UpstreamPool) (rest : Nat) :
    scanOutcome p [] rest = (none, { p with lastUseUpstreamIndex := rest }) := rfl

theorem getNextServerLoop_scan (p : UpstreamPool) (hS : p._pool.length < SIZE_MOD)
    (hc : p.lastUseUpstreamIndex < p._pool.length) :
    ∀ (m k fuel : Nat), 0 < m → k + m = p._pool.length → m ≤ fuel →
      getNextServerLoop p.lastUseUpstreamIndex fuel
          { p with lastUseUpstreamIndex := (p.lastUseUpstreamIndex + k) % p._pool.length }
        = .ok (scanOutcome p ((List.range' k m).map
            (fun t => (p.lastUseUpstreamIndex + 1 + t) % p._pool.length))
            p.lastUseUpstreamIndex) := by
  intro m
  induction m with
  | zero => intro k fuel h; omega
  | succ m ih =>
    intro k fuel _ hkm hf
    obtain ⟨f, rfl⟩ : ∃ f, fuel = f + 1 := ⟨fuel - 1, by omega⟩
    have hN : 0 < p._pool.length := by omega
    rw [getNextServerLoop_succ]
    simp only []
    rw [wrap_inc_mod _ _ hN hS, List.range'_succ, List.map_cons,
      Nat.add_right_comm p.lastUseUpstreamIndex 1 k]
    have hj : (p.lastUseUpstreamIndex + k + 1) % p._pool.length < p._pool.length :=
      Nat.mod_lt _ hN
    generalize hjd : (p.lastUseUpstreamIndex + k + 1) % p._pool.length = j at hj ⊢
    have hu : p._pool[j]? = some p._pool[j] := List.getElem?_eq_getElem hj
    rw [hu]
    simp only []
    by_cases hcs : checkServer p._pool[j] = true
    · rw [if_pos hcs, scanOutcome_cons_pos p j _ _ _ hu hcs]
    · rw [if_neg hcs, scanOutcome_cons_neg p j _ _ _ hu hcs]
      have hret := cyclic_return p.lastUseUpstreamIndex k p._pool.length hc (by omega)
      rw [Nat.add_assoc] at hjd
      rw [hjd] at hret
      by_cases hs : p.lastUseUpstreamIndex = j
      · rw [if_pos hs]
        have hm : m = 0 := by
          have := hret.mp hs.symm
          omega
        subst hm
        rw [List.range'_zero, List.map_nil, scanOutcome_nil, ← hs]
      · rw [if_neg hs]
        have hm : 0 < m := by
          by_contra h0
          exact hs (hret.mpr (by omega)).symm
        have h4 := ih (k + 1) f hm (by omega) (by omega)
        rw [hjd] at h4
        exact h4

theorem tryGetLastServerLoop_scan (p : UpstreamPool) (hS : p._pool.length < SIZE_MOD)
    (hc : p.lastUseUpstreamIndex < p._pool.length) :
    ∀ (m k fuel : Nat), 0 < m → k + m = p._pool.length → m ≤ fuel →
      tryGetLastServerLoop p.lastUseUpstreamIndex fuel
          { p with lastUseUpstreamIndex := (p.lastUseUpstreamIndex + k) % p._pool.length }
        = .ok (scanOutcome p ((List.range' k m).map
            (fun t => (p.lastUseUpstreamIndex + t) % p._pool.length))
            p.lastUseUpstreamIndex) := by
  intro m
  induction m with
  | zero => intro k fuel h; omega
  | succ m ih =>
    intro k fuel _ hkm hf
    obtain ⟨f, rfl⟩ : ∃ f, fuel = f + 1 := ⟨fuel - 1, by omega⟩
    have hN : 0 < p._pool.length := by omega
    have hj : (p.lastUseUpstreamIndex + k) % p._pool.length < p._pool.length :=
      Nat.mod_lt _ hN
    rw [tryGetLastServerLoop_succ]
    simp only []
    rw [wrapIndex_of_lt _ _ hj, wrap_inc_mod _ _ hN hS, List.range'_succ, List.map_cons]
    generalize (p.lastUseUpstreamIndex + k) % p._pool.length = j at hj ⊢
    have hu : p._pool[j]? = some p._pool[j] := List.getElem?_eq_getElem hj
    rw [hu]
    simp only []
    by_cases hcs : checkServer p._pool[j] = true
    · rw [if_pos hcs, scanOutcome_cons_pos p j _ _ _ hu hcs]
    · rw [if_neg hcs, scanOutcome_cons_neg p j _ _ _ hu hcs]
      have hret := cyclic_return p.lastUseUpstreamIndex k p._pool.length hc (by omega)
      rw [Nat.add_assoc]
      by_cases hs : p.lastUseUpstreamIndex
          = (p.lastUseUpstreamIndex + (k + 1)) % p._pool.length
      · rw [if_pos hs]
        have hm : m = 0 := by
          have := hret.mp hs.symm
          omega
        subst hm
        rw [List.range'_zero, List.map_nil, scanOutcome_nil, ← hs]
      · rw [if_neg hs]
        have hm : 0 < m := by
          by_contra h0
          exact hs (hret.mpr (by omega)).symm
        exact ih (k + 1) f hm (by omega) (by omega)

theorem pool_cursor_eta (p : UpstreamPool) :
    { p with lastUseUpstreamIndex := p.lastUseUpstreamIndex } = p := by
  cases p
  rfl

theorem getNextServer_eq_loopSpec (p : UpstreamPool) (fuel : Nat)
    (hS : p._pool.length < SIZE_MOD) (hc : p.lastUseUpstreamIndex < p._pool.length)
    (hf : p._pool.length ≤ fuel) :
    getNextServer fuel p = .ok (loopSpec p) := by
  have h := getNextServerLoop_scan p hS hc p._pool.length 0 fuel (by omega) (by omega) hf
  rw [Nat.add_zero, Nat.mod_eq_of_lt hc, pool_cursor_eta, ← List.range_eq_range'] at h
  exact h

theorem tryGetLastServer_eq_oneByOneSpec (p : UpstreamPool) (fuel : Nat)
    (hS : p._pool.length < SIZE_MOD) (hc : p.lastUseUpstreamIndex < p._pool.length)
    (hf : p._pool.length ≤ fuel) :
    tryGetLastServer fuel p = .ok (oneByOneSpec p) := by
  have h := tryGetLastServerLoop_scan p hS hc p._pool.length 0 fuel (by omega) (by omega) hf
  rw [Nat.add_zero, Nat.mod_eq_of_lt hc, pool_cursor_eta, ← List.range_eq_range'] at h
  exact h

theorem cyclic_cover (first j N : Nat) (hj : j < N) :
    ∃ k, k < N ∧ (first + k) % N = j := by
  have hN : 0 < N := by omega
  have hc : first % N < N := Nat.mod_lt _ hN
  by_cases h : first % N ≤ j
  · refine ⟨j - first % N, by omega, ?_⟩
    rw [← Nat.mod_add_mod, show first % N + (j - first % N) = j by omega,
      Nat.mod_eq_of_lt hj]
  · refine ⟨j + N - first % N, by omega, ?_⟩
    rw [← Nat.mod_add_mod, show first % N + (j + N - first % N) = j + N by omega,
      Nat.add_mod_right, Nat.mod_eq_of_lt hj]

theorem scanOutcome_range_cases (p : UpstreamPool) (f : Nat → Nat) (rest : Nat) :
    ∀ (n s : Nat),
      (∃ k u, s ≤ k ∧ k < s + n ∧ p._pool[f k]? = some u ∧ checkServer u = true
          ∧ (∀ k', s ≤ k' → k' < k → slotEligible p._pool (f k') = false)
          ∧ scanOutcome p ((List.range' s n).map f) rest
              = (some u, { p with lastUseUpstreamIndex := f k }))
      ∨ ((∀ k, s ≤ k → k < s + n → slotEligible p._pool (f k) = false)
          ∧ scanOutcome p ((List.range' s n).map f) rest
              = (none, { p with lastUseUpstreamIndex := rest })) := by
  intro n
  induction n with
  | zero =>
    intro s
    right
    exact ⟨fun k h1 h2 => by omega, rfl⟩
  | succ n ih =>
    intro s
    rw [List.range'_succ, List.map_cons]
    cases hv : p._pool[f s]? with
    | none =>
      have he : slotEligible p._pool (f s) = false := by
        unfold slotEligible
        rw [hv]
      have hcons : scanOutcome p (f s :: (List.range' (s + 1) n).map f) rest
          = scanOutcome p ((List.range' (s + 1) n).map f) rest := by
        unfold scanOutcome
        rw [List.find?_cons_of_neg _ (by rw [he]; simp)]
      rw [hcons]
      rcases ih (s + 1) with ⟨k, u, h1, h2, h3, h4, h5, h6⟩ | ⟨h1, h2⟩
      · left
        refine ⟨k, u, by omega, by omega, h3, h4, ?_, h6⟩
        intro k' hk1 hk2
        by_cases hks : k' = s
        · rw [hks]; exact he
        · exact h5 k' (by omega) hk2
      · right
        refine ⟨?_, h2⟩
        intro k hk1 hk2
        by_cases hks : k = s
        · rw [hks]; exact he
        · exact h1 k (by omega) (by omega)
    | some u =>
      by_cases hcs : checkServer u = true
      · left
        exact ⟨s, u, le_refl _, by omega, hv, hcs, fun k' h1 h2 => by omega,
          scanOutcome_cons_pos p _ _ _ u hv hcs⟩
      · have he : slotEligible p._pool (f s) = false := by
          rw [slotEligible_of_getElem? _ _ _ hv]
          simpa using hcs
        rw [scanOutcome_cons_neg p _ _ _ u hv hcs]
        rcases ih (s + 1) with ⟨k, u', h1, h2, h3, h4, h5, h6⟩ | ⟨h1, h2⟩
        · left
          refine ⟨k, u', by omega, by omega, h3, h4, ?_, h6⟩
          intro k' hk1 hk2
          by_cases hks : k' = s
          · rw [hks]; exact he
          · exact h5 k' (by omega) hk2
        · right
          refine ⟨?_, h2⟩
          intro k hk1 hk2
          by_cases hks : k = s
          · rw [hks]; exact he
          · exact h1 k (by omega) (by omega)

theorem scanOutcome_cyclic_cases (p : UpstreamPool) (first rest : Nat) :
    (∃ k u, k < p._pool.length
        ∧ p._pool[(first + k) % p._pool.length]? = some u ∧ checkServer u = true
        ∧ (∀ k', k' < k → slotEligible p._pool ((first + k') % p._pool.length) = false)
        ∧ scanOutcome p (cyclicSlots p._pool.length first) rest
            = (some u, { p with lastUseUpstreamIndex := (first + k) % p._pool.length }))
    ∨ ((∀ u ∈ p._pool, checkServer u = false)
        ∧ scanOutcome p (cyclicSlots p._pool.length first) rest
            = (none, { p with lastUseUpstreamIndex := rest })) := by
  unfold cyclicSlots
  rw [List.range_eq_range']
  rcases scanOutcome_range_cases p (fun k => (first + k) % p._pool.length) rest
      p._pool.length 0 with ⟨k, u, _, h2, h3, h4, h5, h6⟩ | ⟨h1, h2⟩
  · left
    exact ⟨k, u, by omega, h3, h4, fun k' hk => h5 k' (Nat.zero_le _) hk, h6⟩
  · right
    refine ⟨?_, h2⟩
    intro u hu
    obtain ⟨j, hj⟩ := List.mem_iff_getElem?.mp hu
    have hjlt : j < p._pool.length := by
      obtain ⟨h, _⟩ := List.getElem?_eq_some.mp hj
      exact h
    obtain ⟨k, hk, hkj⟩ := cyclic_cover first j p._pool.length hjlt
    have h3 := h1 k (Nat.zero_le _) (by omega)
    simp only [] at h3
    rw [hkj, slotEligible_of_getElem? _ _ _ hj] at h3
    exact h3

theorem checkServer_iff (u : UpstreamServer) :
    checkServer u = true ↔
      (u.lastConnectTime.isSome = true ∧ u.lastOnlineTime.isSome = true
        ∧ u.lastConnectFailed = false ∧ u.isOffline = false ∧ u.isManualDisable = false) := by
  unfold checkServer
  simp [and_assoc]

theorem pick_some_eligible (now : UpstreamTimePoint) (draw : Nat → Nat) (fuel : Nat)
    (p : UpstreamPool) (u : UpstreamServer) (p' : UpstreamPool)
    (h : getServerBasedOnAddress now draw fuel p = .ok (some u, p')) :
    checkServer u = true ∧ u ∈ p._pool ∧ p'._pool = p._pool := by
  unfold getServerBasedOnAddress at h
  cases hr : p.upstreamSelectRule with
  | loop =>
    simp only [hr] at h
    exact getNextServerLoop_some _ _ _ _ _ h
  | one_by_one =>
    simp only [hr] at h
    exact tryGetLastServerLoop_some _ _ _ _ _ h
  | change_by_time =>
    simp only [hr] at h
    by_cases hd : (0 : Int) - p.lastChangeUpstreamTime > p.serverChangeTime
    · rw [if_pos hd] at h
      cases hres : getNextServer fuel p with
      | error e => rw [hres] at h; simp at h
      | ok v =>
        obtain ⟨s, p2⟩ := v
        rw [hres] at h
        simp only [Except.ok.injEq, Prod.mk.injEq] at h
        obtain ⟨h1, h2⟩ := h
        subst h1
        have h3 := getNextServerLoop_some _ _ _ _ _ hres
        refine ⟨h3.1, h3.2.1, ?_⟩
        rw [← h2]
        exact h3.2.2
    · rw [if_neg hd] at h
      exact tryGetLastServerLoop_some _ _ _ _ _ h
  | random =>
    simp only [hr] at h
    by_cases he : (!(filterValidServer p).isEmpty) = true
    · rw [if_pos he] at h
      cases hv : (filterValidServer p)[draw ((filterValidServer p).length - 1)]? with
      | none => rw [hv] at h; simp at h
      | some s =>
        rw [hv] at h
        simp only [Except.ok.injEq, Prod.mk.injEq, Option.some.injEq] at h
        obtain ⟨h1, h2⟩ := h
        subst h1
        subst h2
        have hm : s ∈ filterValidServer p := List.getElem?_mem hv
        rw [filterValidServer_eq_filter, List.mem_filter] at hm
        exact ⟨hm.2, hm.1, rfl⟩
    · rw [if_neg he] at h
      simp at h

/-- C1: under every selection policy and from every registry state, a server
returned by `getServerBasedOnAddress` passes `checkServer` at the moment of
return: its `lastConnectTime` and `lastOnlineTime` are present and
`lastConnectFailed`, `isOffline` and `isManualDisable` are all false. The server
is an entry of the registry, which the call leaves as it was. -/
theorem getServerBasedOnAddress_returns_eligible (now : UpstreamTimePoint)
    (draw : Nat → Nat) (fuel : Nat) (p : UpstreamPool) (u : UpstreamServer)
    (p' : UpstreamPool)
    (h : getServerBasedOnAddress now draw fuel p = .ok (some u, p')) :
    checkServer u = true
      ∧ (u.lastConnectTime.isSome = true ∧ u.lastOnlineTime.isSome = true
          ∧ u.lastConnectFailed = false ∧ u.isOffline = false
          ∧ u.isManualDisable = false)
      ∧ u ∈ p'._pool ∧ p'._pool = p._pool := by
  obtain ⟨h1, h2, h3⟩ := pick_some_eligible now draw fuel p u p' h
  exact ⟨h1, (checkServer_iff u).mp h1, by rw [h3]; exact h2, h3⟩

theorem scanOutcome_none_iff (p : UpstreamPool) (first rest : Nat) :
    (scanOutcome p (cyclicSlots p._pool.length first) rest).1 = none
      ↔ ∀ u ∈ p._pool, checkServer u = false := by
  rcases scanOutcome_cyclic_cases p first rest with ⟨k, u, _, h2, h3, _, h5⟩ | ⟨h1, h2⟩
  · rw [h5]
    constructor
    · intro h
      simp at h
    · intro h
      have := h u (List.getElem?_mem h2)
      rw [h3] at this
      simp at this
  · rw [h2]
    exact ⟨fun _ => h1, fun _ => rfl⟩

theorem pick_none_iff (now : UpstreamTimePoint) (draw : Nat → Nat) (fuel : Nat)
    (p : UpstreamPool) (hS : p._pool.length < SIZE_MOD)
    (hc : p.lastUseUpstreamIndex < p._pool.length) (hf : p._pool.length ≤ fuel)
    (hdraw : ∀ hi, draw hi ≤ hi) :
    ∃ r p', getServerBasedOnAddress now draw fuel p = .ok (r, p')
      ∧ (r = none ↔ ∀ u ∈ p._pool, checkServer u = false) := by
  unfold getServerBasedOnAddress
  cases hr : p.upstreamSelectRule with
  | loop =>
    simp only []
    rw [getNextServer_eq_loopSpec p fuel hS hc hf]
    exact ⟨_, _, rfl, scanOutcome_none_iff p _ _⟩
  | one_by_one =>
    simp only []
    rw [tryGetLastServer_eq_oneByOneSpec p fuel hS hc hf]
    exact ⟨_, _, rfl, scanOutcome_none_iff p _ _⟩
  | change_by_time =>
    simp only []
    by_cases hd : (0 : Int) - p.lastChangeUpstreamTime > p.serverChangeTime
    · rw [if_pos hd, getNextServer_eq_loopSpec p fuel hS hc hf]
      exact ⟨_, _, rfl, scanOutcome_none_iff p _ _⟩
    · rw [if_neg hd, tryGetLastServer_eq_oneByOneSpec p fuel hS hc hf]
      exact ⟨_, _, rfl, scanOutcome_none_iff p _ _⟩
  | random =>
    simp only []
    by_cases he : (!(filterValidServer p).isEmpty) = true
    · rw [if_pos he]
      have hne : filterValidServer p ≠ [] := by
        intro h0
        rw [h0] at he
        simp at he
      have hlen : 0 < (filterValidServer p).length := List.length_pos.mpr hne
      have hi : draw ((filterValidServer p).length - 1) < (filterValidServer p).length := by
        have := hdraw ((filterValidServer p).length - 1)
        omega
      rw [List.getElem?_eq_getElem hi]
      refine ⟨_, _, rfl, ?_⟩
      constructor
      · intro h
        simp at h
      · intro h
        have hall : ∀ s ∈ filterValidServer p, checkServer s = true ∧ s ∈ p._pool := by
          intro s hs
          rw [filterValidServer_eq_filter, List.mem_filter] at hs
          exact ⟨hs.2, hs.1⟩
        have hm := hall _ (List.getElem_mem hi)
        have := h _ hm.2
        rw [hm.1] at this
        simp at this
    · rw [if_neg he]
      refine ⟨_, _, rfl, ?_⟩
      have h0 : filterValidServer p = [] := by
        cases hl : filterValidServer p with
        | nil => rfl
        | cons a t => rw [hl] at he; simp at he
      rw [filterValidServer_eq_filter, List.filter_eq_nil_iff] at h0
      constructor
      · intro _ u hu
        simpa using h0 u hu
      · intro _
        rfl

/-- C2: for every non-empty registry whose cursor is in range (the hypothesis
`lastUseUpstreamIndex < _pool.size()` makes the registry non-empty) and under
every selection policy, `getServerBasedOnAddress` returns (with fuel for one
revolution it yields a result, never a fault), and the reference it returns is
null if and only if no server of the registry passes `checkServer`. In
particular it returns null when every server has `isOffline = true`. -/
theorem getServerBasedOnAddress_none_iff_no_eligible (now : UpstreamTimePoint)
    (draw : Nat → Nat) (fuel : Nat) (p : UpstreamPool)
    (hS : p._pool.length < SIZE_MOD)
    (hc : p.lastUseUpstreamIndex < p._pool.length) (hf : p._pool.length ≤ fuel)
    (hdraw : ∀ hi, draw hi ≤ hi) :
    ∃ r p', getServerBasedOnAddress now draw fuel p = .ok (r, p')
      ∧ (r = none ↔ ∀ u ∈ p._pool, checkServer u = false)
      ∧ ((∀ u ∈ p._pool, u.isOffline = true) → r = none) := by
  obtain ⟨r, p', h1, h2⟩ := pick_none_iff now draw fuel p hS hc hf hdraw
  refine ⟨r, p', h1, h2, ?_⟩
  intro hoff
  apply h2.mpr
  intro u hu
  have := hoff u hu
  unfold checkServer
  rw [this]
  simp

/-- Witness of C1 on `samplePool` under policy `loop`. -/
theorem getServerBasedOnAddress_returns_eligible_witness :
    getServerBasedOnAddress 100 (fun _ => 0) 3 (samplePool .loop)
        = .ok (some (sampleServer 2 true),
            { samplePool .loop with lastUseUpstreamIndex := 2 })
      ∧ checkServer (sampleServer 2 true) = true :=
  ⟨rfl,
    (getServerBasedOnAddress_returns_eligible 100 (fun _ => 0) 3 (samplePool .loop)
      (sampleServer 2 true) { samplePool .loop with lastUseUpstreamIndex := 2 }
      rfl).1⟩

/-- Witness of C2 on `offlinePool` under policy `loop`: every server is offline,
none passes `checkServer`, and the call returns the null reference with the
cursor back on slot 1. -/
theorem getServerBasedOnAddress_none_iff_no_eligible_witness :
    (offlinePool .loop)._pool.length < SIZE_MOD
      ∧ (offlinePool .loop).lastUseUpstreamIndex < (offlinePool .loop)._pool.length
      ∧ getServerBasedOnAddress 100 (fun _ => 0) 3 (offlinePool .loop)
          = .ok (none, offlinePool .loop)
      ∧ (∀ u ∈ (offlinePool .loop)._pool, checkServer u = false) := by
  refine ⟨by decide, by decide, rfl, ?_⟩
  obtain ⟨r, p', h1, h2, _⟩ :=
    getServerBasedOnAddress_none_iff_no_eligible 100 (fun _ => 0) 3 (offlinePool .loop)
      (by decide) (by decide) (by decide) (fun hi => Nat.zero_le hi)
  have h0 : getServerBasedOnAddress 100 (fun _ => 0) 3 (offlinePool .loop)
      = .ok (none, offlinePool .loop) := rfl
  rw [h0] at h1
  simp only [Except.ok.injEq, Prod.mk.injEq] at h1
  exact h2.mp h1.1.symm

/-- C3: under policy `loop`, for a registry of `N ≥ 1` servers with the cursor
`cur < N`, `getServerBasedOnAddress` runs `getNextServer`, which returns the
server of the first eligible slot of the cyclic sequence `(cur + 1) mod N`,
`(cur + 2) mod N`, ..., `cur` (`N` slots, the starting slot last) and commits
`lastUseUpstreamIndex` to that slot; when none of the `N` slots is eligible it
returns the null reference (and the cursor is back at `cur`). -/
theorem loop_returns_first_eligible_after_cursor (now : UpstreamTimePoint)
    (draw : Nat → Nat) (fuel : Nat) (p : UpstreamPool)
    (hr : p.upstreamSelectRule = .loop) (hS : p._pool.length < SIZE_MOD)
    (hc : p.lastUseUpstreamIndex < p._pool.length) (hf : p._pool.length ≤ fuel) :
    getServerBasedOnAddress now draw fuel p = getNextServer fuel p
      ∧ getNextServer fuel p = .ok (loopSpec p)
      ∧ ((∃ k u, k < p._pool.length
            ∧ p._pool[(p.lastUseUpstreamIndex + 1 + k) % p._pool.length]? = some u
            ∧ checkServer u = true
            ∧ (∀ k', k' < k →
                slotEligible p._pool ((p.lastUseUpstreamIndex + 1 + k') % p._pool.length)
                  = false)
            ∧ loopSpec p = (some u, { p with
                lastUseUpstreamIndex := (p.lastUseUpstreamIndex + 1 + k) % p._pool.length }))
          ∨ ((∀ u ∈ p._pool, checkServer u = false) ∧ loopSpec p = (none, p))) := by
  refine ⟨?_, getNextServer_eq_loopSpec p fuel hS hc hf, ?_⟩
  · unfold getServerBasedOnAddress
    rw [hr]
  · unfold loopSpec
    rcases scanOutcome_cyclic_cases p (p.lastUseUpstreamIndex + 1) p.lastUseUpstreamIndex
      with h | ⟨h1, h2⟩
    · left
      exact h
    · right
      rw [pool_cursor_eta] at h2
      exact ⟨h1, h2⟩

/-- Witness of C3 on `samplePool`: from cursor 0 the scan skips slot 1 and
returns the server of slot 2. -/
theorem loop_returns_first_eligible_after_cursor_witness :
    getServerBasedOnAddress 100 (fun _ => 0) 3 (samplePool .loop)
        = getNextServer 3 (samplePool .loop)
      ∧ getNextServer 3 (samplePool .loop) = .ok (loopSpec (samplePool .loop))
      ∧ loopSpec (samplePool .loop)
        = (some (sampleServer 2 true), { samplePool .loop with lastUseUpstreamIndex := 2 }) :=
  have h := loop_returns_first_eligible_after_cursor 100 (fun _ => 0) 3 (samplePool .loop)
    rfl (by decide) (by decide) (by decide)
  ⟨h.1, h.2.1, rfl⟩

/-- C4: under policy `one_by_one`, for a registry of `N ≥ 1` servers with the
cursor `cur < N`, `getServerBasedOnAddress` runs `tryGetLastServer`, which
returns the server at `cur` when it is eligible (leaving the cursor there), and
otherwise the server of the first eligible slot of the cyclic sequence
`(cur + 1) mod N`, ..., `(cur + N - 1) mod N`, committing `lastUseUpstreamIndex`
to that slot; when no slot is eligible it returns the null reference (and the
cursor is back at `cur`). -/
theorem one_by_one_returns_cursor_or_next_eligible (now : UpstreamTimePoint)
    (draw : Nat → Nat) (fuel : Nat) (p : UpstreamPool)
    (hr : p.upstreamSelectRule = .one_by_one) (hS : p._pool.length < SIZE_MOD)
    (hc : p.lastUseUpstreamIndex < p._pool.length) (hf : p._pool.length ≤ fuel) :
    getServerBasedOnAddress now draw fuel p = tryGetLastServer fuel p
      ∧ tryGetLastServer fuel p = .ok (oneByOneSpec p)
      ∧ (∀ u, p._pool[p.lastUseUpstreamIndex]? = some u → checkServer u = true →
            oneByOneSpec p = (some u, p))
      ∧ ((∃ k u, k < p._pool.length
            ∧ p._pool[(p.lastUseUpstreamIndex + k) % p._pool.length]? = some u
            ∧ checkServer u = true
            ∧ (∀ k', k' < k →
                slotEligible p._pool ((p.lastUseUpstreamIndex + k') % p._pool.length)
                  = false)
            ∧ oneByOneSpec p = (some u, { p with
                lastUseUpstreamIndex := (p.lastUseUpstreamIndex + k) % p._pool.length }))
          ∨ ((∀ u ∈ p._pool, checkServer u = false) ∧ oneByOneSpec p = (none, p))) := by
  refine ⟨?_, tryGetLastServer_eq_oneByOneSpec p fuel hS hc hf, ?_, ?_⟩
  · unfold getServerBasedOnAddress
    rw [hr]
  · intro u hu hcs
    unfold oneByOneSpec
    rcases scanOutcome_cyclic_cases p p.lastUseUpstreamIndex p.lastUseUpstreamIndex
      with ⟨k, v, h1, h2, h3, h4, h5⟩ | ⟨h1, h2⟩
    · have hk : k = 0 := by
        by_contra hne
        have h6 := h4 0 (by omega)
        rw [Nat.add_zero, Nat.mod_eq_of_lt hc, slotEligible_of_getElem? _ _ _ hu, hcs] at h6
        simp at h6
      subst hk
      rw [Nat.add_zero, Nat.mod_eq_of_lt hc] at h2 h5
      rw [hu] at h2
      simp only [Option.some.injEq] at h2
      subst h2
      rw [pool_cursor_eta] at h5
      exact h5
    · have := h1 u (List.getElem?_mem hu)
      rw [hcs] at this
      simp at this
  · unfold oneByOneSpec
    rcases scanOutcome_cyclic_cases p p.lastUseUpstreamIndex p.lastUseUpstreamIndex
      with h | ⟨h1, h2⟩
    · left
      exact h
    · right
      rw [pool_cursor_eta] at h2
      exact ⟨h1, h2⟩

/-- Witness of C4 on `samplePool`: the server at the cursor (slot 0) is eligible
and is returned, the cursor staying on slot 0. -/
theorem one_by_one_returns_cursor_or_next_eligible_witness :
    getServerBasedOnAddress 100 (fun _ => 0) 3 (samplePool .one_by_one)
        = tryGetLastServer 3 (samplePool .one_by_one)
      ∧ tryGetLastServer 3 (samplePool .one_by_one)
        = .ok (oneByOneSpec (samplePool .one_by_one))
      ∧ oneByOneSpec (samplePool .one_by_one)
        = (some (sampleServer 0 true), samplePool .one_by_one) :=
  have h := one_by_one_returns_cursor_or_next_eligible 100 (fun _ => 0) 3
    (samplePool .one_by_one) rfl (by decide) (by decide) (by decide)
  ⟨h.1, h.2.1, h.2.2.1 (sampleServer 0 true) rfl rfl⟩

/-- C5 (evaluation of the code at the failing input): on `timedPool`
(`change_by_time`, `serverChangeTime = 10`, `lastChangeUpstreamTime = 0`, two
eligible servers, cursor 0) a call at `now = 100` has
`now - lastChangeUpstreamTime = 100 ≥ 10`, so by the claim it should behave as
`loop`: return the server of slot 1, move the cursor to 1 and set
`lastChangeUpstreamTime` to 100. The code compares the default-constructed
local `t` (the epoch) instead of the current time, takes the `one_by_one`
branch, returns the server of slot 0 and leaves the pool unchanged. -/
theorem change_by_time_compares_epoch_not_now :
    (100 : Int) - timedPool.lastChangeUpstreamTime ≥ timedPool.serverChangeTime
      ∧ getNextServer 2 timedPool
          = .ok (some (sampleServer 1 true), { timedPool with lastUseUpstreamIndex := 1 })
      ∧ tryGetLastServer 2 timedPool = .ok (some (sampleServer 0 true), timedPool)
      ∧ getServerBasedOnAddress 100 (fun _ => 0) 2 timedPool
          = .ok (some (sampleServer 0 true), timedPool)
      ∧ getServerBasedOnAddress 100 (fun _ => 0) 2 timedPool
          ≠ .ok (some (sampleServer 1 true),
              { timedPool with lastUseUpstreamIndex := 1, lastChangeUpstreamTime := 100 }) := by
  refine ⟨by decide, rfl, rfl, rfl, ?_⟩
  intro h
  have h2 : getServerBasedOnAddress 100 (fun _ => 0) 2 timedPool
      = .ok (some (sampleServer 0 true), timedPool) := rfl
  rw [h2] at h
  simp only [Except.ok.injEq, Prod.mk.injEq, Option.some.injEq] at h
  have h3 := congrArg UpstreamServer.index h.1
  exact absurd h3 (by decide)

/-- C6: under policy `random`, for every registry state and every draw of the
random engine (a `uniform_int_distribution(0, hi)` yields a value `≤ hi`),
`getServerBasedOnAddress` returns an element of the list built by
`filterValidServer`, which is the list of the servers passing `checkServer` in
registry order; it returns the null reference when that list is empty; and it
leaves the pool, in particular `lastUseUpstreamIndex` and
`lastChangeUpstreamTime`, unchanged. -/
theorem random_returns_member_of_filterValidServer (now : UpstreamTimePoint)
    (draw : Nat → Nat) (fuel : Nat) (p : UpstreamPool)
    (hr : p.upstreamSelectRule = .random) (hdraw : ∀ hi, draw hi ≤ hi) :
    filterValidServer p = p._pool.filter checkServer
      ∧ ∃ r p', getServerBasedOnAddress now draw fuel p = .ok (r, p')
          ∧ p'.lastUseUpstreamIndex = p.lastUseUpstreamIndex
          ∧ p'.lastChangeUpstreamTime = p.lastChangeUpstreamTime
          ∧ p' = p
          ∧ (filterValidServer p = [] → r = none)
          ∧ (filterValidServer p ≠ [] → ∃ u ∈ filterValidServer p, r = some u) := by
  refine ⟨filterValidServer_eq_filter p, ?_⟩
  unfold getServerBasedOnAddress
  rw [hr]
  simp only []
  by_cases he : (!(filterValidServer p).isEmpty) = true
  · rw [if_pos he]
    have hne : filterValidServer p ≠ [] := by
      intro h0
      rw [h0] at he
      simp at he
    have hlen : 0 < (filterValidServer p).length := List.length_pos.mpr hne
    have hi : draw ((filterValidServer p).length - 1) < (filterValidServer p).length := by
      have := hdraw ((filterValidServer p).length - 1)
      omega
    rw [List.getElem?_eq_getElem hi]
    exact ⟨_, _, rfl, rfl, rfl, rfl, fun h0 => absurd h0 hne,
      fun _ => ⟨_, List.getElem_mem hi, rfl⟩⟩
  · rw [if_neg he]
    have h0 : filterValidServer p = [] := by
      cases hl : filterValidServer p with
      | nil => rfl
      | cons a t => rw [hl] at he; simp at he
    exact ⟨_, _, rfl, rfl, rfl, rfl, fun _ => rfl, fun hne => absurd h0 hne⟩

/-- Witness of C6 on `samplePool`: the eligible servers are those of slots 0 and
2, and a draw of 1 returns the second of them without moving the cursor. -/
theorem random_returns_member_of_filterValidServer_witness :
    filterValidServer (samplePool .random) = [sampleServer 0 true, sampleServer 2 true]
      ∧ getServerBasedOnAddress 100 (fun hi => hi) 0 (samplePool .random)
          = .ok (some (sampleServer 2 true), samplePool .random)
      ∧ filterValidServer (samplePool .random)
          = (samplePool .random)._pool.filter checkServer :=
  ⟨rfl, rfl,
    (random_returns_member_of_filterValidServer 100 (fun hi => hi) 0 (samplePool .random)
      rfl (fun hi => le_refl hi)).1⟩

/-- C7: for every C++ `int` value `i` (32 bits) and every registry of `N`
servers, `forceSetLastUseUpstreamIndex(i)` sets `lastUseUpstreamIndex` to `i`
when `0 ≤ i < N` and otherwise (`i` negative or `i ≥ N`) leaves it as it was;
no other field of the pool changes in either case. -/
theorem forceSetLastUseUpstreamIndex_sets_iff_in_range (p : UpstreamPool) (i : Int)
    (hint : -(2 : Int) ^ 31 ≤ i ∧ i < (2 : Int) ^ 31) :
    ((0 ≤ i ∧ i < (p._pool.length : Int)) →
        forceSetLastUseUpstreamIndex p i = { p with lastUseUpstreamIndex := i.toNat })
      ∧ (¬ (0 ≤ i ∧ i < (p._pool.length : Int)) → forceSetLastUseUpstreamIndex p i = p)
      ∧ (forceSetLastUseUpstreamIndex p i)._pool = p._pool
      ∧ (forceSetLastUseUpstreamIndex p i).lastChangeUpstreamTime = p.lastChangeUpstreamTime
      ∧ (forceSetLastUseUpstreamIndex p i).upstreamSelectRule = p.upstreamSelectRule
      ∧ (forceSetLastUseUpstreamIndex p i).serverChangeTime = p.serverChangeTime := by
  have hconv : 0 ≤ i → (i % (SIZE_MOD : Int)).toNat = i.toNat := by
    intro h0
    have hS : (SIZE_MOD : Int) = 18446744073709551616 := by
      unfold SIZE_MOD
      norm_num
    rw [hS, Int.emod_eq_of_lt h0 (by omega)]
  refine ⟨?_, ?_, ?_, ?_, ?_, ?_⟩
  · intro ⟨h0, h1⟩
    unfold forceSetLastUseUpstreamIndex
    rw [hconv h0, if_pos ⟨h0, by omega⟩]
  · intro h
    unfold forceSetLastUseUpstreamIndex
    by_cases h0 : 0 ≤ i
    · rw [hconv h0, if_neg (by omega)]
    · rw [if_neg (fun hh => h0 hh.1)]
  all_goals
    unfold forceSetLastUseUpstreamIndex
    split <;> rfl

/-- Witness of C7 on `samplePool`: index 2 is in range and becomes the cursor. -/
theorem forceSetLastUseUpstreamIndex_sets_iff_in_range_witness :
    (-(2 : Int) ^ 31 ≤ 2 ∧ (2 : Int) < (2 : Int) ^ 31)
      ∧ forceSetLastUseUpstreamIndex (samplePool .loop) 2
          = { samplePool .loop with lastUseUpstreamIndex := 2 }
      ∧ forceSetLastUseUpstreamIndex (samplePool .loop) (-1) = samplePool .loop
      ∧ forceSetLastUseUpstreamIndex (samplePool .loop) 3 = samplePool .loop :=
  ⟨by decide,
    (forceSetLastUseUpstreamIndex_sets_iff_in_range (samplePool .loop) 2 (by decide)).1
      (by decide),
    (forceSetLastUseUpstreamIndex_sets_iff_in_range (samplePool .loop) (-1) (by decide)).2.1
      (by decide),
    (forceSetLastUseUpstreamIndex_sets_iff_in_range (samplePool .loop) 3 (by decide)).2.1
      (by decide)⟩

/-! ## SOCKS5 client handshake: theorems -/

theorem writesOf_write (d : List Nat) (t : List TraceEvent) :
    writesOf (.write d :: t) = d :: writesOf t := rfl

theorem callbacksOf_write (d : List Nat) (t : List TraceEvent) :
    callbacksOf (.write d :: t) = callbacksOf t := rfl

theorem writesOf_fail (what : String) : writesOf (fail what) = [] := rfl

theorem callbacksOf_fail (what : String) : callbacksOf (fail what) = [.onError what] := rfl

theorem not_isReady_fail (what : String) : ¬ isReady (fail what) := by
  unfold isReady
  rw [callbacksOf_fail]
  simp

theorem not_isReady_badParentPtr : ¬ isReady [.badParentPtr] := by
  unfold isReady callbacksOf callbacksOf
  simp

theorem not_isReady_assertionFailed : ¬ isReady [.assertionFailed] := by
  unfold isReady callbacksOf callbacksOf
  simp

theorem isReady_write (d : List Nat) (t : List TraceEvent) :
    isReady (.write d :: t) ↔ isReady t := by
  unfold isReady
  rw [callbacksOf_write]

theorem writesOf_connect_read (lock : Bool) (io : UpstreamScript) :
    writesOf (do_socks5_connect_read lock io) = [] := by
  unfold do_socks5_connect_read
  simp only []
  split_ifs <;> rfl

theorem port_octets (port : Nat) :
    [(port >>> 8) % 256, (port &&& 0xff) % 256] = portSpec port := by
  unfold portSpec
  have h1 : port >>> 8 = port / 256 := by
    rw [Nat.shiftRight_eq_div_pow]
  have h2 : port &&& 0xff = port % 256 := by
    have := Nat.and_pow_two_sub_one_eq_mod port 8
    simpa using this
  rw [h1, h2, Nat.mod_mod]

theorem connectMessage_eq_connectSpec (make_address : List Nat → ParsedAddress)
    (s : Session) (d : List Nat) (h : connectMessage make_address s = some d) :
    d = connectSpec make_address s := by
  unfold connectMessage at h
  unfold connectSpec
  have hp := port_octets s.port
  cases ha : make_address s.host with
  | notAddress =>
    simp only [ha] at h ⊢
    by_cases hl : s.host.length > 253
    · simp [hl] at h
    · have hm : s.host.length % 256 = s.host.length := Nat.mod_eq_of_lt (by omega)
      simp only [hl, if_false, hm, ite_self, Option.some.injEq] at h
      rw [← h, ← hp]
      simp
  | v4 b =>
    simp only [ha, ite_self, Option.some.injEq] at h ⊢
    rw [← h, ← hp]
    simp
  | v6 b =>
    simp only [ha, ite_self, Option.some.injEq] at h ⊢
    rw [← h, ← hp]
    simp

theorem connect_write_ready (make_address : List Nat → ParsedAddress) (s : Session)
    (io : UpstreamScript) (h : isReady (do_socks5_connect_write true make_address s io)) :
    writesOf (do_socks5_connect_write true make_address s io)
      = [connectSpec make_address s] := by
  unfold do_socks5_connect_write at h ⊢
  simp only [if_true] at h ⊢
  cases hm : connectMessage make_address s with
  | none =>
    rw [hm] at h
    exact absurd h (not_isReady_fail _)
  | some d =>
    simp only [hm] at h ⊢
    rw [writesOf_write, ← connectMessage_eq_connectSpec make_address s d hm]
    split_ifs
    · rfl
    · rfl
    · rw [writesOf_connect_read]

theorem auth_read_ready (make_address : List Nat → ParsedAddress) (s : Session)
    (io : UpstreamScript) (h : isReady (do_socks5_auth_read true make_address s io)) :
    writesOf (do_socks5_auth_read true make_address s io)
      = [connectSpec make_address s] := by
  unfold do_socks5_auth_read at h ⊢
  simp only [if_true] at h ⊢
  split_ifs at h ⊢
  · exact absurd h (not_isReady_fail _)
  · exact absurd h (not_isReady_fail _)
  · exact absurd h (not_isReady_fail _)
  · exact connect_write_ready make_address s io h

theorem set_at_length (u p : List Nat) (x b : Nat) :
    (u ++ x :: p).set u.length b = u ++ b :: p := by
  rw [List.set_append_right _ _ (le_refl _), Nat.sub_self, List.set_cons_zero]

theorem authMessage_octets (authUser authPwd : List Nat) :
    authMessage authUser authPwd
      = [0x01, authUser.length % 256] ++ authUser ++ [authPwd.length % 256] ++ authPwd := by
  unfold authMessage
  have h1 : [0x01] ++ [0x01] ++ authUser ++ [0x01] ++ authPwd
      = 1 :: 1 :: (authUser ++ 1 :: authPwd) := by simp
  have h2 : 2 + authUser.length = authUser.length + 1 + 1 := by omega
  simp only []
  rw [h1, List.set_cons_succ, List.set_cons_zero, h2, List.set_cons_succ, List.set_cons_succ,
    set_at_length]
  simp

theorem authMessage_eq_authSpec (authUser authPwd : List Nat)
    (hu : authUser.length ≤ 255) (hp : authPwd.length ≤ 255) :
    authMessage authUser authPwd = authSpec authUser authPwd := by
  rw [authMessage_octets]
  unfold authSpec
  rw [Nat.mod_eq_of_lt (by omega), Nat.mod_eq_of_lt (by omega)]

theorem authMessage_length (authUser authPwd : List Nat) :
    (authMessage authUser authPwd).length = authUser.length + authPwd.length + 3 := by
  rw [authMessage_octets]
  simp
  omega

theorem greetingMessage_eq_greetingSpec (authUser : List Nat) :
    greetingMessage authUser = greetingSpec authUser := by
  unfold greetingMessage greetingSpec
  cases authUser <;> rfl

theorem auth_write_ready (make_address : List Nat → ParsedAddress) (s : Session)
    (io : UpstreamScript) (h : isReady (do_socks5_auth_write true make_address s io))
    (hl : s.authUser.length ≤ 255 ∧ s.authPwd.length ≤ 255) :
    writesOf (do_socks5_auth_write true make_address s io)
      = [authSpec s.authUser s.authPwd, connectSpec make_address s] := by
  unfold do_socks5_auth_write at h ⊢
  rw [if_pos rfl] at h ⊢
  dsimp only at h ⊢
  rw [if_neg (by rw [authMessage_length]; simp)] at h ⊢
  rw [isReady_write] at h
  rw [writesOf_write]
  by_cases h1 : io.authW.ec = true
  · rw [if_pos h1] at h
    exact absurd h (not_isReady_fail _)
  · rw [if_neg h1] at h ⊢
    by_cases h2 : io.authW.bytes_transferred
        ≠ (authMessage s.authUser s.authPwd).length
    · rw [if_pos h2] at h
      exact absurd h (not_isReady_fail _)
    · rw [if_neg h2] at h ⊢
      rw [auth_read_ready make_address s io h, authMessage_eq_authSpec _ _ hl.1 hl.2]

theorem handshake_read_ready (make_address : List Nat → ParsedAddress) (s : Session)
    (io : UpstreamScript) (h : isReady (do_socks5_handshake_read true make_address s io))
    (hl : io.greetR.bufAt 1 = 0x02 → s.authUser.length ≤ 255 ∧ s.authPwd.length ≤ 255) :
    writesOf (do_socks5_handshake_read true make_address s io)
      = (if io.greetR.bufAt 1 = 0x02 then [authSpec s.authUser s.authPwd] else [])
          ++ [connectSpec make_address s] := by
  unfold do_socks5_handshake_read at h ⊢
  rw [if_pos rfl] at h ⊢
  dsimp only at h ⊢
  by_cases h1 : io.greetR.ec = true
  · rw [if_pos h1] at h
    exact absurd h (not_isReady_fail _)
  rw [if_neg h1] at h ⊢
  by_cases h2 : io.greetR.bytes_transferred < 2
  · rw [if_pos h2] at h
    exact absurd h (not_isReady_fail _)
  rw [if_neg h2] at h ⊢
  by_cases h3 : io.greetR.bufAt 0 ≠ 5
  · rw [if_pos h3] at h
    exact absurd h (not_isReady_fail _)
  rw [if_neg h3] at h ⊢
  by_cases h4 : io.greetR.bufAt 1 ≠ 0x00 ∧ io.greetR.bufAt 1 ≠ 0x02
  · rw [if_pos h4] at h
    exact absurd h (not_isReady_fail _)
  rw [if_neg h4] at h ⊢
  by_cases h5 : io.greetR.bufAt 1 = 0x02
  · rw [if_pos h5] at h ⊢
    rw [if_pos h5]
    by_cases h6 : s.authUser.isEmpty = true
    · rw [if_pos h6] at h
      exact absurd h (not_isReady_fail _)
    · rw [if_neg h6] at h ⊢
      exact auth_write_ready make_address s io h (hl h5)
  · rw [if_neg h5] at h ⊢
    rw [if_neg h5]
    exact connect_write_ready make_address s io h

theorem handshake_write_ready (make_address : List Nat → ParsedAddress) (s : Session)
    (io : UpstreamScript) (h : isReady (do_socks5_handshake_write true make_address s io))
    (hl : io.greetR.bufAt 1 = 0x02 → s.authUser.length ≤ 255 ∧ s.authPwd.length ≤ 255) :
    writesOf (do_socks5_handshake_write true make_address s io)
      = [greetingSpec s.authUser]
          ++ (if io.greetR.bufAt 1 = 0x02 then [authSpec s.authUser s.authPwd] else [])
          ++ [connectSpec make_address s] := by
  unfold do_socks5_handshake_write at h ⊢
  rw [if_pos rfl] at h ⊢
  dsimp only at h ⊢
  rw [isReady_write] at h
  rw [writesOf_write]
  by_cases h1 : io.greetW.ec = true
  · rw [if_pos h1] at h
    exact absurd h (not_isReady_fail _)
  rw [if_neg h1] at h ⊢
  by_cases h2 : io.greetW.bytes_transferred ≠ (greetingMessage s.authUser).length
  · rw [if_pos h2] at h
    exact absurd h (not_isReady_fail _)
  rw [if_neg h2] at h ⊢
  rw [handshake_read_ready make_address s io h hl, greetingMessage_eq_greetingSpec]
  simp

theorem auth_write_run (make_address : List Nat → ParsedAddress) (s : Session)
    (io : UpstreamScript) :
    do_socks5_auth_write true make_address s io
      = .write (authMessage s.authUser s.authPwd) ::
          (if io.authW.ec then fail "do_socks5_auth_write"
          else if io.authW.bytes_transferred ≠ (authMessage s.authUser s.authPwd).length then
            fail (shortWriteText "do_socks5_auth_write" io.authW.bytes_transferred
              (authMessage s.authUser s.authPwd).length)
          else do_socks5_auth_read true make_address s io) := by
  unfold do_socks5_auth_write
  rw [if_pos rfl]
  dsimp only
  rw [if_neg (by rw [authMessage_length]; simp)]

theorem oversize_authMessage :
    authMessage oversizeUserSession.authUser oversizeUserSession.authPwd
      = [0x01, 0x00] ++ List.replicate 256 0x61 ++ [0x02, 0x70, 0x77] := by
  have hu : oversizeUserSession.authUser = List.replicate 256 0x61 := rfl
  have hp : oversizeUserSession.authPwd = [0x70, 0x77] := rfl
  rw [authMessage_octets, hu, hp, List.length_replicate]
  simp only [List.length_cons, List.length_nil, List.append_assoc, List.cons_append,
    List.nil_append]

theorem oversize_user_run (make_address : List Nat → ParsedAddress)
    (h : make_address (asciiBytes "1.2.3.4") = .v4 ![1, 2, 3, 4]) :
    start true make_address oversizeUserSession oversizeUserScript
      = [.write [0x05, 0x01, 0x02],
         .write ([0x01, 0x00] ++ List.replicate 256 0x61 ++ [0x02, 0x70, 0x77]),
         .write [0x05, 0x01, 0x00, 0x01, 0x01, 0x02, 0x03, 0x04, 0x00, 0x50],
         .callback .onUpReady, .callback .onUpEnd] := by
  have hc : connectMessage make_address oversizeUserSession
      = some [0x05, 0x01, 0x00, 0x01, 0x01, 0x02, 0x03, 0x04, 0x00, 0x50] := by
    unfold connectMessage
    rw [show oversizeUserSession.host = asciiBytes "1.2.3.4" from rfl, h]
    rfl
  have hconn : do_socks5_connect_write true make_address oversizeUserSession oversizeUserScript
      = [.write [0x05, 0x01, 0x00, 0x01, 0x01, 0x02, 0x03, 0x04, 0x00, 0x50],
         .callback .onUpReady, .callback .onUpEnd] := by
    unfold do_socks5_connect_write
    rw [hc]
    rfl
  have hauthR : do_socks5_auth_read true make_address oversizeUserSession oversizeUserScript
      = do_socks5_connect_write true make_address oversizeUserSession oversizeUserScript := by
    unfold do_socks5_auth_read
    rfl
  have hl : ([0x01, 0x00] ++ List.replicate 256 0x61 ++ [0x02, 0x70, 0x77]).length = 261 := by
    rw [List.length_append, List.length_append, List.length_replicate]
    rfl
  have hauthW : do_socks5_auth_write true make_address oversizeUserSession oversizeUserScript
      = .write ([0x01, 0x00] ++ List.replicate 256 0x61 ++ [0x02, 0x70, 0x77]) ::
          do_socks5_auth_read true make_address oversizeUserSession oversizeUserScript := by
    rw [auth_write_run, oversize_authMessage, hl]
    rfl
  have hread : do_socks5_handshake_read true make_address oversizeUserSession oversizeUserScript
      = do_socks5_auth_write true make_address oversizeUserSession oversizeUserScript := by
    have he : ¬ (oversizeUserSession.authUser.isEmpty = true) := by
      rw [show oversizeUserSession.authUser = List.replicate (255 + 1) 0x61 from rfl,
        List.replicate_succ, List.isEmpty_cons]
      exact Bool.false_ne_true
    unfold do_socks5_handshake_read
    rw [if_pos rfl]
    dsimp only
    rw [if_neg (by decide), if_neg (by decide), if_neg (by decide), if_neg (by decide),
      if_pos (by decide), if_neg he]
  have hg : greetingMessage oversizeUserSession.authUser = [0x05, 0x01, 0x02] := by
    rw [greetingMessage_eq_greetingSpec]
    unfold greetingSpec
    rw [if_neg]
    rw [show oversizeUserSession.authUser = List.replicate (255 + 1) 0x61 from rfl,
      List.replicate_succ]
    exact List.cons_ne_nil _ _
  unfold start do_socks5_handshake_write
  rw [if_pos rfl]
  dsimp only
  rw [hg, hread, hauthW, hauthR, hconn]
  rfl

/-- C8: in every successful handshake (the bridge is notified with `onUpReady`
then `onUpEnd`) whose credentials fit their one-octet length fields (`authUser`
and `authPwd` of at most 255 octets each when the server selects method
`0x02`), whatever the target, the address parser and the accepted server
replies, the messages written to the upstream socket are exactly: the 3-octet
greeting `05 01 M` with `M = 00` when `authUser` is empty and `M = 02`
otherwise; then, if and only if the server selected method `0x02`, the auth
message `01 ULEN UNAME PLEN PASSWD` with `ULEN = len(UNAME)` and
`PLEN = len(PASSWD)`; then the CONNECT message; and nothing else. Scenario 1
(no credentials, target `1.2.3.4:80`) writes `05 01 00` then
`05 01 00 01 01 02 03 04 00 50`; scenario 2 (user `u`, password `pw`, target
`example.com:443`) writes `05 01 02`, `01 01 75 02 70 77` and
`05 01 00 03 0B 65 78 61 6D 70 6C 65 2E 63 6F 6D 01 BB`. The lengths of the
credentials are not checked, though: with a user name of 256 octets, password
`pw`, target `1.2.3.4:80` and a server that answers `05 02`, `01 00` and
`05 00 00 01 00 00 00 00 00 00`, the handshake is successful and the auth
message written is `01 00`, the 256 octets of the user name, `02 70 77`; its
ULEN octet is 0 and not `len(UNAME)`, so the messages written are not those of
the specification. -/
theorem handshake_writes_match_spec_unless_oversize_credentials
    (make_address : List Nat → ParsedAddress) :
    (∀ (s : Session) (io : UpstreamScript),
        isReady (start true make_address s io) →
        (io.greetR.bufAt 1 = 0x02 → s.authUser.length ≤ 255 ∧ s.authPwd.length ≤ 255) →
        writesOf (start true make_address s io)
          = [greetingSpec s.authUser]
              ++ (if io.greetR.bufAt 1 = 0x02 then [authSpec s.authUser s.authPwd] else [])
              ++ [connectSpec make_address s])
      ∧ (make_address (asciiBytes "1.2.3.4") = .v4 ![1, 2, 3, 4] →
          start true make_address noAuthSession noAuthScript
            = [.write [0x05, 0x01, 0x00],
               .write [0x05, 0x01, 0x00, 0x01, 0x01, 0x02, 0x03, 0x04, 0x00, 0x50],
               .callback .onUpReady, .callback .onUpEnd])
      ∧ (make_address (asciiBytes "example.com") = .notAddress →
          start true make_address userPassSession userPassScript
            = [.write [0x05, 0x01, 0x02],
               .write [0x01, 0x01, 0x75, 0x02, 0x70, 0x77],
               .write [0x05, 0x01, 0x00, 0x03, 0x0B, 0x65, 0x78, 0x61, 0x6D, 0x70, 0x6C, 0x65,
                 0x2E, 0x63, 0x6F, 0x6D, 0x01, 0xBB],
               .callback .onUpReady, .callback .onUpEnd])
      ∧ (make_address (asciiBytes "1.2.3.4") = .v4 ![1, 2, 3, 4] →
          start true make_address oversizeUserSession oversizeUserScript
              = [.write [0x05, 0x01, 0x02],
                 .write ([0x01, 0x00] ++ List.replicate 256 0x61 ++ [0x02, 0x70, 0x77]),
                 .write [0x05, 0x01, 0x00, 0x01, 0x01, 0x02, 0x03, 0x04, 0x00, 0x50],
                 .callback .onUpReady, .callback .onUpEnd]
            ∧ isReady (start true make_address oversizeUserSession oversizeUserScript)
            ∧ oversizeUserSession.authUser.length = 256
            ∧ writesOf (start true make_address oversizeUserSession oversizeUserScript)
                ≠ [greetingSpec oversizeUserSession.authUser]
                    ++ (if oversizeUserScript.greetR.bufAt 1 = 0x02
                        then [authSpec oversizeUserSession.authUser oversizeUserSession.authPwd]
                        else [])
                    ++ [connectSpec make_address oversizeUserSession]) := by
  refine ⟨?_, ?_, ?_, ?_⟩
  · intro s io h hl
    exact handshake_write_ready make_address s io h hl
  · intro h
    have hc : connectMessage make_address noAuthSession
        = some [0x05, 0x01, 0x00, 0x01, 0x01, 0x02, 0x03, 0x04, 0x00, 0x50] := by
      unfold connectMessage
      rw [show noAuthSession.host = asciiBytes "1.2.3.4" from rfl, h]
      rfl
    unfold start do_socks5_handshake_write do_socks5_handshake_read do_socks5_connect_write
    rw [hc]
    rfl
  · intro h
    have hc : connectMessage make_address userPassSession
        = some [0x05, 0x01, 0x00, 0x03, 0x0B, 0x65, 0x78, 0x61, 0x6D, 0x70, 0x6C, 0x65,
                 0x2E, 0x63, 0x6F, 0x6D, 0x01, 0xBB] := by
      unfold connectMessage
      rw [show userPassSession.host = asciiBytes "example.com" from rfl, h]
      rfl
    unfold start do_socks5_handshake_write do_socks5_handshake_read do_socks5_auth_write
      do_socks5_auth_read do_socks5_connect_write
    rw [hc]
    rfl
  · intro h
    have hrun := oversize_user_run make_address h
    refine ⟨hrun, ?_, List.length_replicate _ _, ?_⟩
    · rw [hrun]
      rfl
    · rw [hrun]
      intro heq
      have h2 : (some 0 : Option Nat) = some oversizeUserSession.authUser.length :=
        congrArg (fun l : List (List Nat) =>
          match l with
          | _ :: (_ :: ulen :: _) :: _ => some ulen
          | _ => none) heq
      rw [show oversizeUserSession.authUser.length = 256 from List.length_replicate _ _] at h2
      exact absurd h2 (by decide)

/-- Witness of C8: the two scenarios of the spec and the run with the user name
of 256 octets, with an address parser that reads `1.2.3.4` as the IPv4 address
`01 02 03 04` and with one that rejects `example.com`. -/
theorem handshake_writes_match_spec_unless_oversize_credentials_witness :
    isReady (start true (fun _ => .v4 ![1, 2, 3, 4]) noAuthSession noAuthScript)
      ∧ writesOf (start true (fun _ => .v4 ![1, 2, 3, 4]) noAuthSession noAuthScript)
          = [[0x05, 0x01, 0x00], [0x05, 0x01, 0x00, 0x01, 0x01, 0x02, 0x03, 0x04, 0x00, 0x50]]
      ∧ start true (fun _ => .v4 ![1, 2, 3, 4]) noAuthSession noAuthScript
          = [.write [0x05, 0x01, 0x00],
             .write [0x05, 0x01, 0x00, 0x01, 0x01, 0x02, 0x03, 0x04, 0x00, 0x50],
             .callback .onUpReady, .callback .onUpEnd]
      ∧ isReady (start true (fun _ => .notAddress) userPassSession userPassScript)
      ∧ (userPassSession.authUser.length ≤ 255 ∧ userPassSession.authPwd.length ≤ 255)
      ∧ writesOf (start true (fun _ => .notAddress) userPassSession userPassScript)
          = [[0x05, 0x01, 0x02], [0x01, 0x01, 0x75, 0x02, 0x70, 0x77],
             [0x05, 0x01, 0x00, 0x03, 0x0B, 0x65, 0x78, 0x61, 0x6D, 0x70, 0x6C, 0x65,
               0x2E, 0x63, 0x6F, 0x6D, 0x01, 0xBB]]
      ∧ start true (fun _ => .notAddress) userPassSession userPassScript
          = [.write [0x05, 0x01, 0x02],
             .write [0x01, 0x01, 0x75, 0x02, 0x70, 0x77],
             .write [0x05, 0x01, 0x00, 0x03, 0x0B, 0x65, 0x78, 0x61, 0x6D, 0x70, 0x6C, 0x65,
               0x2E, 0x63, 0x6F, 0x6D, 0x01, 0xBB],
             .callback .onUpReady, .callback .onUpEnd]
      ∧ isReady (start true (fun _ => .v4 ![1, 2, 3, 4]) oversizeUserSession
          oversizeUserScript)
      ∧ writesOf (start true (fun _ => .v4 ![1, 2, 3, 4]) oversizeUserSession
          oversizeUserScript)
          ≠ [greetingSpec oversizeUserSession.authUser]
              ++ (if oversizeUserScript.greetR.bufAt 1 = 0x02
                  then [authSpec oversizeUserSession.authUser oversizeUserSession.authPwd]
                  else [])
              ++ [connectSpec (fun _ => .v4 ![1, 2, 3, 4]) oversizeUserSession] :=
  ⟨rfl,
    (handshake_writes_match_spec_unless_oversize_credentials
      (fun _ => .v4 ![1, 2, 3, 4])).1 noAuthSession noAuthScript rfl
      (fun h => absurd h (by decide)),
    (handshake_writes_match_spec_unless_oversize_credentials
      (fun _ => .v4 ![1, 2, 3, 4])).2.1 rfl,
    rfl,
    by decide,
    (handshake_writes_match_spec_unless_oversize_credentials
      (fun _ => .notAddress)).1 userPassSession userPassScript rfl (fun _ => by decide),
    (handshake_writes_match_spec_unless_oversize_credentials
      (fun _ => .notAddress)).2.2.1 rfl,
    ((handshake_writes_match_spec_unless_oversize_credentials
      (fun _ => .v4 ![1, 2, 3, 4])).2.2.2 rfl).2.1,
    ((handshake_writes_match_spec_unless_oversize_credentials
      (fun _ => .v4 ![1, 2, 3, 4])).2.2.2 rfl).2.2.2⟩

/-- C9: for a greeting reply read without I/O error, with `n` octets received,
the next step is decided by `n ≥ 2`, `buf[0]`, `buf[1]` and the emptiness of
`authUser`, the checks being made in this order: the handshake fails (one
`onError`, nothing written) if `n < 2`, or `buf[0] ≠ 0x05`, or `buf[1]` is
neither `0x00` nor `0x02`; otherwise, if `buf[1] = 0x02`, it fails with reason
`socks5_handshake_read (we cannot auth)` when `authUser` is empty and goes on
with the auth write when `authUser` is not empty; and if `buf[1] = 0x00` it goes
on directly with the CONNECT write, credentials configured or not. A reply
that agrees on `n ≥ 2`, `buf[0]` and `buf[1]` gives the same run, so octets after
the first two never change the outcome. -/
theorem greeting_reply_decides_next_step (make_address : List Nat → ParsedAddress)
    (s : Session) (io : UpstreamScript) (hec : io.greetR.ec = false) :
    ((io.greetR.bytes_transferred < 2 ∨ io.greetR.bufAt 0 ≠ 0x05
          ∨ (io.greetR.bufAt 1 ≠ 0x00 ∧ io.greetR.bufAt 1 ≠ 0x02)) →
        ∃ reason, do_socks5_handshake_read true make_address s io = fail reason)
      ∧ (2 ≤ io.greetR.bytes_transferred → io.greetR.bufAt 0 = 0x05 →
          io.greetR.bufAt 1 = 0x02 → s.authUser = [] →
          do_socks5_handshake_read true make_address s io
            = fail "socks5_handshake_read (we cannot auth)")
      ∧ (2 ≤ io.greetR.bytes_transferred → io.greetR.bufAt 0 = 0x05 →
          io.greetR.bufAt 1 = 0x02 → s.authUser ≠ [] →
          do_socks5_handshake_read true make_address s io
            = do_socks5_auth_write true make_address s io)
      ∧ (2 ≤ io.greetR.bytes_transferred → io.greetR.bufAt 0 = 0x05 →
          io.greetR.bufAt 1 = 0x00 →
          do_socks5_handshake_read true make_address s io
            = do_socks5_connect_write true make_address s io)
      ∧ (∀ data' : List Nat,
          (data'.length < 2 ↔ io.greetR.bytes_transferred < 2) →
          data'.getD 0 0 = io.greetR.bufAt 0 → data'.getD 1 0 = io.greetR.bufAt 1 →
          do_socks5_handshake_read true make_address s
              { io with greetR := { ec := false, data := data' } }
            = do_socks5_handshake_read true make_address s io) := by
  have hec' : ¬ io.greetR.ec = true := by rw [hec]; simp
  refine ⟨?_, ?_, ?_, ?_, ?_⟩
  · intro h
    unfold do_socks5_handshake_read
    rw [if_pos rfl]
    dsimp only
    rw [if_neg hec']
    by_cases h2 : io.greetR.bytes_transferred < 2
    · rw [if_pos h2]
      exact ⟨_, rfl⟩
    rw [if_neg h2]
    by_cases h3 : io.greetR.bufAt 0 ≠ 5
    · rw [if_pos h3]
      exact ⟨_, rfl⟩
    rw [if_neg h3]
    have h4 : io.greetR.bufAt 1 ≠ 0x00 ∧ io.greetR.bufAt 1 ≠ 0x02 := by
      rcases h with h | h | h
      · exact absurd h h2
      · exact absurd h h3
      · exact h
    rw [if_pos h4]
    exact ⟨_, rfl⟩
  · intro h2 h0 h1 hu
    unfold do_socks5_handshake_read
    rw [if_pos rfl]
    dsimp only
    rw [if_neg hec', if_neg (by omega), if_neg (by rw [h0]; simp),
      if_neg (by rw [h1]; simp), if_pos h1, if_pos (by rw [hu]; rfl)]
  · intro h2 h0 h1 hu
    unfold do_socks5_handshake_read
    rw [if_pos rfl]
    dsimp only
    rw [if_neg hec', if_neg (by omega), if_neg (by rw [h0]; simp),
      if_neg (by rw [h1]; simp), if_pos h1,
      if_neg (by simpa [List.isEmpty_iff] using hu)]
  · intro h2 h0 h1
    unfold do_socks5_handshake_read
    rw [if_pos rfl]
    dsimp only
    rw [if_neg hec', if_neg (by omega), if_neg (by rw [h0]; simp),
      if_neg (by rw [h1]; simp), if_neg (by rw [h1]; simp)]
  · intro data' hn h0 h1
    have hauth : do_socks5_auth_write true make_address s
          { io with greetR := { ec := false, data := data' } }
        = do_socks5_auth_write true make_address s io := rfl
    have hconn : do_socks5_connect_write true make_address s
          { io with greetR := { ec := false, data := data' } }
        = do_socks5_connect_write true make_address s io := rfl
    unfold do_socks5_handshake_read
    rw [if_pos rfl, if_pos rfl, hauth, hconn]
    dsimp only
    unfold ReadCompletion.bytes_transferred ReadCompletion.bufAt at *
    dsimp only at *
    rw [if_neg hec', if_neg (by simp), h0, h1]
    by_cases h2 : io.greetR.data.length < 2
    · rw [if_pos h2, if_pos (hn.mpr h2)]
    · rw [if_neg h2, if_neg (fun hh => h2 (hn.mp hh))]

/-- Witness of C9: scenario 3 of the spec (the server demands authentication
and no credentials are configured), a one-octet reply, the replies `05 02` with
credentials and `05 00` without, and a reply `05 00` followed by two more
octets. -/
theorem greeting_reply_decides_next_step_witness :
    demandAuthScript.greetR.ec = false
      ∧ do_socks5_handshake_read true (fun _ => .v4 ![1, 2, 3, 4]) noAuthSession
          demandAuthScript
        = [.callback (.onError "socks5_handshake_read (we cannot auth)")]
      ∧ (∃ reason, do_socks5_handshake_read true (fun _ => .v4 ![1, 2, 3, 4]) noAuthSession
          { noAuthScript with greetR := received [0x05] } = fail reason)
      ∧ do_socks5_handshake_read true (fun _ => .notAddress) userPassSession userPassScript
        = do_socks5_auth_write true (fun _ => .notAddress) userPassSession userPassScript
      ∧ do_socks5_handshake_read true (fun _ => .v4 ![1, 2, 3, 4]) noAuthSession noAuthScript
        = do_socks5_connect_write true (fun _ => .v4 ![1, 2, 3, 4]) noAuthSession noAuthScript
      ∧ do_socks5_handshake_read true (fun _ => .v4 ![1, 2, 3, 4]) noAuthSession
          { noAuthScript with greetR := { ec := false, data := [0x05, 0x00, 0x09, 0x09] } }
        = do_socks5_handshake_read true (fun _ => .v4 ![1, 2, 3, 4]) noAuthSession
            noAuthScript :=
  ⟨rfl,
    (greeting_reply_decides_next_step (fun _ => .v4 ![1, 2, 3, 4]) noAuthSession
      demandAuthScript rfl).2.1 (by decide) rfl rfl rfl,
    (greeting_reply_decides_next_step (fun _ => .v4 ![1, 2, 3, 4]) noAuthSession
      { noAuthScript with greetR := received [0x05] } rfl).1 (Or.inl (by decide)),
    (greeting_reply_decides_next_step (fun _ => .notAddress) userPassSession
      userPassScript rfl).2.2.1 (by decide) rfl rfl (by decide),
    (greeting_reply_decides_next_step (fun _ => .v4 ![1, 2, 3, 4]) noAuthSession
      noAuthScript rfl).2.2.2.1 (by decide) rfl rfl,
    (greeting_reply_decides_next_step (fun _ => .v4 ![1, 2, 3, 4]) noAuthSession
      noAuthScript rfl).2.2.2.2 [0x05, 0x00, 0x09, 0x09] (by decide) rfl rfl⟩

/-- C10: for every `authUser` of length 1..255 and `authPwd` of length 1..255
the auth message built by `do_socks5_auth_write` is exactly
`[0x01, len(authUser)] ++ authUser ++ [len(authPwd)] ++ authPwd`; its length is
`3 + ULEN + PLEN`, so the `BOOST_ASSERT` holds and the message is handed to the
socket; and for a 255-octet user with a 255-octet password it is 513 octets
long. -/
theorem auth_message_format (authUser authPwd : List Nat)
    (hu : 1 ≤ authUser.length ∧ authUser.length ≤ 255)
    (hp : 1 ≤ authPwd.length ∧ authPwd.length ≤ 255) :
    authMessage authUser authPwd
        = [0x01, authUser.length] ++ authUser ++ [authPwd.length] ++ authPwd
      ∧ (authMessage authUser authPwd).length = 3 + authUser.length + authPwd.length
      ∧ (∀ (make_address : List Nat → ParsedAddress) (s : Session) (io : UpstreamScript),
          s.authUser = authUser → s.authPwd = authPwd →
          do_socks5_auth_write true make_address s io ≠ [.assertionFailed]
            ∧ ∃ rest, do_socks5_auth_write true make_address s io
                = .write (authMessage authUser authPwd) :: rest)
      ∧ (authUser.length = 255 → authPwd.length = 255 →
          (authMessage authUser authPwd).length = 513) := by
  have hlen := authMessage_length authUser authPwd
  refine ⟨?_, by omega, ?_, fun h1 h2 => by omega⟩
  · rw [authMessage_octets, Nat.mod_eq_of_lt (by omega), Nat.mod_eq_of_lt (by omega)]
  · intro make_address s io h1 h2
    subst h1
    subst h2
    have hrun : do_socks5_auth_write true make_address s io
        = .write (authMessage s.authUser s.authPwd) ::
            (if io.authW.ec then fail "do_socks5_auth_write"
            else if io.authW.bytes_transferred
                ≠ (authMessage s.authUser s.authPwd).length then
              fail (shortWriteText "do_socks5_auth_write" io.authW.bytes_transferred
                (authMessage s.authUser s.authPwd).length)
            else do_socks5_auth_read true make_address s io) := by
      unfold do_socks5_auth_write
      rw [if_pos rfl]
      dsimp only
      rw [if_neg (by rw [authMessage_length]; simp)]
    rw [hrun]
    exact ⟨by simp, _, rfl⟩

/-- Witness of C10: user `u` and password `pw` give `01 01 75 02 70 77`, which
scenario 2 hands to the socket; a user and a password of 255 octets each give
513 octets. -/
theorem auth_message_format_witness :
    (1 ≤ (asciiBytes "u").length ∧ (asciiBytes "u").length ≤ 255)
      ∧ (1 ≤ (asciiBytes "pw").length ∧ (asciiBytes "pw").length ≤ 255)
      ∧ authMessage (asciiBytes "u") (asciiBytes "pw")
          = [0x01, 0x01, 0x75, 0x02, 0x70, 0x77]
      ∧ (authMessage (asciiBytes "u") (asciiBytes "pw")).length = 6
      ∧ do_socks5_auth_write true (fun _ => .notAddress) userPassSession userPassScript
          ≠ [.assertionFailed]
      ∧ (authMessage (List.replicate 255 0x61) (List.replicate 255 0x62)).length = 513 :=
  ⟨by decide, by decide,
    (auth_message_format (asciiBytes "u") (asciiBytes "pw") (by decide) (by decide)).1,
    (auth_message_format (asciiBytes "u") (asciiBytes "pw") (by decide) (by decide)).2.1,
    ((auth_message_format (asciiBytes "u") (asciiBytes "pw") (by decide) (by decide)).2.2.1
      (fun _ => .notAddress) userPassSession userPassScript rfl rfl).1,
    (auth_message_format (List.replicate 255 0x61) (List.replicate 255 0x62)
      (by rw [List.length_replicate]; decide) (by rw [List.length_replicate]; decide)).2.2.2
      (List.length_replicate _ _) (List.length_replicate _ _)⟩

/-! ## SOCKS5 client handshake: the auth reply, the CONNECT message and the CONNECT reply -/

/-- C11: for an auth reply of `n` octets read without I/O error, the handshake
goes on with the CONNECT write if and only if `n ≥ 2`, `buf[0] = 0x01` and
`buf[1] = 0x00`; for every other reply (fewer than 2 octets, a wrong
sub-negotiation version, a non-zero status) the phase is a single failure
notification: nothing is written, so no CONNECT message is written. -/
theorem auth_reply_decides_connect_write (make_address : List Nat → ParsedAddress)
    (s : Session) (io : UpstreamScript) (hec : io.authR.ec = false) :
    ((2 ≤ io.authR.bytes_transferred ∧ io.authR.bufAt 0 = 0x01 ∧ io.authR.bufAt 1 = 0x00) →
        do_socks5_auth_read true make_address s io
          = do_socks5_connect_write true make_address s io)
      ∧ (io.authR.bytes_transferred < 2 →
          do_socks5_auth_read true make_address s io
            = fail "do_socks5_auth_read (bytes_transferred < 2)")
      ∧ (2 ≤ io.authR.bytes_transferred →
          (io.authR.bufAt 0 ≠ 0x01 ∨ io.authR.bufAt 1 ≠ 0x00) →
          do_socks5_auth_read true make_address s io = fail "do_socks5_auth_read (failed)")
      ∧ (¬ (2 ≤ io.authR.bytes_transferred ∧ io.authR.bufAt 0 = 0x01
            ∧ io.authR.bufAt 1 = 0x00) →
          (∃ reason, do_socks5_auth_read true make_address s io = fail reason)
            ∧ writesOf (do_socks5_auth_read true make_address s io) = []) := by
  have hec' : ¬ io.authR.ec = true := by rw [hec]; simp
  have hshort : io.authR.bytes_transferred < 2 →
      do_socks5_auth_read true make_address s io
        = fail "do_socks5_auth_read (bytes_transferred < 2)" := by
    intro h
    unfold do_socks5_auth_read
    rw [if_pos rfl]
    dsimp only
    rw [if_neg hec', if_pos h]
  have hbad : 2 ≤ io.authR.bytes_transferred →
      (io.authR.bufAt 0 ≠ 0x01 ∨ io.authR.bufAt 1 ≠ 0x00) →
      do_socks5_auth_read true make_address s io = fail "do_socks5_auth_read (failed)" := by
    intro h2 h
    unfold do_socks5_auth_read
    rw [if_pos rfl]
    dsimp only
    rw [if_neg hec', if_neg (by omega), if_pos h]
  refine ⟨?_, hshort, hbad, ?_⟩
  · intro ⟨h2, h0, h1⟩
    unfold do_socks5_auth_read
    rw [if_pos rfl]
    dsimp only
    rw [if_neg hec', if_neg (by omega), if_neg (by rw [h0, h1]; simp)]
  · intro h
    by_cases h2 : io.authR.bytes_transferred < 2
    · rw [hshort h2]
      exact ⟨⟨_, rfl⟩, rfl⟩
    · have h3 : io.authR.bufAt 0 ≠ 0x01 ∨ io.authR.bufAt 1 ≠ 0x00 := by
        by_contra hc
        push_neg at hc
        exact h ⟨by omega, hc.1, hc.2⟩
      rw [hbad (by omega) h3]
      exact ⟨⟨_, rfl⟩, rfl⟩

/-- Witness of C11: the reply `01 00` of scenario 2 leads to the CONNECT write,
the reply `01 01` to a failure without any write. -/
theorem auth_reply_decides_connect_write_witness :
    userPassScript.authR.ec = false
      ∧ do_socks5_auth_read true (fun _ => .notAddress) userPassSession userPassScript
        = do_socks5_connect_write true (fun _ => .notAddress) userPassSession userPassScript
      ∧ do_socks5_auth_read true (fun _ => .notAddress) userPassSession authRejectedScript
        = [.callback (.onError "do_socks5_auth_read (failed)")]
      ∧ writesOf
          (do_socks5_auth_read true (fun _ => .notAddress) userPassSession authRejectedScript)
        = [] :=
  ⟨rfl,
    (auth_reply_decides_connect_write (fun _ => .notAddress) userPassSession
      userPassScript rfl).1 ⟨by decide, rfl, rfl⟩,
    (auth_reply_decides_connect_write (fun _ => .notAddress) userPassSession
      authRejectedScript rfl).2.2.1 (by decide) (Or.inr (by decide)),
    ((auth_reply_decides_connect_write (fun _ => .notAddress) userPassSession
      authRejectedScript rfl).2.2.2 (by decide)).2⟩

theorem port_octets_of_lt (port : Nat) (hp : port < 65536) :
    [(port >>> 8) % 256, (port &&& 0xff) % 256] = [port / 256, port % 256] := by
  rw [port_octets]
  unfold portSpec
  rw [Nat.mod_eq_of_lt (by omega : port / 256 < 256)]

theorem connectMessage_v4 (make_address : List Nat → ParsedAddress) (s : Session)
    (b : Fin 4 → Nat) (h : make_address s.host = .v4 b) :
    connectMessage make_address s
      = some ([0x05, 0x01, 0x00, 0x01] ++ List.ofFn b
          ++ [(s.port >>> 8) % 256, (s.port &&& 0xff) % 256]) := by
  unfold connectMessage
  simp only [h, ite_self]
  simp

theorem connectMessage_v6 (make_address : List Nat → ParsedAddress) (s : Session)
    (b : Fin 16 → Nat) (h : make_address s.host = .v6 b) :
    connectMessage make_address s
      = some ([0x05, 0x01, 0x00, 0x04] ++ List.ofFn b
          ++ [(s.port >>> 8) % 256, (s.port &&& 0xff) % 256]) := by
  unfold connectMessage
  simp only [h, ite_self]
  simp

theorem connectMessage_domain (make_address : List Nat → ParsedAddress) (s : Session)
    (h : make_address s.host = .notAddress) (hl : s.host.length ≤ 253) :
    connectMessage make_address s
      = some ([0x05, 0x01, 0x00, 0x03, s.host.length] ++ s.host
          ++ [(s.port >>> 8) % 256, (s.port &&& 0xff) % 256]) := by
  unfold connectMessage
  have hm : s.host.length % 256 = s.host.length := Nat.mod_eq_of_lt (by omega)
  have hl' : ¬ s.host.length > 253 := by omega
  simp only [h, ite_self, if_neg hl', hm]
  simp

theorem connectMessage_too_long (make_address : List Nat → ParsedAddress) (s : Session)
    (h : make_address s.host = .notAddress) (hl : 254 ≤ s.host.length) :
    connectMessage make_address s = none := by
  unfold connectMessage
  have hl' : s.host.length > 253 := by omega
  simp only [h, if_pos hl']

theorem connectSpec_cmd (make_address : List Nat → ParsedAddress) (s : Session) :
    (connectSpec make_address s)[1]? = some 0x01 := by
  unfold connectSpec
  cases make_address s.host <;> rfl

/-- C12: for every target host `h` and 16-bit port `p`, the IP-literal parser
being a given function: when `h` parses as IPv4 the CONNECT message is
`05 01 00 01`, the 4 address octets and the port (10 octets); when it parses as
IPv6 it is `05 01 00 04`, the 16 address octets and the port (22 octets); when
it is not an IP literal and `len(h) ≤ 253` it is `05 01 00 03`, the octet
`len(h)`, the octets of `h` and the port (`7 + len(h)` octets); when it is not
an IP literal and `len(h) ≥ 254` the phase fails and writes nothing. The port
is the two octets `p div 256`, `p mod 256`; the message built is the one
handed to the socket; its CMD octet is `0x01` and the message does not depend
on `downside_in_udp_mode()`. So length 253 is accepted and 254 rejected. -/
theorem connect_message_format (make_address : List Nat → ParsedAddress) (s : Session)
    (io : UpstreamScript) (hp : s.port < 65536) :
    (∀ b, make_address s.host = .v4 b →
        connectMessage make_address s
            = some ([0x05, 0x01, 0x00, 0x01] ++ List.ofFn b ++ [s.port / 256, s.port % 256])
          ∧ ([0x05, 0x01, 0x00, 0x01] ++ List.ofFn b ++ [s.port / 256, s.port % 256]).length
            = 10)
      ∧ (∀ b, make_address s.host = .v6 b →
        connectMessage make_address s
            = some ([0x05, 0x01, 0x00, 0x04] ++ List.ofFn b ++ [s.port / 256, s.port % 256])
          ∧ ([0x05, 0x01, 0x00, 0x04] ++ List.ofFn b ++ [s.port / 256, s.port % 256]).length
            = 22)
      ∧ (make_address s.host = .notAddress → s.host.length ≤ 253 →
        connectMessage make_address s
            = some ([0x05, 0x01, 0x00, 0x03, s.host.length] ++ s.host
                ++ [s.port / 256, s.port % 256])
          ∧ ([0x05, 0x01, 0x00, 0x03, s.host.length] ++ s.host
                ++ [s.port / 256, s.port % 256]).length = 7 + s.host.length)
      ∧ (make_address s.host = .notAddress → 254 ≤ s.host.length →
        connectMessage make_address s = none
          ∧ do_socks5_connect_write true make_address s io
            = fail "socks5_connect_write (targetHost.size() > 253)"
          ∧ writesOf (do_socks5_connect_write true make_address s io) = [])
      ∧ (∀ d, connectMessage make_address s = some d →
        (∃ rest, do_socks5_connect_write true make_address s io = .write d :: rest)
          ∧ d[1]? = some 0x01)
      ∧ (∀ udp_requested : Bool,
        connectMessage make_address { s with downside_in_udp_mode := udp_requested }
          = connectMessage make_address s) := by
  have hport := port_octets_of_lt s.port hp
  refine ⟨?_, ?_, ?_, ?_, ?_, ?_⟩
  · intro b h
    rw [connectMessage_v4 make_address s b h, hport]
    exact ⟨rfl, by simp⟩
  · intro b h
    rw [connectMessage_v6 make_address s b h, hport]
    exact ⟨rfl, by simp⟩
  · intro h hl
    rw [connectMessage_domain make_address s h hl, hport]
    refine ⟨rfl, ?_⟩
    simp
    omega
  · intro h hl
    have hnone := connectMessage_too_long make_address s h hl
    have hrun : do_socks5_connect_write true make_address s io
        = fail "socks5_connect_write (targetHost.size() > 253)" := by
      unfold do_socks5_connect_write
      rw [if_pos rfl, hnone]
    exact ⟨hnone, hrun, by rw [hrun]; rfl⟩
  · intro d hd
    refine ⟨?_, ?_⟩
    · unfold do_socks5_connect_write
      rw [if_pos rfl, hd]
      exact ⟨_, rfl⟩
    · rw [connectMessage_eq_connectSpec make_address s d hd]
      exact connectSpec_cmd make_address s
  · intro udp_requested
    unfold connectMessage
    simp only [ite_self]

/-- Witness of C12: the CONNECT messages of the two scenarios of the spec, and
host names of 253 and of 254 octets. -/
theorem connect_message_format_witness :
    noAuthSession.port < 65536
      ∧ connectMessage (fun _ => .v4 ![1, 2, 3, 4]) noAuthSession
        = some [0x05, 0x01, 0x00, 0x01, 0x01, 0x02, 0x03, 0x04, 0x00, 0x50]
      ∧ connectMessage (fun _ => .notAddress) userPassSession
        = some [0x05, 0x01, 0x00, 0x03, 0x0B, 0x65, 0x78, 0x61, 0x6D, 0x70, 0x6C, 0x65,
            0x2E, 0x63, 0x6F, 0x6D, 0x01, 0xBB]
      ∧ (connectMessage (fun _ => .notAddress)
            { noAuthSession with host := List.replicate 253 0x61 }).isSome = true
      ∧ connectMessage (fun _ => .notAddress)
            { noAuthSession with host := List.replicate 254 0x61 } = none :=
  ⟨by decide,
    ((connect_message_format (fun _ => .v4 ![1, 2, 3, 4]) noAuthSession noAuthScript
      (by decide)).1 ![1, 2, 3, 4] rfl).1,
    ((connect_message_format (fun _ => .notAddress) userPassSession userPassScript
      (by decide)).2.2.1 rfl (by decide)).1,
    by
      rw [((connect_message_format (fun _ => .notAddress)
        { noAuthSession with host := List.replicate 253 0x61 } noAuthScript
        (by decide)).2.2.1 rfl (by rw [List.length_replicate])).1]
      rfl,
    ((connect_message_format (fun _ => .notAddress)
      { noAuthSession with host := List.replicate 254 0x61 } noAuthScript
      (by decide)).2.2.2.1 rfl (by rw [List.length_replicate])).1⟩

theorem callbacksOf_cons_callback (c : Callback) (t : List TraceEvent) :
    callbacksOf (.callback c :: t) = c :: callbacksOf t := rfl

theorem callbacksOf_ready_tail (pre : List TraceEvent)
    (hpre : pre = [] ∨ ∃ text, pre = [.warning text]) :
    callbacksOf (pre ++ [.callback .onUpReady, .callback .onUpEnd])
      = [.onUpReady, .onUpEnd] := by
  rcases hpre with h | ⟨text, h⟩
  · rw [h]; rfl
  · rw [h]; rfl

theorem connect_read_callbacks (io : UpstreamScript) (hec : io.connectR.ec = false) :
    callbacksOf (do_socks5_connect_read true io)
      = connectReplyOutcome io.connectR.bytes_transferred (io.connectR.bufAt 0)
          (io.connectR.bufAt 1) (io.connectR.bufAt 2) (io.connectR.bufAt 3)
          (io.connectR.bufAt 4) := by
  have hec' : ¬ io.connectR.ec = true := by rw [hec]; simp
  unfold do_socks5_connect_read connectReplyOutcome
  rw [if_pos rfl]
  dsimp only
  rw [if_neg hec']
  by_cases h1 : io.connectR.bytes_transferred < 6
  · rw [if_pos h1, if_pos h1]; rfl
  rw [if_neg h1, if_neg h1]
  by_cases h2 : io.connectR.bufAt 0 ≠ 5 ∨ io.connectR.bufAt 1 ≠ 0x00
      ∨ io.connectR.bufAt 2 ≠ 0x00
      ∨ (io.connectR.bufAt 3 ≠ 0x01 ∧ io.connectR.bufAt 3 ≠ 0x03
          ∧ io.connectR.bufAt 3 ≠ 0x04)
  · rw [if_pos h2, if_pos h2]; rfl
  rw [if_neg h2, if_neg h2]
  by_cases h3 : io.connectR.bufAt 3 = 0x03
      ∧ io.connectR.bytes_transferred ≠ io.connectR.bufAt 4 + 4 + 1 + 2
  · rw [if_pos h3, if_pos h3]; rfl
  rw [if_neg h3, if_neg h3]
  by_cases h4 : io.connectR.bufAt 3 = 0x01 ∧ io.connectR.bytes_transferred ≠ 4 + 4 + 2
  · rw [if_pos h4, if_pos h4]; rfl
  rw [if_neg h4, if_neg h4]
  by_cases h5 : io.connectR.bufAt 3 = 0x04 ∧ io.connectR.bytes_transferred ≠ 4 + 16 + 2
  · rw [if_pos h5, if_pos h5]; rfl
  rw [if_neg h5, if_neg h5]
  have h6 : io.connectR.bufAt 3 = 0x03 ∨ io.connectR.bufAt 3 = 0x01
      ∨ io.connectR.bufAt 3 = 0x04 := by
    by_contra hc
    push_neg at hc
    exact h2 (Or.inr (Or.inr (Or.inr ⟨hc.2.1, hc.1, hc.2.2⟩)))
  rw [if_pos h6]
  apply callbacksOf_ready_tail
  by_cases h7 : (io.connectR.bufAt (io.connectR.bytes_transferred - 2) <<< 8
      ||| io.connectR.bufAt (io.connectR.bytes_transferred - 1)) ≠ 0
  · rw [if_pos h7]
    exact Or.inr ⟨_, rfl⟩
  · rw [if_neg h7]
    exact Or.inl rfl

theorem connectReplyOutcome_ready_iff (n b0 b1 b2 b3 b4 : Nat) :
    connectReplyOutcome n b0 b1 b2 b3 b4 = [.onUpReady, .onUpEnd]
      ↔ (6 ≤ n ∧ b0 = 0x05 ∧ b1 = 0x00 ∧ b2 = 0x00
          ∧ (b3 = 0x01 ∨ b3 = 0x03 ∨ b3 = 0x04)
          ∧ (b3 = 0x01 → n = 10) ∧ (b3 = 0x04 → n = 22) ∧ (b3 = 0x03 → n = 7 + b4)) := by
  unfold connectReplyOutcome
  by_cases h1 : n < 6
  · rw [if_pos h1]
    constructor
    · intro h; simp at h
    · intro h; omega
  rw [if_neg h1]
  by_cases h2 : b0 ≠ 5 ∨ b1 ≠ 0x00 ∨ b2 ≠ 0x00 ∨ (b3 ≠ 0x01 ∧ b3 ≠ 0x03 ∧ b3 ≠ 0x04)
  · rw [if_pos h2]
    constructor
    · intro h; simp at h
    · intro h; omega
  rw [if_neg h2]
  by_cases h3 : b3 = 0x03 ∧ n ≠ b4 + 4 + 1 + 2
  · rw [if_pos h3]
    constructor
    · intro h; simp at h
    · intro h; omega
  rw [if_neg h3]
  by_cases h4 : b3 = 0x01 ∧ n ≠ 4 + 4 + 2
  · rw [if_pos h4]
    constructor
    · intro h; simp at h
    · intro h; omega
  rw [if_neg h4]
  by_cases h5 : b3 = 0x04 ∧ n ≠ 4 + 16 + 2
  · rw [if_pos h5]
    constructor
    · intro h; simp at h
    · intro h; omega
  rw [if_neg h5]
  constructor
  · intro _
    omega
  · intro _
    rfl

theorem connectReplyOutcome_congr (n b0 b1 b2 b3 b4 b4' : Nat) (h : b3 = 0x03 → b4' = b4) :
    connectReplyOutcome n b0 b1 b2 b3 b4' = connectReplyOutcome n b0 b1 b2 b3 b4 := by
  by_cases hb : b3 = 0x03
  · rw [h hb]
  · unfold connectReplyOutcome
    rw [if_neg (fun hh : b3 = 0x03 ∧ n ≠ b4' + 4 + 1 + 2 => hb hh.1),
      if_neg (fun hh : b3 = 0x03 ∧ n ≠ b4 + 4 + 1 + 2 => hb hh.1)]

/-- C13: for a CONNECT reply of `n` octets read without I/O error (the bound
`n ≤ 8196` of the read buffer is not needed), the handshake reaches READY if
and only if `n ≥ 6`, `buf[0] = 0x05`, `buf[1] = 0x00`, `buf[2] = 0x00`, `buf[3]`
is `0x01`, `0x03` or `0x04`, and `n` is exactly 10 when `buf[3] = 0x01`, 22
when `buf[3] = 0x04` and `7 + buf[4]` when `buf[3] = 0x03`. A reply of the same
length with the same four header octets (and the same name length `buf[4]`
when `buf[3] = 0x03`) gives the same notifications, so the values of BND.ADDR
and BND.PORT never change the outcome. With ATYP `0x03` and `buf[4] = 0` the
reply is READY at `n = 7` and fails at `n = 8`. -/
theorem connect_reply_ready_iff (io : UpstreamScript) (hec : io.connectR.ec = false) :
    (isReady (do_socks5_connect_read true io)
        ↔ (6 ≤ io.connectR.bytes_transferred ∧ io.connectR.bufAt 0 = 0x05
            ∧ io.connectR.bufAt 1 = 0x00 ∧ io.connectR.bufAt 2 = 0x00
            ∧ (io.connectR.bufAt 3 = 0x01 ∨ io.connectR.bufAt 3 = 0x03
                ∨ io.connectR.bufAt 3 = 0x04)
            ∧ (io.connectR.bufAt 3 = 0x01 → io.connectR.bytes_transferred = 10)
            ∧ (io.connectR.bufAt 3 = 0x04 → io.connectR.bytes_transferred = 22)
            ∧ (io.connectR.bufAt 3 = 0x03 →
                io.connectR.bytes_transferred = 7 + io.connectR.bufAt 4)))
      ∧ (∀ data' : List Nat,
          data'.length = io.connectR.bytes_transferred →
          data'.getD 0 0 = io.connectR.bufAt 0 → data'.getD 1 0 = io.connectR.bufAt 1 →
          data'.getD 2 0 = io.connectR.bufAt 2 → data'.getD 3 0 = io.connectR.bufAt 3 →
          (io.connectR.bufAt 3 = 0x03 → data'.getD 4 0 = io.connectR.bufAt 4) →
          callbacksOf (do_socks5_connect_read true
              { io with connectR := { ec := false, data := data' } })
            = callbacksOf (do_socks5_connect_read true io))
      ∧ (io.connectR.bufAt 0 = 0x05 → io.connectR.bufAt 1 = 0x00 →
          io.connectR.bufAt 2 = 0x00 → io.connectR.bufAt 3 = 0x03 →
          io.connectR.bufAt 4 = 0 →
          (io.connectR.bytes_transferred = 7 → isReady (do_socks5_connect_read true io))
            ∧ (io.connectR.bytes_transferred = 8 →
                callbacksOf (do_socks5_connect_read true io)
                  = [.onError
                      "do_socks5_connect_read (socks5_read_buf->at(3) == 0x03)"])) := by
  refine ⟨?_, ?_, ?_⟩
  · unfold isReady
    rw [connect_read_callbacks io hec]
    exact connectReplyOutcome_ready_iff _ _ _ _ _ _
  · intro data' hn h0 h1 h2 h3 h4
    rw [connect_read_callbacks io hec, connect_read_callbacks _ rfl]
    have e0 : ReadCompletion.bufAt { ec := false, data := data' } 0 = data'.getD 0 0 := rfl
    have e1 : ReadCompletion.bufAt { ec := false, data := data' } 1 = data'.getD 1 0 := rfl
    have e2 : ReadCompletion.bufAt { ec := false, data := data' } 2 = data'.getD 2 0 := rfl
    have e3 : ReadCompletion.bufAt { ec := false, data := data' } 3 = data'.getD 3 0 := rfl
    have e4 : ReadCompletion.bufAt { ec := false, data := data' } 4 = data'.getD 4 0 := rfl
    have en : ReadCompletion.bytes_transferred { ec := false, data := data' }
        = data'.length := rfl
    dsimp only
    rw [e0, e1, e2, e3, e4, en, hn, h0, h1, h2, h3]
    exact connectReplyOutcome_congr _ _ _ _ _ _ _ h4
  · intro h0 h1 h2 h3 h4
    refine ⟨?_, ?_⟩
    · intro hn
      unfold isReady
      rw [connect_read_callbacks io hec]
      exact (connectReplyOutcome_ready_iff _ _ _ _ _ _).mpr
        ⟨by omega, h0, h1, h2, Or.inr (Or.inl h3), by omega, by omega, by omega⟩
    · intro hn
      rw [connect_read_callbacks io hec, h0, h1, h2, h3, h4, hn]
      rfl

/-- Witness of C13: the reply of scenario 1 is READY; with ATYP `0x03` and an
empty name, 7 octets are READY (with a non-zero bound port) and 8 octets fail;
and a reply with a non-zero bound address and port is READY as well. -/
theorem connect_reply_ready_iff_witness :
    noAuthScript.connectR.ec = false
      ∧ isReady (do_socks5_connect_read true noAuthScript)
      ∧ isReady (do_socks5_connect_read true emptyNameScript)
      ∧ callbacksOf (do_socks5_connect_read true emptyNameLongScript)
        = [.onError "do_socks5_connect_read (socks5_read_buf->at(3) == 0x03)"]
      ∧ callbacksOf (do_socks5_connect_read true
            { noAuthScript with connectR :=
                { ec := false,
                  data := [0x05, 0x00, 0x00, 0x01, 0x0A, 0x00, 0x00, 0x07, 0x1F, 0x90] } })
        = callbacksOf (do_socks5_connect_read true noAuthScript) :=
  ⟨rfl,
    (connect_reply_ready_iff noAuthScript rfl).1.mpr (by decide),
    ((connect_reply_ready_iff emptyNameScript rfl).2.2 rfl rfl rfl rfl rfl).1 rfl,
    ((connect_reply_ready_iff emptyNameLongScript rfl).2.2 rfl rfl rfl rfl rfl).2 rfl,
    (connect_reply_ready_iff noAuthScript rfl).2.1
      [0x05, 0x00, 0x00, 0x01, 0x0A, 0x00, 0x00, 0x07, 0x1F, 0x90]
      rfl rfl rfl rfl rfl (by decide)⟩

/-! ## SOCKS5 client handshake: notifications to the bridge -/

/-- C14 (the claim as stated fails): the reply `05 01 00 01`, whose REP octet is
non-zero, delivered as four octets by a read without I/O error, is reported
with `onError`, not with `onUpReadyError` then `onUpEnd`: the length check
`bytes_transferred < 6` comes before the validation of the header. -/
theorem short_malformed_connect_reply_reports_error :
    shortRefusedScript.connectR.ec = false
      ∧ shortRefusedScript.connectR.bufAt 0 = 0x05
      ∧ shortRefusedScript.connectR.bufAt 1 ≠ 0x00
      ∧ do_socks5_connect_read true shortRefusedScript
        = [.callback (.onError "do_socks5_connect_read (bytes_transferred < 6)")]
      ∧ callbacksOf (do_socks5_connect_read true shortRefusedScript)
        ≠ [.onUpReadyError, .onUpEnd]
      ∧ callbacksOf (start true (fun _ => .v4 ![1, 2, 3, 4]) noAuthSession shortRefusedScript)
        = [.onError "do_socks5_connect_read (bytes_transferred < 6)"] := by
  refine ⟨rfl, rfl, by decide, rfl, ?_, rfl⟩
  have h : callbacksOf (do_socks5_connect_read true shortRefusedScript)
      = [.onError "do_socks5_connect_read (bytes_transferred < 6)"] := rfl
  rw [h]
  simp

/-- C14 (amended): for every CONNECT reply of at least 6 octets read without
I/O error whose header is malformed (wrong version octet, non-zero REP such as
`05 01 00 01 ...`, non-zero RSV, or ATYP outside `0x01`, `0x03`, `0x04`), the
phase calls `onUpReadyError` and then `onUpEnd` on the bridge, in that order,
and nothing else: neither `onUpReady` nor `onError`. -/
theorem malformed_connect_reply_notifies_ready_error (io : UpstreamScript)
    (hec : io.connectR.ec = false) (hn : 6 ≤ io.connectR.bytes_transferred)
    (hbad : io.connectR.bufAt 0 ≠ 0x05 ∨ io.connectR.bufAt 1 ≠ 0x00
      ∨ io.connectR.bufAt 2 ≠ 0x00
      ∨ (io.connectR.bufAt 3 ≠ 0x01 ∧ io.connectR.bufAt 3 ≠ 0x03
          ∧ io.connectR.bufAt 3 ≠ 0x04)) :
    do_socks5_connect_read true io = [.callback .onUpReadyError, .callback .onUpEnd]
      ∧ callbacksOf (do_socks5_connect_read true io) = [.onUpReadyError, .onUpEnd]
      ∧ Callback.onUpReady ∉ callbacksOf (do_socks5_connect_read true io)
      ∧ (∀ reason, Callback.onError reason ∉ callbacksOf (do_socks5_connect_read true io)) := by
  have hec' : ¬ io.connectR.ec = true := by rw [hec]; simp
  have hrun : do_socks5_connect_read true io
      = [.callback .onUpReadyError, .callback .onUpEnd] := by
    unfold do_socks5_connect_read
    rw [if_pos rfl]
    dsimp only
    rw [if_neg hec', if_neg (by omega), if_pos hbad]
  have hcb : callbacksOf (do_socks5_connect_read true io) = [.onUpReadyError, .onUpEnd] := by
    rw [hrun]
    rfl
  refine ⟨hrun, hcb, ?_, ?_⟩
  · rw [hcb]
    simp
  · intro reason
    rw [hcb]
    simp

/-- Witness of C14 (amended): scenario 4 of the spec, the reply
`05 01 00 01 00 00 00 00 00 00`. -/
theorem malformed_connect_reply_notifies_ready_error_witness :
    refusedScript.connectR.ec = false
      ∧ 6 ≤ refusedScript.connectR.bytes_transferred
      ∧ refusedScript.connectR.bufAt 1 ≠ 0x00
      ∧ do_socks5_connect_read true refusedScript
        = [.callback .onUpReadyError, .callback .onUpEnd]
      ∧ callbacksOf (start true (fun _ => .v4 ![1, 2, 3, 4]) noAuthSession refusedScript)
        = [.onUpReadyError, .onUpEnd] :=
  ⟨rfl, by decide, by decide,
    (malformed_connect_reply_notifies_ready_error refusedScript rfl (by decide)
      (Or.inr (Or.inl (by decide)))).1,
    rfl⟩

theorem oneShot_fail (what : String) : oneShot (callbacksOf (fail what)) :=
  Or.inr (Or.inr ⟨what, rfl⟩)

theorem oneShot_connectReplyOutcome (n b0 b1 b2 b3 b4 : Nat) :
    oneShot (connectReplyOutcome n b0 b1 b2 b3 b4) := by
  unfold connectReplyOutcome
  split_ifs
  · exact Or.inr (Or.inr ⟨_, rfl⟩)
  · exact Or.inr (Or.inl rfl)
  · exact Or.inr (Or.inr ⟨_, rfl⟩)
  · exact Or.inr (Or.inr ⟨_, rfl⟩)
  · exact Or.inr (Or.inr ⟨_, rfl⟩)
  · exact Or.inl rfl

theorem oneShot_connect_read (io : UpstreamScript) :
    oneShot (callbacksOf (do_socks5_connect_read true io)) := by
  by_cases hec : io.connectR.ec = true
  · have hrun : do_socks5_connect_read true io = fail "socks5_connect_read" := by
      unfold do_socks5_connect_read
      rw [if_pos rfl]
      dsimp only
      rw [if_pos hec]
    rw [hrun]
    exact oneShot_fail _
  · have hec' : io.connectR.ec = false := by simpa using hec
    rw [connect_read_callbacks io hec']
    exact oneShot_connectReplyOutcome _ _ _ _ _ _

theorem oneShot_connect_write (make_address : List Nat → ParsedAddress) (s : Session)
    (io : UpstreamScript) :
    oneShot (callbacksOf (do_socks5_connect_write true make_address s io)) := by
  unfold do_socks5_connect_write
  rw [if_pos rfl]
  cases connectMessage make_address s with
  | none => exact oneShot_fail _
  | some d =>
    dsimp only
    rw [callbacksOf_write]
    by_cases h1 : io.connectW.ec = true
    · rw [if_pos h1]
      exact oneShot_fail _
    rw [if_neg h1]
    by_cases h2 : io.connectW.bytes_transferred ≠ d.length
    · rw [if_pos h2]
      exact oneShot_fail _
    rw [if_neg h2]
    exact oneShot_connect_read io

theorem oneShot_auth_read (make_address : List Nat → ParsedAddress) (s : Session)
    (io : UpstreamScript) :
    oneShot (callbacksOf (do_socks5_auth_read true make_address s io)) := by
  unfold do_socks5_auth_read
  rw [if_pos rfl]
  dsimp only
  by_cases h1 : io.authR.ec = true
  · rw [if_pos h1]
    exact oneShot_fail _
  rw [if_neg h1]
  by_cases h2 : io.authR.bytes_transferred < 2
  · rw [if_pos h2]
    exact oneShot_fail _
  rw [if_neg h2]
  by_cases h3 : io.authR.bufAt 0 ≠ 0x01 ∨ io.authR.bufAt 1 ≠ 0x00
  · rw [if_pos h3]
    exact oneShot_fail _
  rw [if_neg h3]
  exact oneShot_connect_write make_address s io

theorem oneShot_auth_write (make_address : List Nat → ParsedAddress) (s : Session)
    (io : UpstreamScript) :
    oneShot (callbacksOf (do_socks5_auth_write true make_address s io)) := by
  unfold do_socks5_auth_write
  rw [if_pos rfl]
  dsimp only
  rw [if_neg (by rw [authMessage_length]; simp), callbacksOf_write]
  by_cases h1 : io.authW.ec = true
  · rw [if_pos h1]
    exact oneShot_fail _
  rw [if_neg h1]
  by_cases h2 : io.authW.bytes_transferred ≠ (authMessage s.authUser s.authPwd).length
  · rw [if_pos h2]
    exact oneShot_fail _
  rw [if_neg h2]
  exact oneShot_auth_read make_address s io

theorem oneShot_handshake_read (make_address : List Nat → ParsedAddress) (s : Session)
    (io : UpstreamScript) :
    oneShot (callbacksOf (do_socks5_handshake_read true make_address s io)) := by
  unfold do_socks5_handshake_read
  rw [if_pos rfl]
  dsimp only
  by_cases h1 : io.greetR.ec = true
  · rw [if_pos h1]
    exact oneShot_fail _
  rw [if_neg h1]
  by_cases h2 : io.greetR.bytes_transferred < 2
  · rw [if_pos h2]
    exact oneShot_fail _
  rw [if_neg h2]
  by_cases h3 : io.greetR.bufAt 0 ≠ 5
  · rw [if_pos h3]
    exact oneShot_fail _
  rw [if_neg h3]
  by_cases h4 : io.greetR.bufAt 1 ≠ 0x00 ∧ io.greetR.bufAt 1 ≠ 0x02
  · rw [if_pos h4]
    exact oneShot_fail _
  rw [if_neg h4]
  by_cases h5 : io.greetR.bufAt 1 = 0x02
  · rw [if_pos h5]
    by_cases h6 : s.authUser.isEmpty = true
    · rw [if_pos h6]
      exact oneShot_fail _
    · rw [if_neg h6]
      exact oneShot_auth_write make_address s io
  · rw [if_neg h5]
    exact oneShot_connect_write make_address s io

theorem oneShot_handshake_write (make_address : List Nat → ParsedAddress) (s : Session)
    (io : UpstreamScript) :
    oneShot (callbacksOf (do_socks5_handshake_write true make_address s io)) := by
  unfold do_socks5_handshake_write
  rw [if_pos rfl]
  dsimp only
  rw [callbacksOf_write]
  by_cases h1 : io.greetW.ec = true
  · rw [if_pos h1]
    exact oneShot_fail _
  rw [if_neg h1]
  by_cases h2 : io.greetW.bytes_transferred ≠ (greetingMessage s.authUser).length
  · rw [if_pos h2]
    exact oneShot_fail _
  rw [if_neg h2]
  exact oneShot_handshake_read make_address s io

/-- C15: every run of the handshake started on a live parent session, for
every address parser, session and combination of write results, short writes,
I/O errors and server replies, notifies the bridge with exactly one of the
sequences `onUpReady, onUpEnd` (READY, in that order), `onUpReadyError,
onUpEnd`, or a single `onError(reason)`. Hence no run emits two of these sets or
repeats a notification, and `onUpReady` is never emitted together with
`onError`. The run is a total function of its inputs, so every run terminates. -/
theorem handshake_callbacks_one_shot (make_address : List Nat → ParsedAddress)
    (s : Session) (io : UpstreamScript) :
    oneShot (callbacksOf (start true make_address s io))
      ∧ (callbacksOf (start true make_address s io) = [.onUpReady, .onUpEnd]
          ∨ callbacksOf (start true make_address s io) = [.onUpReadyError, .onUpEnd]
          ∨ ∃ reason, callbacksOf (start true make_address s io) = [.onError reason])
      ∧ (Callback.onUpReady ∈ callbacksOf (start true make_address s io) →
          ∀ reason, Callback.onError reason ∉ callbacksOf (start true make_address s io)) := by
  have h : oneShot (callbacksOf (start true make_address s io)) :=
    oneShot_handshake_write make_address s io
  refine ⟨h, h, ?_⟩
  intro hr reason
  rcases h with h | h | ⟨r, h⟩
  · rw [h]; simp
  · rw [h]; simp
  · rw [h] at hr
    simp at hr

/-- Witness of C15: scenario 1 of the spec ends with `onUpReady`, `onUpEnd` and
emits no `onError`; scenario 3 ends with a single `onError`. -/
theorem handshake_callbacks_one_shot_witness :
    callbacksOf (start true (fun _ => .v4 ![1, 2, 3, 4]) noAuthSession noAuthScript)
        = [.onUpReady, .onUpEnd]
      ∧ oneShot (callbacksOf
          (start true (fun _ => .v4 ![1, 2, 3, 4]) noAuthSession noAuthScript))
      ∧ Callback.onError "socks5_connect_read"
          ∉ callbacksOf (start true (fun _ => .v4 ![1, 2, 3, 4]) noAuthSession noAuthScript)
      ∧ callbacksOf (start true (fun _ => .v4 ![1, 2, 3, 4]) noAuthSession demandAuthScript)
        = [.onError "socks5_handshake_read (we cannot auth)"]
      ∧ oneShot (callbacksOf
          (start true (fun _ => .v4 ![1, 2, 3, 4]) noAuthSession demandAuthScript)) :=
  ⟨rfl,
    (handshake_callbacks_one_shot (fun _ => .v4 ![1, 2, 3, 4]) noAuthSession noAuthScript).1,
    (handshake_callbacks_one_shot (fun _ => .v4 ![1, 2, 3, 4]) noAuthSession
      noAuthScript).2.2 (by decide) "socks5_connect_read",
    rfl,
    (handshake_callbacks_one_shot (fun _ => .v4 ![1, 2, 3, 4]) noAuthSession
      demandAuthScript).1⟩

/-! ## Upstream pool: health probes -/

/-- C16: for every server state and probe time `now`, a successful TCP probe
yields the state with `lastOnlineTime = now`, `isOffline = false`,
`lastConnectFailed = false` if `isOffline` was true before and unchanged
otherwise, and every other field unchanged; a failed TCP probe yields the state
with `isOffline = true` and every other field, `lastOnlineTime` included,
unchanged. -/
theorem tcp_probe_effect (now : UpstreamTimePoint) (a : UpstreamServer) :
    tcpProbeOk now a
        = { a with
            lastOnlineTime := some now,
            isOffline := false,
            lastConnectFailed := if a.isOffline then false else a.lastConnectFailed }
      ∧ (tcpProbeOk now a).lastOnlineTime = some now
      ∧ (tcpProbeOk now a).isOffline = false
      ∧ (a.isOffline = true → (tcpProbeOk now a).lastConnectFailed = false)
      ∧ (a.isOffline = false → (tcpProbeOk now a).lastConnectFailed = a.lastConnectFailed)
      ∧ tcpProbeError a = { a with isOffline := true }
      ∧ (tcpProbeError a).isOffline = true
      ∧ (tcpProbeError a).lastOnlineTime = a.lastOnlineTime := by
  refine ⟨?_, ?_, ?_, ?_, ?_, rfl, rfl, rfl⟩
  · unfold tcpProbeOk
    cases h : a.isOffline <;> simp [h]
  · unfold tcpProbeOk
    cases h : a.isOffline <;> simp [h]
  · unfold tcpProbeOk
    cases h : a.isOffline <;> simp [h]
  · intro h
    unfold tcpProbeOk
    simp [h]
  · intro h
    unfold tcpProbeOk
    simp [h]

/-- Witness of C16: a TCP probe that succeeds at time 9 on a fresh server (which
is offline) and on `sampleServer 1 false` (which is online and has failed its
HTTPS probe). -/
theorem tcp_probe_effect_witness :
    (tcpProbeOk 9 (newUpstreamServer 0 { name := "a", host := "h", port := 1 })).lastConnectFailed
        = false
      ∧ (tcpProbeOk 9 (sampleServer 1 false)).lastConnectFailed = true
      ∧ (tcpProbeOk 9 (sampleServer 1 false)).lastOnlineTime = some 9
      ∧ tcpProbeError (sampleServer 1 false) = { sampleServer 1 false with isOffline := true } :=
  ⟨(tcp_probe_effect 9 (newUpstreamServer 0 { name := "a", host := "h", port := 1 })).2.2.2.1
      rfl,
    (tcp_probe_effect 9 (sampleServer 1 false)).2.2.2.2.1 rfl,
    (tcp_probe_effect 9 (sampleServer 1 false)).2.1,
    (tcp_probe_effect 9 (sampleServer 1 false)).2.2.2.2.2.1⟩

/-- C17: for every server state and probe time `now`, a successful HTTPS probe
yields the state with `lastConnectTime = now` and `lastConnectFailed = false`,
and a failed HTTPS probe yields the state with `lastConnectFailed = true` and
`lastConnectTime` unchanged; in both cases every other field, in particular
`isOffline`, `lastOnlineTime`, `isManualDisable`, `disable` and `connectCount`,
is unchanged. -/
theorem connect_probe_effect (now : UpstreamTimePoint) (a : UpstreamServer) :
    connectProbeOk now a
        = { a with lastConnectTime := some now, lastConnectFailed := false }
      ∧ connectProbeError a = { a with lastConnectFailed := true }
      ∧ (connectProbeOk now a).lastConnectTime = some now
      ∧ (connectProbeOk now a).lastConnectFailed = false
      ∧ (connectProbeError a).lastConnectFailed = true
      ∧ (connectProbeError a).lastConnectTime = a.lastConnectTime
      ∧ ((connectProbeOk now a).isOffline = a.isOffline
          ∧ (connectProbeOk now a).lastOnlineTime = a.lastOnlineTime
          ∧ (connectProbeOk now a).isManualDisable = a.isManualDisable
          ∧ (connectProbeOk now a).disable = a.disable
          ∧ (connectProbeOk now a).connectCount = a.connectCount)
      ∧ ((connectProbeError a).isOffline = a.isOffline
          ∧ (connectProbeError a).lastOnlineTime = a.lastOnlineTime
          ∧ (connectProbeError a).isManualDisable = a.isManualDisable
          ∧ (connectProbeError a).disable = a.disable
          ∧ (connectProbeError a).connectCount = a.connectCount) :=
  ⟨rfl, rfl, rfl, rfl, rfl, rfl, ⟨rfl, rfl, rfl, rfl, rfl⟩, ⟨rfl, rfl, rfl, rfl, rfl⟩⟩

theorem tcp_probe_online_time (now : UpstreamTimePoint) (a : UpstreamServer) :
    (applyProbe a (.tcpOk now)).lastOnlineTime.isSome = true := by
  unfold applyProbe tcpProbeOk
  cases h : a.isOffline <;> simp [h]

theorem applyProbe_keeps_online_time (a : UpstreamServer) (o : ProbeOutcome)
    (h : a.isOffline = false → a.lastOnlineTime.isSome = true) :
    (applyProbe a o).isOffline = false → (applyProbe a o).lastOnlineTime.isSome = true := by
  cases o with
  | tcpOk now =>
    intro _
    have := (tcp_probe_online_time now a)
    exact this
  | tcpError =>
    intro h2
    have h3 : (applyProbe a .tcpError).isOffline = true := rfl
    rw [h3] at h2
    simp at h2
  | connectOk now => exact h
  | connectError => exact h

theorem applyProbes_keeps_online_time (outcomes : List ProbeOutcome) :
    ∀ a : UpstreamServer, (a.isOffline = false → a.lastOnlineTime.isSome = true) →
      (applyProbes a outcomes).isOffline = false →
      (applyProbes a outcomes).lastOnlineTime.isSome = true := by
  induction outcomes with
  | nil => intro a h; exact h
  | cons o rest ih =>
    intro a h
    exact ih (applyProbe a o) (applyProbe_keeps_online_time a o h)

/-- C19: for every server, starting from its initial state (`isOffline = true`,
`lastOnlineTime` absent, as the constructor leaves it) and after every finite
sequence of TCP-probe and HTTPS-probe outcomes, successes or failures in any
order, it is never the case that `isOffline = false` while `lastOnlineTime` is
absent. The same holds from every state with `isOffline = true`. -/
theorem online_server_has_online_time :
    (∀ (index : Nat) (r : UpstreamConfig) (outcomes : List ProbeOutcome),
        (newUpstreamServer index r).isOffline = true
          ∧ (newUpstreamServer index r).lastOnlineTime = none
          ∧ ¬ ((applyProbes (newUpstreamServer index r) outcomes).isOffline = false
              ∧ (applyProbes (newUpstreamServer index r) outcomes).lastOnlineTime = none))
      ∧ (∀ (a : UpstreamServer) (outcomes : List ProbeOutcome), a.isOffline = true →
          ¬ ((applyProbes a outcomes).isOffline = false
              ∧ (applyProbes a outcomes).lastOnlineTime = none)) := by
  have key : ∀ (a : UpstreamServer) (outcomes : List ProbeOutcome), a.isOffline = true →
      ¬ ((applyProbes a outcomes).isOffline = false
          ∧ (applyProbes a outcomes).lastOnlineTime = none) := by
    intro a outcomes ha ⟨h1, h2⟩
    have h3 := applyProbes_keeps_online_time outcomes a
      (fun h => by rw [ha] at h; simp at h) h1
    rw [h2] at h3
    simp at h3
  exact ⟨fun index r outcomes => ⟨rfl, rfl, key _ outcomes rfl⟩, key⟩

/-- Witness of C19: a fresh server after a failed TCP probe, a successful HTTPS
probe at time 3 and a successful TCP probe at time 4 is online with
`lastOnlineTime = 4`. -/
theorem online_server_has_online_time_witness :
    (applyProbes (newUpstreamServer 0 { name := "a", host := "h", port := 1 })
        [.tcpError, .connectOk 3, .tcpOk 4]).isOffline = false
      ∧ (applyProbes (newUpstreamServer 0 { name := "a", host := "h", port := 1 })
        [.tcpError, .connectOk 3, .tcpOk 4]).lastOnlineTime = some 4
      ∧ ¬ ((applyProbes (newUpstreamServer 0 { name := "a", host := "h", port := 1 })
            [.tcpError, .connectOk 3, .tcpOk 4]).isOffline = false
          ∧ (applyProbes (newUpstreamServer 0 { name := "a", host := "h", port := 1 })
            [.tcpError, .connectOk 3, .tcpOk 4]).lastOnlineTime = none) :=
  ⟨rfl, rfl,
    online_server_has_online_time.2 (newUpstreamServer 0 { name := "a", host := "h", port := 1 })
      [.tcpError, .connectOk 3, .tcpOk 4] rfl⟩

/-! ## Upstream pool: the cursor invariant and repeated picks -/

theorem setConfigLoop_length (c : List UpstreamConfig) :
    ∀ (i : Nat) (pool : List UpstreamServer),
      (setConfigLoop c i pool).length = pool.length + c.length := by
  induction c with
  | nil => intro i pool; rfl
  | cons r rest ih =>
    intro i pool
    unfold setConfigLoop
    rw [ih, List.length_append, List.length_cons, List.length_cons, List.length_nil]
    omega

theorem setConfig_length (p : UpstreamPool) (c : LoaderConfig) :
    (setConfig p c)._pool.length = c.upstream.length := by
  unfold setConfig
  dsimp only
  rw [setConfigLoop_length]
  simp

theorem getNextServerLoop_ok_cursor (start fuel : Nat) :
    ∀ (p : UpstreamPool) (r : Option UpstreamServer) (p' : UpstreamPool),
      getNextServerLoop start fuel p = .ok (r, p') → cursorInRange p' := by
  induction fuel with
  | zero => intro p r p' h; simp [getNextServerLoop] at h
  | succ n ih =>
    intro p r p' h
    rw [getNextServerLoop_succ] at h
    generalize wrapIndex (incIndex p.lastUseUpstreamIndex) p._pool.length = i2 at h
    cases hv : p._pool[i2]? with
    | none => simp [hv] at h
    | some v =>
      have hi : i2 < p._pool.length := by
        obtain ⟨hlt, _⟩ := List.getElem?_eq_some.mp hv
        exact hlt
      simp only [hv] at h
      by_cases hc : checkServer v = true
      · rw [if_pos hc] at h
        simp only [Except.ok.injEq, Prod.mk.injEq] at h
        rw [← h.2]
        exact hi
      · rw [if_neg hc] at h
        by_cases hs : start = i2
        · rw [if_pos hs] at h
          simp only [Except.ok.injEq, Prod.mk.injEq] at h
          rw [← h.2]
          exact hi
        · rw [if_neg hs] at h
          have h3 := ih _ _ _ h
          exact h3

theorem wrapIndex_lt (i N : Nat) (hN : 0 < N) : wrapIndex i N < N := by
  unfold wrapIndex
  split <;> omega

theorem tryGetLastServerLoop_ok_cursor (start fuel : Nat) :
    ∀ (p : UpstreamPool) (r : Option UpstreamServer) (p' : UpstreamPool),
      tryGetLastServerLoop start fuel p = .ok (r, p') → cursorInRange p' := by
  induction fuel with
  | zero => intro p r p' h; simp [tryGetLastServerLoop] at h
  | succ n ih =>
    intro p r p' h
    rw [tryGetLastServerLoop_succ] at h
    generalize wrapIndex p.lastUseUpstreamIndex p._pool.length = i0 at h
    cases hv : p._pool[i0]? with
    | none => simp [hv] at h
    | some v =>
      have hi : i0 < p._pool.length := by
        obtain ⟨hlt, _⟩ := List.getElem?_eq_some.mp hv
        exact hlt
      simp only [hv] at h
      by_cases hc : checkServer v = true
      · rw [if_pos hc] at h
        simp only [Except.ok.injEq, Prod.mk.injEq] at h
        rw [← h.2]
        exact hi
      · rw [if_neg hc] at h
        have hw := wrapIndex_lt (incIndex i0) p._pool.length (by omega)
        generalize wrapIndex (incIndex i0) p._pool.length = i2 at h hw
        by_cases hs : start = i2
        · rw [if_pos hs] at h
          simp only [Except.ok.injEq, Prod.mk.injEq] at h
          rw [← h.2]
          exact hw
        · rw [if_neg hs] at h
          have h3 := ih _ _ _ h
          exact h3

theorem pick_ok_cursor (now : UpstreamTimePoint) (draw : Nat → Nat) (fuel : Nat)
    (p : UpstreamPool) (r : Option UpstreamServer) (p' : UpstreamPool)
    (hp : cursorInRange p) (h : getServerBasedOnAddress now draw fuel p = .ok (r, p')) :
    cursorInRange p' := by
  unfold getServerBasedOnAddress at h
  cases hr : p.upstreamSelectRule with
  | loop =>
    simp only [hr] at h
    exact getNextServerLoop_ok_cursor _ _ _ _ _ h
  | one_by_one =>
    simp only [hr] at h
    exact tryGetLastServerLoop_ok_cursor _ _ _ _ _ h
  | change_by_time =>
    simp only [hr] at h
    by_cases hd : (0 : Int) - p.lastChangeUpstreamTime > p.serverChangeTime
    · rw [if_pos hd] at h
      cases hres : getNextServer fuel p with
      | error e => rw [hres] at h; simp at h
      | ok v =>
        obtain ⟨s, p2⟩ := v
        rw [hres] at h
        simp only [Except.ok.injEq, Prod.mk.injEq] at h
        have h3 := getNextServerLoop_ok_cursor _ _ _ _ _ hres
        rw [← h.2]
        exact h3
    · rw [if_neg hd] at h
      exact tryGetLastServerLoop_ok_cursor _ _ _ _ _ h
  | random =>
    simp only [hr] at h
    by_cases he : (!(filterValidServer p).isEmpty) = true
    · rw [if_pos he] at h
      cases hv : (filterValidServer p)[draw ((filterValidServer p).length - 1)]? with
      | none => rw [hv] at h; simp at h
      | some s =>
        rw [hv] at h
        simp only [Except.ok.injEq, Prod.mk.injEq] at h
        rw [← h.2]
        exact hp
    · rw [if_neg he] at h
      simp only [Except.ok.injEq, Prod.mk.injEq] at h
      rw [← h.2]
      exact hp

theorem forceSet_cursor (p : UpstreamPool) (i : Int) (hp : cursorInRange p) :
    cursorInRange (forceSetLastUseUpstreamIndex p i) := by
  unfold forceSetLastUseUpstreamIndex
  by_cases h : 0 ≤ i ∧ (i % (SIZE_MOD : Int)).toNat < p._pool.length
  · rw [if_pos h]
    exact h.2
  · rw [if_neg h]
    exact hp

theorem cursorKeepingStep_cursor (p q : UpstreamPool) (hs : CursorKeepingStep p q)
    (hp : cursorInRange p) : cursorInRange q := by
  cases hs with
  | setConfig c h =>
    unfold cursorInRange
    rw [setConfig_length]
    exact h
  | forceSet i => exact forceSet_cursor p i hp
  | pick now draw fuel r _ hpick => exact pick_ok_cursor now draw fuel p r q hp hpick

/-- C18 (the claim as stated fails): two reachable states of the pool violate
`0 ≤ lastUseUpstreamIndex < N`. Right after construction the registry is empty
and the cursor is 0. And after `setConfig` with three servers,
`forceSetLastUseUpstreamIndex(2)` and a `setConfig` with one server, the cursor
is still 2 while `N = 1`: `setConfig` does not touch the cursor. -/
theorem cursor_out_of_range_reachable :
    Reachable .loop 10 (constructedPool .loop 10)
      ∧ (constructedPool .loop 10).lastUseUpstreamIndex = 0
      ∧ (constructedPool .loop 10)._pool.length = 0
      ∧ ¬ cursorInRange (constructedPool .loop 10)
      ∧ Reachable .loop 10 shrunkPool
      ∧ shrunkPool.lastUseUpstreamIndex = 2
      ∧ shrunkPool._pool.length = 1
      ∧ ¬ cursorInRange shrunkPool := by
  refine ⟨.constructed, rfl, rfl, by unfold cursorInRange; decide, ?_, rfl, rfl,
    by unfold cursorInRange; decide⟩
  exact .step _ _ (.step _ _ (.step _ _ .constructed (.setConfig _ threeUpstreams))
    (.forceSet _ 2)) (.setConfig _ oneUpstream)

/-- C18 (amended): from every state of the pool whose cursor is in range
(`0 ≤ lastUseUpstreamIndex < N`), the cursor is in range after any finite
sequence of `forceSetLastUseUpstreamIndex(i)`, of picks that return, under any
policy, and of `setConfig` calls whose upstream list has more than
`lastUseUpstreamIndex` entries. Such a state is reached from construction by a
`setConfig` with a non-empty upstream list. -/
theorem cursor_stays_in_range :
    (∀ p q : UpstreamPool, cursorInRange p →
        Relation.ReflTransGen CursorKeepingStep p q →
        0 ≤ q.lastUseUpstreamIndex ∧ q.lastUseUpstreamIndex < q._pool.length)
      ∧ (∀ (rule : RuleEnum) (serverChangeTime : Int) (c : LoaderConfig),
          c.upstream ≠ [] →
          cursorInRange (setConfig (constructedPool rule serverChangeTime) c)) := by
  refine ⟨?_, ?_⟩
  · intro p q hp hs
    refine ⟨Nat.zero_le _, ?_⟩
    induction hs with
    | refl => exact hp
    | tail _ hstep ih => exact cursorKeepingStep_cursor _ _ hstep ih
  · intro rule serverChangeTime c hc
    unfold cursorInRange
    rw [setConfig_length]
    exact List.length_pos.mpr hc

/-- Witness of C18 (amended): construction, `setConfig` with three servers,
`forceSetLastUseUpstreamIndex(2)`, then a pick under `loop` (no server is
eligible yet, the pick returns the null reference): the cursor is 2 of 3. -/
theorem cursor_stays_in_range_witness :
    cursorInRange (setConfig (constructedPool .loop 10) threeUpstreams)
      ∧ getServerBasedOnAddress 0 (fun _ => 0) 3
          (forceSetLastUseUpstreamIndex (setConfig (constructedPool .loop 10) threeUpstreams) 2)
        = .ok (none,
            forceSetLastUseUpstreamIndex (setConfig (constructedPool .loop 10) threeUpstreams) 2)
      ∧ (0 ≤ (forceSetLastUseUpstreamIndex
              (setConfig (constructedPool .loop 10) threeUpstreams) 2).lastUseUpstreamIndex
          ∧ (forceSetLastUseUpstreamIndex
              (setConfig (constructedPool .loop 10) threeUpstreams) 2).lastUseUpstreamIndex
            < (forceSetLastUseUpstreamIndex
              (setConfig (constructedPool .loop 10) threeUpstreams) 2)._pool.length) :=
  ⟨cursor_stays_in_range.2 .loop 10 threeUpstreams (by decide),
    rfl,
    cursor_stays_in_range.1 (setConfig (constructedPool .loop 10) threeUpstreams)
      (forceSetLastUseUpstreamIndex (setConfig (constructedPool .loop 10) threeUpstreams) 2)
      (cursor_stays_in_range.2 .loop 10 threeUpstreams (by decide))
      (.tail (.tail .refl (.forceSet _ 2))
        (.pick _ 0 (fun _ => 0) 3 none _ rfl))⟩

theorem pick_one_by_one (now : UpstreamTimePoint) (draw : Nat → Nat) (fuel : Nat)
    (p : UpstreamPool) (hr : p.upstreamSelectRule = .one_by_one) :
    getServerBasedOnAddress now draw fuel p = tryGetLastServer fuel p := by
  unfold getServerBasedOnAddress
  rw [hr]

theorem oneByOneSpec_of_cursor_eligible (p : UpstreamPool) (u : UpstreamServer)
    (hc : p.lastUseUpstreamIndex < p._pool.length)
    (hu : p._pool[p.lastUseUpstreamIndex]? = some u) (hcs : checkServer u = true) :
    oneByOneSpec p = (some u, p) := by
  unfold oneByOneSpec
  rcases scanOutcome_cyclic_cases p p.lastUseUpstreamIndex p.lastUseUpstreamIndex
    with ⟨k, v, _, h2, _, h4, h5⟩ | ⟨h1, _⟩
  · have hk : k = 0 := by
      by_contra hne
      have h6 := h4 0 (by omega)
      rw [Nat.add_zero, Nat.mod_eq_of_lt hc, slotEligible_of_getElem? _ _ _ hu, hcs] at h6
      simp at h6
    subst hk
    rw [Nat.add_zero, Nat.mod_eq_of_lt hc] at h2 h5
    rw [hu] at h2
    simp only [Option.some.injEq] at h2
    subst h2
    rw [pool_cursor_eta] at h5
    exact h5
  · have := h1 u (List.getElem?_mem hu)
    rw [hcs] at this
    simp at this

/-- C20: under policy `one_by_one`, for every registry with the cursor in
range, two consecutive picks with no liveness change in between return the same
result: the first pick returns a result `r` and leaves the pool `p1`, and the
second pick, made on `p1` at any later time, returns the same server `r` (or
the null reference again) and leaves the pool `p1`, the cursor included, as the
first pick left it. -/
theorem one_by_one_pick_twice (now now' : UpstreamTimePoint) (draw draw' : Nat → Nat)
    (fuel fuel' : Nat) (p : UpstreamPool)
    (hr : p.upstreamSelectRule = .one_by_one) (hS : p._pool.length < SIZE_MOD)
    (hc : p.lastUseUpstreamIndex < p._pool.length)
    (hf : p._pool.length ≤ fuel) (hf' : p._pool.length ≤ fuel') :
    ∃ r p1, getServerBasedOnAddress now draw fuel p = .ok (r, p1)
      ∧ getServerBasedOnAddress now' draw' fuel' p1 = .ok (r, p1)
      ∧ p1._pool = p._pool := by
  rw [pick_one_by_one now draw fuel p hr, tryGetLastServer_eq_oneByOneSpec p fuel hS hc hf]
  have hcases := scanOutcome_cyclic_cases p p.lastUseUpstreamIndex p.lastUseUpstreamIndex
  unfold oneByOneSpec
  rcases hcases with ⟨k, u, _, h2, h3, _, h5⟩ | ⟨_, h2⟩
  · rw [h5]
    refine ⟨_, _, rfl, ?_, rfl⟩
    have hj : (p.lastUseUpstreamIndex + k) % p._pool.length < p._pool.length := by
      obtain ⟨hlt, _⟩ := List.getElem?_eq_some.mp h2
      exact hlt
    generalize (p.lastUseUpstreamIndex + k) % p._pool.length = j at h2 hj
    have hstep : ∀ p1 : UpstreamPool, p1.upstreamSelectRule = .one_by_one →
        p1._pool = p._pool → p1.lastUseUpstreamIndex = j →
        getServerBasedOnAddress now' draw' fuel' p1 = .ok (some u, p1) := by
      intro p1 hr1 hp1 hc1
      rw [pick_one_by_one now' draw' fuel' p1 hr1,
        tryGetLastServer_eq_oneByOneSpec p1 fuel' (by rw [hp1]; exact hS)
          (by rw [hp1, hc1]; exact hj) (by rw [hp1]; exact hf'),
        oneByOneSpec_of_cursor_eligible p1 u (by rw [hp1, hc1]; exact hj)
          (by rw [hp1, hc1]; exact h2) h3]
    exact hstep _ hr rfl rfl
  · rw [h2, pool_cursor_eta]
    refine ⟨_, _, rfl, ?_, rfl⟩
    rw [pick_one_by_one now' draw' fuel' p hr,
      tryGetLastServer_eq_oneByOneSpec p fuel' hS hc hf']
    unfold oneByOneSpec
    rw [h2, pool_cursor_eta]

/-- Witness of C20 on a registry whose cursor is on a failing server: the first
pick moves the cursor from slot 1 to slot 2, the second pick returns the same
server and leaves the cursor on slot 2. -/
theorem one_by_one_pick_twice_witness :
    getServerBasedOnAddress 100 (fun _ => 0) 3
          { samplePool .one_by_one with lastUseUpstreamIndex := 1 }
        = .ok (some (sampleServer 2 true),
            { samplePool .one_by_one with lastUseUpstreamIndex := 2 })
      ∧ getServerBasedOnAddress 200 (fun _ => 0) 3
          { samplePool .one_by_one with lastUseUpstreamIndex := 2 }
        = .ok (some (sampleServer 2 true),
            { samplePool .one_by_one with lastUseUpstreamIndex := 2 })
      ∧ ∃ r p1, getServerBasedOnAddress 100 (fun _ => 0) 3
            { samplePool .one_by_one with lastUseUpstreamIndex := 1 } = .ok (r, p1)
          ∧ getServerBasedOnAddress 200 (fun _ => 0) 3 p1 = .ok (r, p1)
          ∧ p1._pool = (samplePool .one_by_one)._pool :=
  ⟨rfl, rfl,
    one_by_one_pick_twice 100 200 (fun _ => 0) (fun _ => 0) 3 3
      { samplePool .one_by_one with lastUseUpstreamIndex := 1 }
      rfl (by decide) (by decide) (by decide) (by decide)⟩

/-! ## SOCKS5 client handshake: the auth message without length check -/

theorem authMessage_ulen (authUser authPwd : List Nat) :
    (authMessage authUser authPwd)[1]? = some (authUser.length % 256) := by
  rw [authMessage_octets]
  simp

theorem authMessage_plen (authUser authPwd : List Nat) :
    (authMessage authUser authPwd)[2 + authUser.length]? = some (authPwd.length % 256) := by
  rw [authMessage_octets]
  have h : [0x01, authUser.length % 256] ++ authUser ++ [authPwd.length % 256] ++ authPwd
      = ([0x01, authUser.length % 256] ++ authUser) ++ (authPwd.length % 256 :: authPwd) := by
    simp
  rw [h, List.getElem?_append_right (by simp; omega)]
  simp
  have : 2 + authUser.length - (authUser.length + 2) = 0 := by omega
  rw [this]
  simp

/-- C27: `do_socks5_auth_write` performs no length check: for every `authUser`
of length `L` and `authPwd` of length `P` (`L > 255`, `P > 255` and `P = 0`
included) it builds the message `01 ULEN UNAME PLEN PASSWD` of `3 + L + P`
octets, the length assertion never fails and the message is handed to the
socket; the ULEN octet holds `L mod 256` and the PLEN octet `P mod 256`; so for
`L ≥ 256` the ULEN octet differs from the number `L` of UNAME octets sent. -/
theorem auth_message_without_length_check (authUser authPwd : List Nat) :
    authMessage authUser authPwd
        = [0x01, authUser.length % 256] ++ authUser ++ [authPwd.length % 256] ++ authPwd
      ∧ (authMessage authUser authPwd).length = 3 + authUser.length + authPwd.length
      ∧ (authMessage authUser authPwd)[1]? = some (authUser.length % 256)
      ∧ (authMessage authUser authPwd)[2 + authUser.length]? = some (authPwd.length % 256)
      ∧ (∀ (make_address : List Nat → ParsedAddress) (s : Session) (io : UpstreamScript),
          s.authUser = authUser → s.authPwd = authPwd →
          do_socks5_auth_write true make_address s io ≠ [.assertionFailed]
            ∧ ∃ rest, do_socks5_auth_write true make_address s io
                = .write (authMessage authUser authPwd) :: rest)
      ∧ (256 ≤ authUser.length → authUser.length % 256 ≠ authUser.length) := by
  have hlen := authMessage_length authUser authPwd
  refine ⟨?_, by omega, ?_, ?_, ?_, ?_⟩
  · exact authMessage_octets authUser authPwd
  · exact authMessage_ulen authUser authPwd
  · exact authMessage_plen authUser authPwd
  · intro make_address s io h1 h2
    subst h1
    subst h2
    have hrun : do_socks5_auth_write true make_address s io
        = .write (authMessage s.authUser s.authPwd) ::
            (if io.authW.ec then fail "do_socks5_auth_write"
            else if io.authW.bytes_transferred
                ≠ (authMessage s.authUser s.authPwd).length then
              fail (shortWriteText "do_socks5_auth_write" io.authW.bytes_transferred
                (authMessage s.authUser s.authPwd).length)
            else do_socks5_auth_read true make_address s io) := by
      unfold do_socks5_auth_write
      rw [if_pos rfl]
      dsimp only
      rw [if_neg (by rw [authMessage_length]; simp)]
    rw [hrun]
    exact ⟨by simp, _, rfl⟩
  · intro h
    have := Nat.mod_lt authUser.length (by decide : 0 < 256)
    omega

/-- Witness of C27: a user name of 256 octets with an empty password gives a
message of 259 octets whose ULEN octet is 0 and whose PLEN octet is 0. -/
theorem auth_message_without_length_check_witness :
    (authMessage (List.replicate 256 0x61) []).length = 259
      ∧ (authMessage (List.replicate 256 0x61) [])[1]? = some 0
      ∧ (List.replicate 256 0x61).length % 256 ≠ (List.replicate 256 0x61).length
      ∧ do_socks5_auth_write true (fun _ => .notAddress)
          { userPassSession with authUser := List.replicate 256 0x61, authPwd := [] }
          userPassScript ≠ [.assertionFailed] := by
  have h := auth_message_without_length_check (List.replicate 256 0x61) []
  refine ⟨?_, ?_, ?_, ?_⟩
  · rw [h.2.1, List.length_replicate]
    rfl
  · rw [h.2.2.1, List.length_replicate]
  · exact h.2.2.2.2.2 (by rw [List.length_replicate])
  · exact (h.2.2.2.2.1 (fun _ => .notAddress)
      { userPassSession with authUser := List.replicate 256 0x61, authPwd := [] }
      userPassScript rfl rfl).1

/-! ## Upstream pool: termination of the scans and `change_by_time` at the epoch -/

theorem scanOutcome_none_eq (p : UpstreamPool) (first : Nat)
    (h : (scanOutcome p (cyclicSlots p._pool.length first) p.lastUseUpstreamIndex).1 = none) :
    scanOutcome p (cyclicSlots p._pool.length first) p.lastUseUpstreamIndex = (none, p) := by
  rcases scanOutcome_cyclic_cases p first p.lastUseUpstreamIndex
    with ⟨k, u, _, _, _, _, h5⟩ | ⟨_, h2⟩
  · rw [h5] at h
    simp at h
  · rw [h2, pool_cursor_eta]

/-- C26: for every registry of `N ≥ 1` servers and every cursor `cur < N`, the
scanning loops of `getNextServer` and of `tryGetLastServer` return within `N`
iterations, each of which examines one slot (fuel `N` is enough, and more fuel
gives the same result); no iteration reads a slot index `≥ N` (the run is a
result, not the fault `outOfRange`); and when they return the null reference
the pool is unchanged, so the cursor is back at its starting value `cur`. -/
theorem scan_loops_return_within_one_revolution (p : UpstreamPool)
    (hS : p._pool.length < SIZE_MOD) (hc : p.lastUseUpstreamIndex < p._pool.length) :
    (∃ r q, getNextServer p._pool.length p = .ok (r, q)
        ∧ (∀ fuel, p._pool.length ≤ fuel → getNextServer fuel p = .ok (r, q))
        ∧ (r = none → q = p ∧ q.lastUseUpstreamIndex = p.lastUseUpstreamIndex))
      ∧ (∃ r q, tryGetLastServer p._pool.length p = .ok (r, q)
        ∧ (∀ fuel, p._pool.length ≤ fuel → tryGetLastServer fuel p = .ok (r, q))
        ∧ (r = none → q = p ∧ q.lastUseUpstreamIndex = p.lastUseUpstreamIndex))
      ∧ getNextServer p._pool.length p ≠ .error .outOfRange
      ∧ getNextServer p._pool.length p ≠ .error .outOfFuel
      ∧ tryGetLastServer p._pool.length p ≠ .error .outOfRange
      ∧ tryGetLastServer p._pool.length p ≠ .error .outOfFuel := by
  have h1 := getNextServer_eq_loopSpec p p._pool.length hS hc (le_refl _)
  have h2 := tryGetLastServer_eq_oneByOneSpec p p._pool.length hS hc (le_refl _)
  refine ⟨⟨(loopSpec p).1, (loopSpec p).2, h1, ?_, ?_⟩,
    ⟨(oneByOneSpec p).1, (oneByOneSpec p).2, h2, ?_, ?_⟩, ?_, ?_, ?_, ?_⟩
  · intro fuel hf
    exact getNextServer_eq_loopSpec p fuel hS hc hf
  · intro hr
    have h3 := scanOutcome_none_eq p (p.lastUseUpstreamIndex + 1) hr
    unfold loopSpec
    rw [h3]
    exact ⟨rfl, rfl⟩
  · intro fuel hf
    exact tryGetLastServer_eq_oneByOneSpec p fuel hS hc hf
  · intro hr
    have h3 := scanOutcome_none_eq p p.lastUseUpstreamIndex hr
    unfold oneByOneSpec
    rw [h3]
    exact ⟨rfl, rfl⟩
  · rw [h1]; simp
  · rw [h1]; simp
  · rw [h2]; simp
  · rw [h2]; simp

/-- Witness of C26 on `offlinePool` (three servers, none eligible, cursor 1):
both scans return the null reference with fuel 3 and leave the pool as it was;
with fuel 2 the scan of `getNextServer` has not returned yet. -/
theorem scan_loops_return_within_one_revolution_witness :
    getNextServer 3 (offlinePool .loop) = .ok (none, offlinePool .loop)
      ∧ tryGetLastServer 3 (offlinePool .loop) = .ok (none, offlinePool .loop)
      ∧ getNextServer 2 (offlinePool .loop) = .error .outOfFuel
      ∧ getNextServer (offlinePool .loop)._pool.length (offlinePool .loop)
          ≠ .error .outOfRange :=
  ⟨rfl, rfl, rfl,
    (scan_loops_return_within_one_revolution (offlinePool .loop)
      (by decide) (by decide)).2.2.1⟩

theorem tryGetLastServerLoop_frame (start fuel : Nat) :
    ∀ (p : UpstreamPool) (r : Option UpstreamServer) (q : UpstreamPool),
      tryGetLastServerLoop start fuel p = .ok (r, q) →
      q.lastChangeUpstreamTime = p.lastChangeUpstreamTime
        ∧ q.upstreamSelectRule = p.upstreamSelectRule
        ∧ q.serverChangeTime = p.serverChangeTime ∧ q._pool = p._pool := by
  induction fuel with
  | zero => intro p r q h; simp [tryGetLastServerLoop] at h
  | succ n ih =>
    intro p r q h
    rw [tryGetLastServerLoop_succ] at h
    generalize wrapIndex p.lastUseUpstreamIndex p._pool.length = i0 at h
    cases hv : p._pool[i0]? with
    | none => simp [hv] at h
    | some v =>
      simp only [hv] at h
      by_cases hc : checkServer v = true
      · rw [if_pos hc] at h
        simp only [Except.ok.injEq, Prod.mk.injEq] at h
        rw [← h.2]
        exact ⟨rfl, rfl, rfl, rfl⟩
      · rw [if_neg hc] at h
        generalize wrapIndex (incIndex i0) p._pool.length = i2 at h
        by_cases hs : start = i2
        · rw [if_pos hs] at h
          simp only [Except.ok.injEq, Prod.mk.injEq] at h
          rw [← h.2]
          exact ⟨rfl, rfl, rfl, rfl⟩
        · rw [if_neg hs] at h
          have h3 := ih _ _ _ h
          exact h3

/-- The scan of `tryGetLastServer` does not read the selection rule. -/
theorem tryGetLastServerLoop_rule (rule : RuleEnum) (start fuel : Nat) :
    ∀ p : UpstreamPool,
      tryGetLastServerLoop start fuel { p with upstreamSelectRule := rule }
        = (tryGetLastServerLoop start fuel p).map
            (fun x => (x.1, { x.2 with upstreamSelectRule := rule })) := by
  induction fuel with
  | zero => intro p; rfl
  | succ n ih =>
    intro p
    rw [tryGetLastServerLoop_succ, tryGetLastServerLoop_succ]
    dsimp only
    generalize wrapIndex p.lastUseUpstreamIndex p._pool.length = i0
    cases hv : p._pool[i0]? with
    | none => rfl
    | some v =>
      dsimp only
      by_cases hc : checkServer v = true
      · rw [if_pos hc, if_pos hc]
        rfl
      · rw [if_neg hc, if_neg hc]
        generalize wrapIndex (incIndex i0) p._pool.length = i2
        by_cases hs : start = i2
        · rw [if_pos hs, if_pos hs]
          rfl
        · rw [if_neg hs, if_neg hs]
          exact ih { p with lastUseUpstreamIndex := i2 }

theorem pick_change_by_time_at_epoch (now : UpstreamTimePoint) (draw : Nat → Nat)
    (fuel : Nat) (p : UpstreamPool) (hr : p.upstreamSelectRule = .change_by_time)
    (ht : p.lastChangeUpstreamTime = 0) (hd : 0 ≤ p.serverChangeTime) :
    getServerBasedOnAddress now draw fuel p = tryGetLastServer fuel p := by
  have hnot : ¬ ((0 : Int) - p.lastChangeUpstreamTime > p.serverChangeTime) := by
    rw [ht]
    omega
  unfold getServerBasedOnAddress
  rw [hr]
  dsimp only
  rw [if_neg hnot]

theorem runPicks_change_by_time_at_epoch (calls : List PickCall) :
    ∀ p : UpstreamPool, p.upstreamSelectRule = .change_by_time →
      p.lastChangeUpstreamTime = 0 → 0 ≤ p.serverChangeTime →
      runPicks calls { p with upstreamSelectRule := .one_by_one }
        = (runPicks calls p).map
            (fun x => (x.1, { x.2 with upstreamSelectRule := .one_by_one })) := by
  induction calls with
  | nil => intro p _ _ _; rfl
  | cons c rest ih =>
    intro p hr ht hd
    unfold runPicks
    rw [pick_change_by_time_at_epoch c.now c.draw c.fuel p hr ht hd,
      pick_one_by_one c.now c.draw c.fuel { p with upstreamSelectRule := .one_by_one } rfl]
    unfold tryGetLastServer
    have hrule := tryGetLastServerLoop_rule .one_by_one p.lastUseUpstreamIndex c.fuel p
    dsimp only at hrule ⊢
    rw [hrule]
    cases hres : tryGetLastServerLoop p.lastUseUpstreamIndex c.fuel p with
    | error e => rfl
    | ok v =>
      obtain ⟨r, p1⟩ := v
      have hf := tryGetLastServerLoop_frame _ _ _ _ _ hres
      have h1 := ih p1 (by rw [hf.2.1]; exact hr) (by rw [hf.1]; exact ht)
        (by rw [hf.2.2.1]; exact hd)
      simp only [Except.map]
      rw [h1]
      cases runPicks rest p1 with
      | error e => rfl
      | ok w => rfl

/-- C25: for every pool whose `lastChangeUpstreamTime` still has its
default-constructed (epoch) value and every `serverChangeTime ≥ 0`, a pick
under `change_by_time` compares the default-constructed local `t` (not the
current time `now`) with `lastChangeUpstreamTime`: whatever `now` is, it runs
`tryGetLastServer`, never the `loop` branch, and leaves
`lastChangeUpstreamTime` at the epoch. So every sequence of picks from such a
state returns under `change_by_time` the same servers, and leaves the same
cursor and registry, as under `one_by_one`. -/
theorem change_by_time_at_epoch_is_one_by_one (p : UpstreamPool)
    (hr : p.upstreamSelectRule = .change_by_time) (ht : p.lastChangeUpstreamTime = 0)
    (hd : 0 ≤ p.serverChangeTime) :
    (∀ (now : UpstreamTimePoint) (draw : Nat → Nat) (fuel : Nat),
        getServerBasedOnAddress now draw fuel p = tryGetLastServer fuel p
          ∧ (∀ r q, getServerBasedOnAddress now draw fuel p = .ok (r, q) →
              q.lastChangeUpstreamTime = 0 ∧ q.upstreamSelectRule = .change_by_time))
      ∧ (∀ calls : List PickCall,
          runPicks calls { p with upstreamSelectRule := .one_by_one }
            = (runPicks calls p).map
                (fun x => (x.1, { x.2 with upstreamSelectRule := .one_by_one })))
      ∧ (∀ (calls : List PickCall) (rs : List (Option UpstreamServer)) (q : UpstreamPool),
          runPicks calls p = .ok (rs, q) →
          ∃ q', runPicks calls { p with upstreamSelectRule := .one_by_one } = .ok (rs, q')
            ∧ q'.lastUseUpstreamIndex = q.lastUseUpstreamIndex ∧ q'._pool = q._pool) := by
  refine ⟨?_, ?_, ?_⟩
  · intro now draw fuel
    have h1 := pick_change_by_time_at_epoch now draw fuel p hr ht hd
    refine ⟨h1, ?_⟩
    intro r q hq
    rw [h1] at hq
    have hf := tryGetLastServerLoop_frame _ _ _ _ _ hq
    exact ⟨by rw [hf.1]; exact ht, by rw [hf.2.1]; exact hr⟩
  · intro calls
    exact runPicks_change_by_time_at_epoch calls p hr ht hd
  · intro calls rs q hq
    have h1 := runPicks_change_by_time_at_epoch calls p hr ht hd
    rw [hq] at h1
    exact ⟨_, h1, rfl, rfl⟩

/-- Witness of C25 on `timedPool`: three picks at times 100, 200 and 300, all
more than `serverChangeTime = 10` apart, return the server of slot 0 each time,
as `one_by_one` does. -/
theorem change_by_time_at_epoch_is_one_by_one_witness :
    runPicks threeCalls timedPool
        = .ok ([some (sampleServer 0 true), some (sampleServer 0 true),
            some (sampleServer 0 true)], timedPool)
      ∧ runPicks threeCalls { timedPool with upstreamSelectRule := .one_by_one }
        = .ok ([some (sampleServer 0 true), some (sampleServer 0 true),
            some (sampleServer 0 true)], { timedPool with upstreamSelectRule := .one_by_one })
      ∧ getServerBasedOnAddress 100 (fun _ => 0) 3 timedPool = tryGetLastServer 3 timedPool :=
  ⟨rfl,
    ((change_by_time_at_epoch_is_one_by_one timedPool rfl rfl (by decide)).2.1
      threeCalls).trans rfl,
    ((change_by_time_at_epoch_is_one_by_one timedPool rfl rfl (by decide)).1
      100 (fun _ => 0) 3).1⟩

/-! ## Upstream pool: a full revolution under `loop` -/

theorem pick_loop (now : UpstreamTimePoint) (draw : Nat → Nat) (fuel : Nat)
    (p : UpstreamPool) (hr : p.upstreamSelectRule = .loop) :
    getServerBasedOnAddress now draw fuel p = getNextServer fuel p := by
  unfold getServerBasedOnAddress
  rw [hr]

theorem getNextServer_all_eligible (p : UpstreamPool) (fuel : Nat)
    (hS : p._pool.length < SIZE_MOD) (hc : p.lastUseUpstreamIndex < p._pool.length)
    (hall : ∀ u ∈ p._pool, checkServer u = true) (hf : p._pool.length ≤ fuel) :
    getNextServer fuel p
      = .ok (p._pool[(p.lastUseUpstreamIndex + 1) % p._pool.length]?,
          { p with lastUseUpstreamIndex := (p.lastUseUpstreamIndex + 1) % p._pool.length }) := by
  rw [getNextServer_eq_loopSpec p fuel hS hc hf]
  unfold loopSpec
  have hN : 0 < p._pool.length := by omega
  have hj : (p.lastUseUpstreamIndex + 1) % p._pool.length < p._pool.length :=
    Nat.mod_lt _ hN
  have hu : p._pool[(p.lastUseUpstreamIndex + 1) % p._pool.length]?
      = some p._pool[(p.lastUseUpstreamIndex + 1) % p._pool.length] :=
    List.getElem?_eq_getElem hj
  have he : checkServer p._pool[(p.lastUseUpstreamIndex + 1) % p._pool.length] = true :=
    hall _ (List.getElem_mem hj)
  rcases scanOutcome_cyclic_cases p (p.lastUseUpstreamIndex + 1) p.lastUseUpstreamIndex
    with ⟨k, u, _, h2, _, h4, h5⟩ | ⟨h1, _⟩
  · have hk : k = 0 := by
      by_contra hne
      have h6 := h4 0 (by omega)
      rw [Nat.add_zero, slotEligible_of_getElem? _ _ _ hu, he] at h6
      simp at h6
    subst hk
    rw [Nat.add_zero] at h2 h5
    rw [h5, h2]
  · have := h1 _ (List.getElem_mem hj)
    rw [he] at this
    simp at this

theorem runPicks_loop_all_eligible (calls : List PickCall) :
    ∀ p : UpstreamPool, p.upstreamSelectRule = .loop → p._pool.length < SIZE_MOD →
      p.lastUseUpstreamIndex < p._pool.length →
      (∀ u ∈ p._pool, checkServer u = true) →
      (∀ c ∈ calls, p._pool.length ≤ c.fuel) →
      runPicks calls p
        = .ok ((List.range calls.length).map
              (fun k => p._pool[(p.lastUseUpstreamIndex + 1 + k) % p._pool.length]?),
            { p with lastUseUpstreamIndex :=
                (p.lastUseUpstreamIndex + calls.length) % p._pool.length }) := by
  induction calls with
  | nil =>
    intro p _ _ hc _ _
    have e : (p.lastUseUpstreamIndex + 0) % p._pool.length = p.lastUseUpstreamIndex := by
      rw [Nat.add_zero]
      exact Nat.mod_eq_of_lt hc
    unfold runPicks
    rw [List.length_nil, e, pool_cursor_eta]
    rfl
  | cons c rest ih =>
    intro p hr hS hc hall hf
    have hN : 0 < p._pool.length := by omega
    unfold runPicks
    rw [pick_loop c.now c.draw c.fuel p hr,
      getNextServer_all_eligible p c.fuel hS hc hall (hf c (List.mem_cons_self _ _))]
    dsimp only
    have h1 := ih { p with lastUseUpstreamIndex := (p.lastUseUpstreamIndex + 1) % p._pool.length }
      hr hS (Nat.mod_lt _ hN) hall (fun c' hc' => hf c' (List.mem_cons_of_mem _ hc'))
    dsimp only at h1
    rw [h1]
    dsimp only
    have hidx : ∀ k, ((p.lastUseUpstreamIndex + 1) % p._pool.length + 1 + k) % p._pool.length
        = (p.lastUseUpstreamIndex + 1 + (k + 1)) % p._pool.length := by
      intro k
      rw [Nat.add_assoc, Nat.mod_add_mod, Nat.add_comm 1 k]
    have hcur : ((p.lastUseUpstreamIndex + 1) % p._pool.length + rest.length) % p._pool.length
        = (p.lastUseUpstreamIndex + (rest.length + 1)) % p._pool.length := by
      rw [Nat.mod_add_mod, Nat.add_assoc, Nat.add_comm 1 rest.length]
    simp only [hidx, hcur, List.length_cons, List.range_succ_eq_map, List.map_cons,
      List.map_map, Nat.add_zero]
    rfl

theorem cyclicSlots_nodup (N first : Nat) : (cyclicSlots N first).Nodup := by
  unfold cyclicSlots
  apply List.Nodup.map_on _ (List.nodup_range N)
  intro a ha b hb h
  rw [List.mem_range] at ha hb
  have h2 : a % N = b % N := Nat.ModEq.add_left_cancel' first h
  rw [Nat.mod_eq_of_lt ha, Nat.mod_eq_of_lt hb] at h2
  exact h2

theorem mem_cyclicSlots (N first j : Nat) : j ∈ cyclicSlots N first ↔ j < N := by
  unfold cyclicSlots
  rw [List.mem_map]
  constructor
  · rintro ⟨k, hk, rfl⟩
    rw [List.mem_range] at hk
    exact Nat.mod_lt _ (by omega)
  · intro hj
    obtain ⟨k, hk, hkj⟩ := cyclic_cover first j N hj
    exact ⟨k, List.mem_range.mpr hk, hkj⟩

/-- C21: under policy `loop`, for every registry of `N ≥ 1` servers that all
pass `checkServer` and every starting cursor `cur < N`, `N` consecutive picks
return the servers of the slots `(cur + 1) mod N`, `(cur + 2) mod N`, ...,
`cur`, in this cyclic order, and leave the cursor back on `cur`. These `N`
slots are pairwise distinct and are all the slots of the registry, so each
server is returned exactly once; when no two entries of the registry are equal
the `N` returned servers are pairwise distinct. -/
theorem loop_visits_each_server_once (calls : List PickCall) (p : UpstreamPool)
    (hr : p.upstreamSelectRule = .loop) (hS : p._pool.length < SIZE_MOD)
    (hc : p.lastUseUpstreamIndex < p._pool.length)
    (hall : ∀ u ∈ p._pool, checkServer u = true)
    (hlen : calls.length = p._pool.length)
    (hf : ∀ c ∈ calls, p._pool.length ≤ c.fuel) :
    runPicks calls p
        = .ok ((cyclicSlots p._pool.length (p.lastUseUpstreamIndex + 1)).map
            (fun j => p._pool[j]?), p)
      ∧ cyclicSlots p._pool.length (p.lastUseUpstreamIndex + 1)
          = (List.range p._pool.length).map
              (fun k => (p.lastUseUpstreamIndex + 1 + k) % p._pool.length)
      ∧ (cyclicSlots p._pool.length (p.lastUseUpstreamIndex + 1)).Nodup
      ∧ (∀ j, j ∈ cyclicSlots p._pool.length (p.lastUseUpstreamIndex + 1)
          ↔ j < p._pool.length)
      ∧ (∀ r ∈ (cyclicSlots p._pool.length (p.lastUseUpstreamIndex + 1)).map
            (fun j => p._pool[j]?), ∃ u ∈ p._pool, r = some u)
      ∧ (p._pool.Nodup →
          ((cyclicSlots p._pool.length (p.lastUseUpstreamIndex + 1)).map
            (fun j => p._pool[j]?)).Nodup) := by
  refine ⟨?_, rfl, cyclicSlots_nodup _ _, mem_cyclicSlots _ _, ?_, ?_⟩
  · rw [runPicks_loop_all_eligible calls p hr hS hc hall hf, hlen, Nat.add_mod_right,
      Nat.mod_eq_of_lt hc, pool_cursor_eta]
    unfold cyclicSlots
    rw [List.map_map]
    rfl
  · intro r hr'
    rw [List.mem_map] at hr'
    obtain ⟨j, hj, rfl⟩ := hr'
    have hjlt := (mem_cyclicSlots _ _ j).mp hj
    exact ⟨p._pool[j], List.getElem_mem hjlt, List.getElem?_eq_getElem hjlt⟩
  · intro hnd
    apply List.Nodup.map_on _ (cyclicSlots_nodup _ _)
    intro a ha b _ h
    exact List.getElem?_inj ((mem_cyclicSlots _ _ a).mp ha) hnd h

/-- Witness of C21 on `healthyPool` (three eligible servers, cursor 1): three
picks return the servers of slots 2, 0 and 1 and leave the cursor on 1. -/
theorem loop_visits_each_server_once_witness :
    runPicks threeCalls (healthyPool .loop)
        = .ok ([some (sampleServer 2 true), some (sampleServer 0 true),
            some (sampleServer 1 true)], healthyPool .loop)
      ∧ cyclicSlots 3 2 = [2, 0, 1]
      ∧ ([some (sampleServer 2 true), some (sampleServer 0 true),
            some (sampleServer 1 true)] : List (Option UpstreamServer)).Nodup := by
  have h := loop_visits_each_server_once threeCalls (healthyPool .loop) rfl (by decide)
    (by decide) (by decide) rfl (by decide)
  exact ⟨h.1.trans rfl, by decide, h.2.2.2.2.2 (by decide)⟩

/-! ## Upstream pool: health recovery, the `disable` flag and the check timers -/

theorem pick_single_eligible (now : UpstreamTimePoint) (draw : Nat → Nat) (fuel : Nat)
    (p : UpstreamPool) (u : UpstreamServer) (hp : p._pool = [u])
    (hc : p.lastUseUpstreamIndex = 0) (hu : checkServer u = true) (hf : 1 ≤ fuel)
    (hdraw : ∀ hi, draw hi ≤ hi) :
    ∃ q, getServerBasedOnAddress now draw fuel p = .ok (some u, q) := by
  have hlen : p._pool.length = 1 := by rw [hp]; rfl
  obtain ⟨r, q, h1, h2⟩ := pick_none_iff now draw fuel p
    (by rw [hlen]; decide) (by rw [hlen, hc]; decide) (by rw [hlen]; exact hf) hdraw
  cases r with
  | none =>
    have h3 := h2.mp rfl u (by rw [hp]; exact List.mem_singleton.mpr rfl)
    rw [hu] at h3
    simp at h3
  | some v =>
    have h3 := (pick_some_eligible now draw fuel p v q h1).2.1
    rw [hp, List.mem_singleton] at h3
    rw [h3] at h1
    exact ⟨q, h1⟩

/-- C22: for every server in its initial state (`isOffline = true`, both
timestamps absent, `isManualDisable = false`; the initial value of
`lastConnectFailed` is not needed): a successful TCP probe at time `t1` gives
`isOffline = false`, `lastConnectFailed = false`, `lastOnlineTime = t1`; a
following successful HTTPS probe at time `t2` gives `lastConnectTime = t2`;
after both the server passes `checkServer` and a pick, under every policy, on a
registry holding it returns it; after only one of the two probes, and before
any probe, it does not pass `checkServer`. -/
theorem health_recovery (a : UpstreamServer) (t1 t2 : UpstreamTimePoint)
    (hoff : a.isOffline = true) (honl : a.lastOnlineTime = none)
    (hcon : a.lastConnectTime = none) (hman : a.isManualDisable = false) :
    ((tcpProbeOk t1 a).isOffline = false ∧ (tcpProbeOk t1 a).lastConnectFailed = false
        ∧ (tcpProbeOk t1 a).lastOnlineTime = some t1)
      ∧ (connectProbeOk t2 (tcpProbeOk t1 a)).lastConnectTime = some t2
      ∧ checkServer (connectProbeOk t2 (tcpProbeOk t1 a)) = true
      ∧ checkServer a = false
      ∧ checkServer (tcpProbeOk t1 a) = false
      ∧ checkServer (connectProbeOk t2 a) = false
      ∧ (∀ (now : UpstreamTimePoint) (draw : Nat → Nat) (fuel : Nat) (p : UpstreamPool),
          p._pool = [connectProbeOk t2 (tcpProbeOk t1 a)] → p.lastUseUpstreamIndex = 0 →
          1 ≤ fuel → (∀ hi, draw hi ≤ hi) →
          ∃ q, getServerBasedOnAddress now draw fuel p
            = .ok (some (connectProbeOk t2 (tcpProbeOk t1 a)), q)) := by
  have hboth : checkServer (connectProbeOk t2 (tcpProbeOk t1 a)) = true := by
    unfold checkServer connectProbeOk tcpProbeOk
    simp [hoff, hman]
  refine ⟨⟨?_, ?_, ?_⟩, rfl, hboth, ?_, ?_, ?_, ?_⟩
  · unfold tcpProbeOk
    simp [hoff]
  · unfold tcpProbeOk
    simp [hoff]
  · unfold tcpProbeOk
    simp [hoff]
  · unfold checkServer
    simp [hoff]
  · unfold checkServer tcpProbeOk
    simp [hoff, hcon]
  · unfold checkServer connectProbeOk
    simp [hoff, honl]
  · intro now draw fuel p hp hc hf hdraw
    exact pick_single_eligible now draw fuel p _ hp hc hboth hf hdraw

/-- Witness of C22: a server as `setConfig` builds it, with a TCP probe
succeeding at time 1 and an HTTPS probe succeeding at time 2; a registry
holding only this server returns it under `loop`. -/
theorem health_recovery_witness :
    checkServer (connectProbeOk 2 (tcpProbeOk 1
        (newUpstreamServer 0 { name := "a", host := "127.0.0.1", port := 1080 }))) = true
      ∧ checkServer (tcpProbeOk 1
        (newUpstreamServer 0 { name := "a", host := "127.0.0.1", port := 1080 })) = false
      ∧ ∃ q, getServerBasedOnAddress 3 (fun _ => 0) 1
          { _pool := [connectProbeOk 2 (tcpProbeOk 1
              (newUpstreamServer 0 { name := "a", host := "127.0.0.1", port := 1080 }))],
            upstreamSelectRule := .loop, serverChangeTime := 10 }
        = .ok (some (connectProbeOk 2 (tcpProbeOk 1
            (newUpstreamServer 0 { name := "a", host := "127.0.0.1", port := 1080 }))), q) := by
  have h := health_recovery
    (newUpstreamServer 0 { name := "a", host := "127.0.0.1", port := 1080 }) 1 2
    rfl rfl rfl rfl
  exact ⟨h.2.2.1, h.2.2.2.2.1,
    h.2.2.2.2.2.2 3 (fun _ => 0) 1 _ rfl rfl (le_refl 1) (fun hi => Nat.zero_le hi)⟩

theorem applyProbe_isManualDisable (a : UpstreamServer) (o : ProbeOutcome) :
    (applyProbe a o).isManualDisable = a.isManualDisable := by
  cases o with
  | tcpOk now =>
    unfold applyProbe tcpProbeOk
    cases h : a.isOffline <;> simp [h]
  | tcpError => rfl
  | connectOk now => rfl
  | connectError => rfl

theorem applyProbes_isManualDisable (outcomes : List ProbeOutcome) :
    ∀ a : UpstreamServer, (applyProbes a outcomes).isManualDisable = a.isManualDisable := by
  induction outcomes with
  | nil => intro a; rfl
  | cons o rest ih =>
    intro a
    have h := ih (applyProbe a o)
    rw [applyProbe_isManualDisable] at h
    exact h

/-- C23 (the claim as stated fails): a server built by `setConfig` from an entry
with `disable = true` keeps `disable = true`, and after a successful TCP probe
and a successful HTTPS probe, with no admin action, it passes `checkServer`
and a pick under `loop` returns it: `checkServer` reads `isManualDisable`, which
`setConfig` leaves false, and never reads `disable`. -/
theorem disabled_entry_becomes_eligible :
    (setConfig (constructedPool .loop 10) disabledUpstream)._pool
        = [newUpstreamServer 0
            { name := "a", host := "127.0.0.1", port := 1080, disable := true }]
      ∧ disabledProbedPool._pool
        = [applyProbes (newUpstreamServer 0
            { name := "a", host := "127.0.0.1", port := 1080, disable := true })
            [.tcpOk 1, .connectOk 2]]
      ∧ (applyProbes (newUpstreamServer 0
            { name := "a", host := "127.0.0.1", port := 1080, disable := true })
            [.tcpOk 1, .connectOk 2]).disable = true
      ∧ checkServer (applyProbes (newUpstreamServer 0
            { name := "a", host := "127.0.0.1", port := 1080, disable := true })
            [.tcpOk 1, .connectOk 2]) = true
      ∧ getServerBasedOnAddress 3 (fun _ => 0) 1 disabledProbedPool
        = .ok (some (applyProbes (newUpstreamServer 0
            { name := "a", host := "127.0.0.1", port := 1080, disable := true })
            [.tcpOk 1, .connectOk 2]), disabledProbedPool) :=
  ⟨rfl, rfl, rfl, rfl, rfl⟩

/-- C23 (amended): the flag that keeps a server from being eligible is
`isManualDisable`, not `disable`. For every server with
`isManualDisable = true`, after every sequence of TCP and HTTPS probe outcomes
`checkServer` is false for it, and a pick, under every policy, never returns a
server with `isManualDisable = true`. `setConfig` copies `disable` from the
configuration entry and leaves `isManualDisable = false`, and `checkServer`
does not depend on `disable`; a server built from any entry does not pass
`checkServer` before its probes have been answered. -/
theorem manually_disabled_never_eligible :
    (∀ (a : UpstreamServer) (outcomes : List ProbeOutcome), a.isManualDisable = true →
        checkServer (applyProbes a outcomes) = false)
      ∧ (∀ (now : UpstreamTimePoint) (draw : Nat → Nat) (fuel : Nat) (p q : UpstreamPool)
          (u : UpstreamServer),
          getServerBasedOnAddress now draw fuel p = .ok (some u, q) →
          u.isManualDisable = false)
      ∧ (∀ (index : Nat) (r : UpstreamConfig),
          (newUpstreamServer index r).disable = r.disable
            ∧ (newUpstreamServer index r).isManualDisable = false
            ∧ checkServer (newUpstreamServer index r) = false)
      ∧ (∀ (a : UpstreamServer) (b : Bool),
          checkServer { a with disable := b } = checkServer a) := by
  refine ⟨?_, ?_, ?_, ?_⟩
  · intro a outcomes ha
    unfold checkServer
    rw [applyProbes_isManualDisable, ha]
    simp
  · intro now draw fuel p q u h
    have h1 := (pick_some_eligible now draw fuel p u q h).1
    exact ((checkServer_iff u).mp h1).2.2.2.2
  · intro index r
    exact ⟨rfl, rfl, rfl⟩
  · intro a b
    rfl

/-- Witness of C23 (amended): the server of `disabledProbedPool` with
`isManualDisable` set does not pass `checkServer` after two successful
probes. -/
theorem manually_disabled_never_eligible_witness :
    checkServer (applyProbes
        { newUpstreamServer 0 { name := "a", host := "127.0.0.1", port := 1080 } with
          isManualDisable := true }
        [.tcpOk 1, .connectOk 2]) = false
      ∧ (applyProbes (newUpstreamServer 0
            { name := "a", host := "127.0.0.1", port := 1080, disable := true })
            [.tcpOk 1, .connectOk 2]).isManualDisable = false :=
  ⟨manually_disabled_never_eligible.1
      { newUpstreamServer 0 { name := "a", host := "127.0.0.1", port := 1080 } with
        isManualDisable := true }
      [.tcpOk 1, .connectOk 2] rfl,
    manually_disabled_never_eligible.2.1 3 (fun _ => 0) 1 disabledProbedPool
      disabledProbedPool _ rfl⟩

theorem fireTimers_tcpExpiry (c : TimerConfig) (fired : List TimerKind) :
    ∀ t : CheckTimers,
      (fireTimers c t fired).tcpExpiry
        = t.tcpExpiry + (fired.count .tcp : Int) * c.tcpCheckPeriod := by
  induction fired with
  | nil => intro t; simp [fireTimers]
  | cons k rest ih =>
    intro t
    have hstep : fireTimers c t (k :: rest) = fireTimers c (fireTimer c t k) rest := rfl
    rw [hstep, ih]
    cases k with
    | tcp =>
      have h1 : (fireTimer c t .tcp).tcpExpiry = t.tcpExpiry + c.tcpCheckPeriod := rfl
      rw [h1, List.count_cons_self]
      push_cast
      ring
    | connect =>
      have h1 : (fireTimer c t .connect).tcpExpiry = t.tcpExpiry := rfl
      rw [h1, List.count_cons_of_ne (by decide)]

/-- C24 (evaluation of the code at the failing input): with
`tcpCheckStart = 50`, `tcpCheckPeriod = 7`, `connectCheckStart = 1` and
`connectCheckPeriod = 100` the first HTTPS tick is at time 1, and by the claim
the second should be at `1 + 100 = 101`. The handler of `do_connectCheckerTimer`
re-arms the HTTPS timer at the expiry of the TCP timer plus
`connectCheckPeriod`, here `50 + 100 = 150`, and the second HTTPS tick comes at
150, after fifteen TCP ticks. The TCP timer is re-armed at its own expiry:
after any ticks, of which `k` are TCP ticks, it is set to
`tcpCheckStart + k * tcpCheckPeriod`. -/
theorem connect_timer_rearmed_from_tcp_timer :
    startCheckTimer sampleTimerConfig = { tcpExpiry := 50, connectExpiry := 1 }
      ∧ sampleTimerConfig.connectCheckStart + 1 * sampleTimerConfig.connectCheckPeriod = 101
      ∧ (do_connectCheckerTimer sampleTimerConfig
          (startCheckTimer sampleTimerConfig)).connectExpiry = 150
      ∧ connectTicks (tickLog sampleTimerConfig 17 (startCheckTimer sampleTimerConfig))
        = [1, 150]
      ∧ tcpTicks (tickLog sampleTimerConfig 17 (startCheckTimer sampleTimerConfig))
        = [50, 57, 64, 71, 78, 85, 92, 99, 106, 113, 120, 127, 134, 141, 148]
      ∧ (∀ (c : TimerConfig) (t : CheckTimers),
          (do_connectCheckerTimer c t).connectExpiry = t.tcpExpiry + c.connectCheckPeriod
            ∧ (do_tcpCheckerTimer c t).tcpExpiry = t.tcpExpiry + c.tcpCheckPeriod)
      ∧ (∀ (c : TimerConfig) (fired : List TimerKind),
          (fireTimers c (startCheckTimer c) fired).tcpExpiry
            = c.tcpCheckStart + (fired.count .tcp : Int) * c.tcpCheckPeriod) := by
  refine ⟨rfl, by decide, rfl, by decide, by decide, fun c t => ⟨rfl, rfl⟩, ?_⟩
  intro c fired
  exact fireTimers_tcpExpiry c fired (startCheckTimer c)
